import Mathlib

/-!
# BACnet stack: senders of ConfirmedEventNotification and Who-Is, Multi-state Output object

A shallow embedding of `demo/handler/s_cevent.c`, `demo/handler/s_whois.c` and
`demo/object/mso.c`.

The senders are sequences of calls to collaborators (DCC gate, address binding
table, TSM, codec, datalink).  Each sender is embedded as a function of an
environment `Env`, which fixes what every collaborator returns, to the value
the C function returns together with the ordered list of collaborator calls it
makes (`Call`), arguments included.  The DCC predicate is a pure query and is
not recorded; every other collaborator call is.
-/

namespace BACnet

/-! ## Data of the senders -/

/-- A `PORT_SUPPORT *`: the handle of a datalink port. -/
abbrev PORT_SUPPORT := Nat

/-- Contents of a `BACNET_ADDRESS` (declared in a header that is not among the sources). -/
structure BACNET_ADDRESS where
  raw : List Nat
  deriving DecidableEq, Repr

/-- Contents of a `BACNET_GLOBAL_ADDRESS` (the `glAdr` member of a path). -/
structure BACNET_GLOBAL_ADDRESS where
  raw : List Nat
  deriving DecidableEq, Repr

/-- A `BACNET_PATH`.  The senders name one member, `glAdr`; the remaining
contents are kept as `localMac`. -/
structure BACNET_PATH where
  localMac : List Nat
  glAdr : BACNET_GLOBAL_ADDRESS
  deriving DecidableEq, Repr

/-- A `BACNET_ROUTE`: the members `portParams` and `bacnetPath` used by `s_whois.c`. -/
structure BACNET_ROUTE where
  portParams : PORT_SUPPORT
  bacnetPath : BACNET_PATH
  deriving DecidableEq, Repr

/-- Network priorities; the senders use `MESSAGE_PRIORITY_NORMAL` only. -/
inductive BACNET_MESSAGE_PRIORITY where
  | MESSAGE_PRIORITY_NORMAL
  | other (n : Nat)
  deriving DecidableEq, Repr

/-- The `BACNET_NPCI_DATA` a sender fills in with `npdu_setup_npci_data`. -/
structure BACNET_NPCI_DATA where
  data_expecting_reply : Bool
  priority : BACNET_MESSAGE_PRIORITY
  deriving DecidableEq, Repr

/-- Contents of the event handed to `Send_CEvent_Notify`. -/
structure BACNET_EVENT_NOTIFICATION_DATA where
  raw : List Nat
  deriving DecidableEq, Repr

/-- A datalink control block: the transmit buffer and its recorded length. -/
structure DLCB where
  Handler_Transmit_Buffer : List Nat
  optr : Nat
  deriving DecidableEq, Repr

/-- What a pointer argument points to.  The senders pass pointers to objects of
several types to the same collaborators (`Send_WhoIs_Remote` passes a
`BACNET_PATH *` where `Send_WhoIs_To_Network` declares a `BACNET_ROUTE *`), so a
pointer is embedded as the object it designates, tagged with that object's type. -/
inductive Ptr where
  | null
  | address (a : BACNET_ADDRESS)
  | glAdr (a : BACNET_GLOBAL_ADDRESS)
  | path (p : BACNET_PATH)
  | route (r : BACNET_ROUTE)
  deriving DecidableEq, Repr

/-- One call to a collaborator, with the arguments passed. -/
inductive Call where
  | address_get_by_device (device_id : Nat)
  | tsm_next_free_invokeID
  | datalink_get_my_address
  | datalink_get_broadcast_address
  | alloc_dlcb_response (tag : Char) (dest : Ptr)
  | npdu_encode_pdu (dest : Ptr) (src : Ptr) (npci_data : BACNET_NPCI_DATA)
  | cevent_notify_encode_apdu (invoke_id : Nat) (data : BACNET_EVENT_NOTIFICATION_DATA)
  | whois_encode_apdu (low_limit : Int) (high_limit : Int)
  | tsm_set_confirmed_unsegmented_transaction (invoke_id : Nat) (dest : Ptr)
      (npci_data : BACNET_NPCI_DATA) (dlcb : DLCB)
  | datalink_send_pdu (dest : Ptr) (npci_data : BACNET_NPCI_DATA) (dlcb : DLCB)
  | tsm_free_invoke_id (invoke_id : Nat)
  deriving DecidableEq, Repr

/-- The collaborators of the senders: what each of them answers.  None of them
is among the sources; each is a parameter.

* `address_get_by_device d` is `none` when the function returns `false` (the
  device is not bound), `some (max_apdu, dest)` when it returns `true` having
  written `max_apdu` and `dest`.
* `tsm_next_free_invokeID` is the `uint8_t` the allocator returns.
* the encoders give the octets they write; the `int` they return is the number
  of octets written.
* `alloc_dlcb_response` is `none` for `NULL`.
* `datalink_send_pdu` gives `bytes_sent`.
* `dlcb` and `target_address` are the identifiers that occur free in
  `Send_CEvent_Notify` and in `Send_WhoIs_To_Network`.
* `stack_dest` is the indeterminate initial content of the local `BACNET_ROUTE dest`
  of the Who-Is senders.
* `missing_argument` is the indeterminate value the third parameter of
  `Send_WhoIs_Global` holds when `Send_WhoIs` calls it with two arguments, and
  `port_of_int` is the conversion of an `int32_t` argument to the
  `PORT_SUPPORT *` of the first parameter. -/
structure Env where
  dcc_communication_enabled : Bool
  address_get_by_device : Nat → Option (Nat × BACNET_PATH)
  tsm_next_free_invokeID : Nat
  npdu_encode_pdu : Ptr → Ptr → BACNET_NPCI_DATA → List Nat
  cevent_notify_encode_apdu : Nat → BACNET_EVENT_NOTIFICATION_DATA → List Nat
  whois_encode_apdu : Int → Int → List Nat
  alloc_dlcb_response : Char → Ptr → Option DLCB
  datalink_send_pdu : Ptr → BACNET_NPCI_DATA → DLCB → Int
  datalink_get_broadcast_address : BACNET_ROUTE → BACNET_ROUTE
  bacnet_path_set_broadcast_global : BACNET_PATH → BACNET_PATH
  bacnet_path_set_broadcast_local : BACNET_PATH → BACNET_PATH
  dlcb : DLCB
  target_address : Ptr
  my_address : BACNET_ADDRESS
  stack_dest : BACNET_ROUTE
  missing_argument : Int
  port_of_int : Int → PORT_SUPPORT

/-- Modelled from the spec: `npdu_setup_npci_data` (npdu.c, not among the
sources) fills the network-layer control data with the expecting-reply flag and
the priority it is given. -/
def npdu_setup_npci_data (data_expecting_reply : Bool)
    (priority : BACNET_MESSAGE_PRIORITY) : BACNET_NPCI_DATA :=
  { data_expecting_reply := data_expecting_reply, priority := priority }

/-- Modelled from the spec: `bacnet_path_copy` (not among the sources) copies the
source path into the destination; a route is copy-on-use. -/
def bacnet_path_copy (src : BACNET_PATH) : BACNET_PATH := src

/-- An encoder writing `bytes` into a buffer starting at offset `off`.  The
list is the content of the buffer, its length the capacity; octets written
beyond the end make the list longer (they are the writes past the buffer). -/
def writeAt (buf : List Nat) (off : Nat) (bytes : List Nat) : List Nat :=
  buf.take off ++ List.replicate (off - buf.length) 0 ++ bytes ++ buf.drop (off + bytes.length)

/-- The conversion `(unsigned) x` of a non-negative `int`. -/
def toUnsigned (x : Nat) : Nat := x % 2 ^ 32

/-- The conversion to `uint8_t`. -/
def toUint8 (x : Nat) : Nat := x % 2 ^ 8

/-! ## `s_cevent.c` -/

/-- The value of `pdu_len` in `Send_CEvent_Notify` once both encoders have run
with invoke id `invoke_id`: NPDU length plus APDU length. -/
def cevent_pdu_len (env : Env) (dest : BACNET_PATH) (invoke_id : Nat)
    (data : BACNET_EVENT_NOTIFICATION_DATA) : Nat :=
  (env.npdu_encode_pdu (Ptr.glAdr dest.glAdr) Ptr.null
      (npdu_setup_npci_data true BACNET_MESSAGE_PRIORITY.MESSAGE_PRIORITY_NORMAL)).length
    + (env.cevent_notify_encode_apdu invoke_id data).length

/-- Embedding of `Send_CEvent_Notify`: the `uint8_t` returned and the collaborator calls made. -/
def Send_CEvent_Notify (env : Env) (portParams : PORT_SUPPORT) (device_id : Nat)
    (data : BACNET_EVENT_NOTIFICATION_DATA) : Nat × List Call :=
  let _ := portParams
  if !env.dcc_communication_enabled then
    (0, [])
  else
    -- is the device bound?
    match env.address_get_by_device device_id with
    | none =>
      -- status is false: invoke_id keeps its initial 0 and the block is skipped
      (0, [Call.address_get_by_device device_id])
    | some (max_apdu, dest) =>
      -- is there a tsm available?
      let invoke_id := toUint8 env.tsm_next_free_invokeID
      if invoke_id = 0 then
        (invoke_id, [Call.address_get_by_device device_id, Call.tsm_next_free_invokeID])
      else
        let npci_data :=
          npdu_setup_npci_data true BACNET_MESSAGE_PRIORITY.MESSAGE_PRIORITY_NORMAL
        let npdu := env.npdu_encode_pdu (Ptr.glAdr dest.glAdr) Ptr.null npci_data
        let pdu_len := npdu.length
        let buf := writeAt env.dlcb.Handler_Transmit_Buffer 0 npdu
        let apdu := env.cevent_notify_encode_apdu invoke_id data
        let len := apdu.length
        let buf := writeAt buf pdu_len apdu
        let pdu_len := pdu_len + len
        let encoded : List Call :=
          [Call.address_get_by_device device_id, Call.tsm_next_free_invokeID,
           Call.datalink_get_my_address,
           Call.npdu_encode_pdu (Ptr.glAdr dest.glAdr) Ptr.null npci_data,
           Call.cevent_notify_encode_apdu invoke_id data]
        -- will it fit in the sender?
        if toUnsigned pdu_len < max_apdu then
          let dlcb : DLCB := { Handler_Transmit_Buffer := buf, optr := pdu_len }
          (invoke_id,
            encoded ++
              [Call.tsm_set_confirmed_unsegmented_transaction invoke_id (Ptr.path dest)
                 npci_data dlcb,
               Call.datalink_send_pdu (Ptr.path dest) npci_data dlcb])
        else
          (0, encoded ++ [Call.tsm_free_invoke_id invoke_id])

/-! ## `s_whois.c` -/

/-- Embedding of `Send_WhoIs_To_Network`: the collaborator calls made.  The
body allocates the control block for `dest`, and encodes and sends to the free
identifier `target_address`; it does not consult the DCC gate and does not
store `pdu_len` in the control block. -/
def Send_WhoIs_To_Network (env : Env) (dest : Ptr) (low_limit high_limit : Int) :
    List Call :=
  match env.alloc_dlcb_response 't' dest with
  | none => [Call.alloc_dlcb_response 't' dest]
  | some dlcb =>
    -- encode the NPDU portion of the packet
    let npci_data :=
      npdu_setup_npci_data false BACNET_MESSAGE_PRIORITY.MESSAGE_PRIORITY_NORMAL
    let npdu := env.npdu_encode_pdu env.target_address (Ptr.address env.my_address) npci_data
    let pdu_len := npdu.length
    let buf := writeAt dlcb.Handler_Transmit_Buffer 0 npdu
    -- encode the APDU portion of the packet
    let apdu := env.whois_encode_apdu low_limit high_limit
    let buf := writeAt buf pdu_len apdu
    let dlcb : DLCB := { dlcb with Handler_Transmit_Buffer := buf }
    [Call.alloc_dlcb_response 't' dest,
     Call.datalink_get_my_address,
     Call.npdu_encode_pdu env.target_address (Ptr.address env.my_address) npci_data,
     Call.whois_encode_apdu low_limit high_limit,
     Call.datalink_send_pdu env.target_address npci_data dlcb]

/-- The route `Send_WhoIs_Global` builds in its local `dest`. -/
def whois_global_route (env : Env) (portParams : PORT_SUPPORT) : BACNET_ROUTE :=
  let dest : BACNET_ROUTE := { env.stack_dest with portParams := portParams }
  { dest with bacnetPath := env.bacnet_path_set_broadcast_global dest.bacnetPath }

/-- Embedding of `Send_WhoIs_Global`. -/
def Send_WhoIs_Global (env : Env) (portParams : PORT_SUPPORT) (low_limit high_limit : Int) :
    List Call :=
  if !env.dcc_communication_enabled then
    []
  else
    Send_WhoIs_To_Network env (Ptr.route (whois_global_route env portParams))
      low_limit high_limit

/-- The route `Send_WhoIs_Local` builds in its local `dest`. -/
def whois_local_route (env : Env) (portParams : PORT_SUPPORT) : BACNET_ROUTE :=
  let dest : BACNET_ROUTE := env.datalink_get_broadcast_address env.stack_dest
  let dest : BACNET_ROUTE := { dest with portParams := portParams }
  { dest with bacnetPath := env.bacnet_path_set_broadcast_local dest.bacnetPath }

/-- Embedding of `Send_WhoIs_Local`. -/
def Send_WhoIs_Local (env : Env) (portParams : PORT_SUPPORT) (low_limit high_limit : Int) :
    List Call :=
  if !env.dcc_communication_enabled then
    []
  else
    Call.datalink_get_broadcast_address ::
      Send_WhoIs_To_Network env (Ptr.route (whois_local_route env portParams))
        low_limit high_limit

/-- The route `Send_WhoIs_Remote` builds in its local `dest` (and does not pass on). -/
def whois_remote_route (env : Env) (portParams : PORT_SUPPORT) (target_address : BACNET_PATH) :
    BACNET_ROUTE :=
  let dest : BACNET_ROUTE := { env.stack_dest with portParams := portParams }
  { dest with bacnetPath := bacnet_path_copy target_address }

/-- Embedding of `Send_WhoIs_Remote`: the call to `Send_WhoIs_To_Network` passes
`target_address`, the caller's path, not the local `dest`. -/
def Send_WhoIs_Remote (env : Env) (portParams : PORT_SUPPORT) (target_address : BACNET_PATH)
    (low_limit high_limit : Int) : List Call :=
  if !env.dcc_communication_enabled then
    []
  else
    let _ := whois_remote_route env portParams target_address
    Send_WhoIs_To_Network env (Ptr.path target_address) low_limit high_limit

/-- Embedding of `Send_WhoIs`.  The body is the call
`Send_WhoIs_Global(low_limit, high_limit)`: two arguments for the three
parameters `(portParams, low_limit, high_limit)`.  A compiler that sees the
definition of `Send_WhoIs_Global` rejects the call; where it is let through,
the arguments are bound in order, so `low_limit` arrives (converted to a
pointer) as `portParams`, `high_limit` arrives as `low_limit`, and the
parameter `high_limit` receives no argument and holds an indeterminate value. -/
def Send_WhoIs (env : Env) (low_limit high_limit : Int) : List Call :=
  Send_WhoIs_Global env (env.port_of_int low_limit) high_limit env.missing_argument

/-! ## `mso.c`: data -/

/-- Compile-time configuration and constants that `mso.c` takes from headers
that are not among the sources (`config.h`, `bacdef.h`, `bacenum.h`, `mso.h`);
each is a parameter.  `PRESENT_VALUE_BITS` is the width in bits of the unsigned
integer type that `mso.h` gives the members `Present_Value` and
`shadow_Present_Value`. -/
structure Config where
  BAC_DEBUG : Bool
  INTRINSIC_REPORTING_B : Bool
  BACNET_SVC_COV_B : Bool
  BACNET_PROTOCOL_REVISION : Nat
  MAX_APDU : Nat
  MULTISTATE_NUMBER_OF_STATES : Nat
  BACNET_MAX_PRIORITY : Nat
  MAX_BACNET_EVENT_TRANSITION : Nat
  TIME_STAMP_DATETIME : Nat
  BACNET_ARRAY_ALL : Nat
  BACNET_STATUS_ERROR : Int
  BACNET_STATUS_ABORT : Int
  PRESENT_VALUE_BITS : Nat

/-- The property identifiers `mso.c` names; any other identifier is `other`. -/
inductive BACNET_PROPERTY_ID where
  | PROP_OBJECT_IDENTIFIER
  | PROP_OBJECT_NAME
  | PROP_OBJECT_TYPE
  | PROP_OUT_OF_SERVICE
  | PROP_PRESENT_VALUE
  | PROP_STATUS_FLAGS
  | PROP_EVENT_STATE
  | PROP_NUMBER_OF_STATES
  | PROP_PRIORITY_ARRAY
  | PROP_RELINQUISH_DEFAULT
  | PROP_DESCRIPTION
  | PROP_RELIABILITY
  | PROP_TIME_DELAY
  | PROP_NOTIFICATION_CLASS
  | PROP_EVENT_ENABLE
  | PROP_ACKED_TRANSITIONS
  | PROP_NOTIFY_TYPE
  | PROP_EVENT_TIME_STAMPS
  | PROP_EVENT_DETECTION_ENABLE
  | PROP_STATE_TEXT
  | PROP_PROPERTY_LIST
  | PROP_HIGH_LIMIT
  | PROP_LOW_LIMIT
  | PROP_DEADBAND
  | PROP_LIMIT_ENABLE
  | other (n : Nat)
  deriving DecidableEq, Repr

/-- Object types; `mso.c` names `OBJECT_MULTI_STATE_OUTPUT`. -/
inductive BACNET_OBJECT_TYPE where
  | OBJECT_MULTI_STATE_OUTPUT
  | other (n : Nat)
  deriving DecidableEq, Repr

/-- Error classes; `mso.c` names `ERROR_CLASS_PROPERTY`. -/
inductive BACNET_ERROR_CLASS where
  | ERROR_CLASS_PROPERTY
  | other (n : Nat)
  deriving DecidableEq, Repr

/-- The error codes `mso.c` names. -/
inductive BACNET_ERROR_CODE where
  | ERROR_CODE_ABORT_SEGMENTATION_NOT_SUPPORTED
  | ERROR_CODE_CHARACTER_SET_NOT_SUPPORTED
  | ERROR_CODE_INVALID_ARRAY_INDEX
  | ERROR_CODE_INVALID_DATA_TYPE
  | ERROR_CODE_NO_OBJECTS_OF_SPECIFIED_TYPE
  | ERROR_CODE_NO_SPACE_TO_WRITE_PROPERTY
  | ERROR_CODE_PROPERTY_IS_NOT_AN_ARRAY
  | ERROR_CODE_UNKNOWN_PROPERTY
  | ERROR_CODE_VALUE_OUT_OF_RANGE
  | ERROR_CODE_WRITE_ACCESS_DENIED
  | other (n : Nat)
  deriving DecidableEq, Repr

/-- Event states; `mso.c` names `EVENT_STATE_NORMAL`. -/
inductive BACNET_EVENT_STATE where
  | EVENT_STATE_NORMAL
  | other (n : Nat)
  deriving DecidableEq, Repr

/-- Reliability values; `mso.c` names `RELIABILITY_NO_FAULT_DETECTED`. -/
inductive BACNET_RELIABILITY where
  | RELIABILITY_NO_FAULT_DETECTED
  | other (n : Nat)
  deriving DecidableEq, Repr

/-- Notify types. -/
inductive BACNET_NOTIFY_TYPE where
  | NOTIFY_ALARM
  | NOTIFY_EVENT
  deriving DecidableEq, Repr

/-- A value handed to `encode_application_enumerated`, tagged with the
enumeration it comes from. -/
inductive BACNET_ENUMERATED where
  | objectType (t : BACNET_OBJECT_TYPE)
  | eventState (s : BACNET_EVENT_STATE)
  | reliability (r : BACNET_RELIABILITY)
  | notifyType (n : BACNET_NOTIFY_TYPE)
  deriving DecidableEq, Repr

/-- A `BACNET_CHARACTER_STRING`: character set and octets. -/
structure BACNET_CHARACTER_STRING where
  encoding : Nat
  value : List Nat
  deriving DecidableEq, Repr, Inhabited

/-- A `BACNET_DATE_TIME`: the `date` and `time` members. -/
structure BACNET_DATE_TIME where
  date : List Nat
  time : List Nat
  deriving DecidableEq, Repr, Inhabited

/-- The `common` member of an object descriptor, set by `Generic_Object_Init`. -/
structure GENERIC_OBJECT where
  objectInstance : Nat
  objectName : List Nat
  deriving DecidableEq, Repr, Inhabited

/-- An acknowledged-transition record; `mso.c` uses its `bIsAcked` member. -/
structure ACKED_INFO where
  bIsAcked : Bool
  deriving DecidableEq, Repr, Inhabited

/-- A `MULTISTATE_OUTPUT_DESCR` (declared in `mso.h`, not among the sources):
the members `mso.c` uses.  `float` members hold rationals; `Event_State`,
`Reliability` hold enumeration values; `Notify_Type` and `Event_Enable` hold
the raw integer, which the code tests and masks.  The entries of
`priorityArray` are unsigned integers (`mso.c` only reads them, and hands them
to `encode_application_unsigned`); where the code assigns one to a `float` it
is converted by `float_of_unsigned`. -/
structure MULTISTATE_OUTPUT_DESCR where
  common : GENERIC_OBJECT
  Out_Of_Service : Bool
  Present_Value : Nat
  shadow_Present_Value : Nat
  Reliability : BACNET_RELIABILITY
  shadowReliability : BACNET_RELIABILITY
  priorityFlags : Nat
  priorityArray : List Nat
  Relinquish_Default : Rat
  State_Text : List (List Nat)
  Changed : Bool
  Prior_Value : Nat
  Event_State : BACNET_EVENT_STATE
  Time_Delay : Nat
  Remaining_Time_Delay : Nat
  Notification_Class : Nat
  Event_Enable : Nat
  Notify_Type : Nat
  Acked_Transitions : List ACKED_INFO
  Event_Time_Stamps : List BACNET_DATE_TIME
  High_Limit : Int
  Low_Limit : Int
  Deadband : Int
  Limit_Enable : Nat
  deriving DecidableEq, Repr

/-- The conversion of an unsigned integer to `float` (IEEE 754 single
precision, rounding to nearest, ties to even): the value of the `float`
obtained, itself a whole number.  A `float` has a significand of 24 bits:
with `e` the least exponent for which `n / 2 ^ e` fits 24 bits, `n` is
rounded to a multiple of `2 ^ e`, so an `n` below `2 ^ 24` is kept as it is.
The exponents up to 104 cover every `n` below `2 ^ 128`.  From
`2 ^ 128 - 2 ^ 103` on the `float` is infinite: no integer member of the stack
is that wide, and what the embedding gives there (`2 ^ 128`, or `n` itself
from `2 ^ 128` on) stands for no `float`. -/
def float_of_unsigned (n : Nat) : Nat :=
  match (List.range 105).find? (fun e => n / 2 ^ e < 2 ^ 24) with
  | some e =>
    let m := n / 2 ^ e
    let r := n % 2 ^ e
    if 2 * r < 2 ^ e ∨ (2 * r = 2 ^ e ∧ m % 2 = 0) then m * 2 ^ e else (m + 1) * 2 ^ e
  | none => n

/-- The list header `LLIST_HDR` of `llist.h`: capacity, and the descriptors
enqueued, oldest first (`count` is their number). -/
structure LLIST_HDR where
  max : Nat
  items : List MULTISTATE_OUTPUT_DESCR
  deriving DecidableEq, Repr

/-- The fields of `BACNET_READ_PROPERTY_DATA` that `mso.c` reads and writes.
`application_data` is the content of the caller's buffer. -/
structure BACNET_READ_PROPERTY_DATA where
  object_type : BACNET_OBJECT_TYPE
  object_instance : Nat
  object_property : BACNET_PROPERTY_ID
  array_index : Nat
  application_data : List Nat
  application_data_len : Nat
  error_class : BACNET_ERROR_CLASS
  error_code : BACNET_ERROR_CODE
  deriving DecidableEq, Repr

/-- The codec and string helpers `Multistate_Output_Read_Property` calls
(`bacdcode.c`, `bacstr.c`, `proplist.c`: not among the sources).  An encoder
gives the octets it writes at the address it is handed and returns their
number; `property_list_encode` gives its return value and the request data it
leaves. -/
structure Lib where
  encode_application_object_id : BACNET_OBJECT_TYPE → Nat → List Nat
  encode_application_character_string : BACNET_CHARACTER_STRING → List Nat
  encode_application_enumerated : BACNET_ENUMERATED → List Nat
  encode_application_unsigned : Nat → List Nat
  encode_application_boolean : Bool → List Nat
  encode_application_real : Rat → List Nat
  encode_application_null : List Nat
  encode_status_flags : Bool → Bool → Bool → List Nat
  encode_application_bitstring3 : Bool → Bool → Bool → List Nat
  encode_opening_tag : Nat → List Nat
  encode_closing_tag : Nat → List Nat
  encode_application_date : List Nat → List Nat
  encode_application_time : List Nat → List Nat
  characterstring_init_ansi : Option (List Nat) → BACNET_CHARACTER_STRING
  Generic_Instance_To_Object_Name : LLIST_HDR → Nat → Bool × BACNET_CHARACTER_STRING
  property_list_encode : BACNET_READ_PROPERTY_DATA → List BACNET_PROPERTY_ID →
    List BACNET_PROPERTY_ID → List BACNET_PROPERTY_ID → Int × BACNET_READ_PROPERTY_DATA
  EVENT_ENABLE_TO_OFFNORMAL : Nat
  EVENT_ENABLE_TO_FAULT : Nat
  EVENT_ENABLE_TO_NORMAL : Nat
  TRANSITION_TO_OFFNORMAL : Nat
  TRANSITION_TO_FAULT : Nat
  TRANSITION_TO_NORMAL : Nat

/-- What `Multistate_Output_Read_Property` leaves: the `int` returned, the
request data (buffer and error fields) and the number of `panic()` calls. -/
structure ReadOutcome where
  apdu_len : Int
  rpdata : BACNET_READ_PROPERTY_DATA
  panics : Nat
  deriving DecidableEq, Repr

/-! ## `mso.c`: operations -/

open BACNET_PROPERTY_ID in
/-- The table `Properties_Required` (without its end marker). -/
def Properties_Required : List BACNET_PROPERTY_ID :=
  [PROP_OBJECT_IDENTIFIER, PROP_OBJECT_NAME, PROP_OBJECT_TYPE, PROP_OUT_OF_SERVICE,
   PROP_PRESENT_VALUE, PROP_STATUS_FLAGS, PROP_EVENT_STATE, PROP_NUMBER_OF_STATES,
   PROP_PRIORITY_ARRAY, PROP_RELINQUISH_DEFAULT]

open BACNET_PROPERTY_ID in
/-- The table `Properties_Optional` (without its end marker), as the
configuration compiles it. -/
def Properties_Optional (cfg : Config) : List BACNET_PROPERTY_ID :=
  [PROP_DESCRIPTION, PROP_RELIABILITY]
    ++ (if cfg.INTRINSIC_REPORTING_B then
          [PROP_TIME_DELAY, PROP_NOTIFICATION_CLASS, PROP_EVENT_ENABLE, PROP_ACKED_TRANSITIONS,
           PROP_NOTIFY_TYPE, PROP_EVENT_TIME_STAMPS]
            ++ (if 13 ≤ cfg.BACNET_PROTOCOL_REVISION then [PROP_EVENT_DETECTION_ENABLE] else [])
        else [])
    ++ [PROP_STATE_TEXT]

/-- The table `Properties_Proprietary` (without its end marker). -/
def Properties_Proprietary : List BACNET_PROPERTY_ID := []

/-- Modelled from the spec: `ll_Init` (`llist.c`, one of the list-manipulation
helpers of the object tables, not among the sources) makes the list empty and
records its capacity. -/
def ll_Init (max : Nat) : LLIST_HDR := { max := max, items := [] }

/-- Modelled from the spec: `Generic_Instance_To_Object` (one of the
list-manipulation helpers of the object tables, not among the sources) returns
the first descriptor of the list whose instance number is the one asked for,
`NULL` (`none`) when the list holds none. -/
def Generic_Instance_To_Object (list : LLIST_HDR) (object_instance : Nat) :
    Option MULTISTATE_OUTPUT_DESCR :=
  list.items.find? (fun o => o.common.objectInstance == object_instance)

/-- Embedding of `Multistate_Output_Init`: the content of `MSO_Descriptor_List` it leaves. -/
def Multistate_Output_Init : LLIST_HDR := ll_Init 100

/-- Embedding of `Multistate_Output_Instance_To_Object`. -/
def Multistate_Output_Instance_To_Object (MSO_Descriptor_List : LLIST_HDR)
    (object_instance : Nat) : Option MULTISTATE_OUTPUT_DESCR :=
  Generic_Instance_To_Object MSO_Descriptor_List object_instance

/-- Embedding of `Multistate_Output_Valid_Instance`. -/
def Multistate_Output_Valid_Instance (MSO_Descriptor_List : LLIST_HDR)
    (object_instance : Nat) : Bool :=
  (Generic_Instance_To_Object MSO_Descriptor_List object_instance).isSome

/-- Embedding of `Multistate_Output_Count`. -/
def Multistate_Output_Count (MSO_Descriptor_List : LLIST_HDR) : Nat :=
  MSO_Descriptor_List.items.length

/-- Embedding of `isOutOfService`. -/
def isOutOfService (currentObject : MULTISTATE_OUTPUT_DESCR) : Bool :=
  currentObject.Out_Of_Service

/-- Embedding of `isInAlarm`. -/
def isInAlarm (currentObject : MULTISTATE_OUTPUT_DESCR) : Bool :=
  currentObject.Event_State != BACNET_EVENT_STATE.EVENT_STATE_NORMAL

/-- Embedding of `Multistate_Output_Reliability_Get`. -/
def Multistate_Output_Reliability_Get (currentObject : MULTISTATE_OUTPUT_DESCR) :
    BACNET_RELIABILITY :=
  if isOutOfService currentObject then currentObject.shadowReliability
  else currentObject.Reliability

/-- Embedding of `isInFault`. -/
def isInFault (currentObject : MULTISTATE_OUTPUT_DESCR) : Bool :=
  Multistate_Output_Reliability_Get currentObject
    != BACNET_RELIABILITY.RELIABILITY_NO_FAULT_DETECTED

/-- Embedding of `Multistate_Output_Present_Value_Get`. -/
def Multistate_Output_Present_Value_Get (currentObject : MULTISTATE_OUTPUT_DESCR) : Nat :=
  if isOutOfService currentObject then currentObject.shadow_Present_Value
  else currentObject.Present_Value

/-- Embedding of `Multistate_Output_Description`: always `NULL`. -/
def Multistate_Output_Description (_object_instance : Nat) : Option (List Nat) := none

/-- Embedding of `Multistate_Output_Max_States`. -/
def Multistate_Output_Max_States (cfg : Config) (_instance : Nat) : Nat :=
  cfg.MULTISTATE_NUMBER_OF_STATES

/-- Embedding of `Multistate_Output_State_Text_Get` (no bounds check), for `state_index >= 1`. -/
def Multistate_Output_State_Text_Get (currentObject : MULTISTATE_OUTPUT_DESCR)
    (state_index : Nat) : List Nat :=
  currentObject.State_Text.getD (state_index - 1) []

/-- Embedding of `Multistate_Output_Object_Name`: status and the string left in `object_name`. -/
def Multistate_Output_Object_Name (lib : Lib) (MSO_Descriptor_List : LLIST_HDR)
    (object_instance : Nat) : Bool × BACNET_CHARACTER_STRING :=
  lib.Generic_Instance_To_Object_Name MSO_Descriptor_List object_instance

/-- The loop of `PROP_STATE_TEXT` with `BACNET_ARRAY_ALL` over the state
indices still to do: each text is encoded at `apdu_len` and only then checked
against `MAX_APDU`.  The result is `none` after the abort branch. -/
def state_text_loop (cfg : Config) (lib : Lib) (currentObject : MULTISTATE_OUTPUT_DESCR) :
    List Nat → Nat → List Nat → Option Nat × List Nat
  | [], apdu_len, apdu => (some apdu_len, apdu)
  | i :: rest, apdu_len, apdu =>
    let char_string :=
      lib.characterstring_init_ansi (some (Multistate_Output_State_Text_Get currentObject i))
    let bytes := lib.encode_application_character_string char_string
    let apdu := writeAt apdu apdu_len bytes
    -- add it if we have room
    if apdu_len + bytes.length < cfg.MAX_APDU then
      state_text_loop cfg lib currentObject rest (apdu_len + bytes.length) apdu
    else
      (none, apdu)

/-- The loop of `PROP_PRIORITY_ARRAY` with `BACNET_ARRAY_ALL` over the indices
still to do. -/
def priority_array_loop (cfg : Config) (lib : Lib) (currentObject : MULTISTATE_OUTPUT_DESCR) :
    List Nat → Nat → List Nat → Option Nat × List Nat
  | [], apdu_len, apdu => (some apdu_len, apdu)
  | i :: rest, apdu_len, apdu =>
    let bytes :=
      if currentObject.priorityFlags.testBit i then
        lib.encode_application_unsigned (currentObject.priorityArray.getD i 0)
      else
        lib.encode_application_null
    let apdu := writeAt apdu apdu_len bytes
    -- add it if we have room
    if apdu_len + bytes.length < cfg.MAX_APDU then
      priority_array_loop cfg lib currentObject rest (apdu_len + bytes.length) apdu
    else
      (none, apdu)

/-- The octets of one event time stamp: opening tag, date, time, closing tag. -/
def encode_event_time_stamp (cfg : Config) (lib : Lib) (stamp : BACNET_DATE_TIME) : List Nat :=
  lib.encode_opening_tag cfg.TIME_STAMP_DATETIME
    ++ lib.encode_application_date stamp.date
    ++ lib.encode_application_time stamp.time
    ++ lib.encode_closing_tag cfg.TIME_STAMP_DATETIME

/-- The loop of `PROP_EVENT_TIME_STAMPS` with `BACNET_ARRAY_ALL` over the
indices still to do. -/
def event_time_stamps_loop (cfg : Config) (lib : Lib)
    (currentObject : MULTISTATE_OUTPUT_DESCR) :
    List Nat → Nat → List Nat → Option Nat × List Nat
  | [], apdu_len, apdu => (some apdu_len, apdu)
  | i :: rest, apdu_len, apdu =>
    let bytes := encode_event_time_stamp cfg lib (currentObject.Event_Time_Stamps.getD i default)
    let apdu := writeAt apdu apdu_len bytes
    -- add it if we have room
    if apdu_len + bytes.length < cfg.MAX_APDU then
      event_time_stamps_loop cfg lib currentObject rest (apdu_len + bytes.length) apdu
    else
      (none, apdu)

/-- An encoder called on `&apdu[0]`: the length it returns and the request data
with the octets written at the start of the buffer. -/
def encode_at_start (rpdata : BACNET_READ_PROPERTY_DATA) (bytes : List Nat) :
    Int × BACNET_READ_PROPERTY_DATA :=
  ((bytes.length : Int),
    { rpdata with application_data := writeAt rpdata.application_data 0 bytes })

/-- The outcome of one of the `BACNET_ARRAY_ALL` loops: the length reached, or
the abort branch (`error_code` set, `BACNET_STATUS_ABORT` returned). -/
def finish_array_loop (cfg : Config) (rpdata : BACNET_READ_PROPERTY_DATA)
    (r : Option Nat × List Nat) : Int × BACNET_READ_PROPERTY_DATA :=
  match r with
  | (some apdu_len, apdu) => ((apdu_len : Int), { rpdata with application_data := apdu })
  | (none, apdu) =>
    (cfg.BACNET_STATUS_ABORT,
      { rpdata with
        application_data := apdu
        error_code := BACNET_ERROR_CODE.ERROR_CODE_ABORT_SEGMENTATION_NOT_SUPPORTED })

/-- The `default:` branch of the switch of `Multistate_Output_Read_Property`. -/
def read_property_unknown (cfg : Config) (rpdata : BACNET_READ_PROPERTY_DATA) :
    Int × BACNET_READ_PROPERTY_DATA :=
  (cfg.BACNET_STATUS_ERROR,
    { rpdata with
      error_class := BACNET_ERROR_CLASS.ERROR_CLASS_PROPERTY
      error_code := BACNET_ERROR_CODE.ERROR_CODE_UNKNOWN_PROPERTY })

/-- The branch taken for an array index beyond the array. -/
def read_property_invalid_index (cfg : Config) (rpdata : BACNET_READ_PROPERTY_DATA) :
    Int × BACNET_READ_PROPERTY_DATA :=
  (cfg.BACNET_STATUS_ERROR,
    { rpdata with
      error_class := BACNET_ERROR_CLASS.ERROR_CLASS_PROPERTY
      error_code := BACNET_ERROR_CODE.ERROR_CODE_INVALID_ARRAY_INDEX })

open BACNET_PROPERTY_ID in
/-- The `switch (rpdata->object_property)` of `Multistate_Output_Read_Property`:
`apdu_len` and the request data after it. -/
def read_property_switch (cfg : Config) (lib : Lib) (MSO_Descriptor_List : LLIST_HDR)
    (currentObject : MULTISTATE_OUTPUT_DESCR) (rpdata : BACNET_READ_PROPERTY_DATA) :
    Int × BACNET_READ_PROPERTY_DATA :=
  match rpdata.object_property with
  | PROP_OBJECT_IDENTIFIER =>
    encode_at_start rpdata
      (lib.encode_application_object_id BACNET_OBJECT_TYPE.OBJECT_MULTI_STATE_OUTPUT
        rpdata.object_instance)
  | PROP_OBJECT_NAME =>
    encode_at_start rpdata
      (lib.encode_application_character_string
        (Multistate_Output_Object_Name lib MSO_Descriptor_List rpdata.object_instance).2)
  | PROP_DESCRIPTION =>
    encode_at_start rpdata
      (lib.encode_application_character_string
        (lib.characterstring_init_ansi (Multistate_Output_Description rpdata.object_instance)))
  | PROP_OBJECT_TYPE =>
    encode_at_start rpdata
      (lib.encode_application_enumerated
        (BACNET_ENUMERATED.objectType BACNET_OBJECT_TYPE.OBJECT_MULTI_STATE_OUTPUT))
  | PROP_PRESENT_VALUE =>
    encode_at_start rpdata
      (lib.encode_application_unsigned (Multistate_Output_Present_Value_Get currentObject))
  | PROP_STATUS_FLAGS =>
    encode_at_start rpdata
      (lib.encode_status_flags (isInAlarm currentObject) (isInFault currentObject)
        (isOutOfService currentObject))
  | PROP_EVENT_STATE =>
    if cfg.INTRINSIC_REPORTING_B then
      encode_at_start rpdata
        (lib.encode_application_enumerated (BACNET_ENUMERATED.eventState currentObject.Event_State))
    else
      encode_at_start rpdata
        (lib.encode_application_enumerated
          (BACNET_ENUMERATED.eventState BACNET_EVENT_STATE.EVENT_STATE_NORMAL))
  | PROP_EVENT_DETECTION_ENABLE =>
    if 13 ≤ cfg.BACNET_PROTOCOL_REVISION ∧ cfg.INTRINSIC_REPORTING_B then
      encode_at_start rpdata (lib.encode_application_boolean true)
    else read_property_unknown cfg rpdata
  | PROP_RELIABILITY =>
    encode_at_start rpdata
      (lib.encode_application_enumerated (BACNET_ENUMERATED.reliability currentObject.Reliability))
  | PROP_OUT_OF_SERVICE =>
    encode_at_start rpdata (lib.encode_application_boolean (isOutOfService currentObject))
  | PROP_TIME_DELAY =>
    if cfg.INTRINSIC_REPORTING_B then
      encode_at_start rpdata (lib.encode_application_unsigned currentObject.Time_Delay)
    else read_property_unknown cfg rpdata
  | PROP_NOTIFICATION_CLASS =>
    if cfg.INTRINSIC_REPORTING_B then
      encode_at_start rpdata (lib.encode_application_unsigned currentObject.Notification_Class)
    else read_property_unknown cfg rpdata
  | PROP_EVENT_ENABLE =>
    if cfg.INTRINSIC_REPORTING_B then
      encode_at_start rpdata
        (lib.encode_application_bitstring3
          (currentObject.Event_Enable &&& lib.EVENT_ENABLE_TO_OFFNORMAL != 0)
          (currentObject.Event_Enable &&& lib.EVENT_ENABLE_TO_FAULT != 0)
          (currentObject.Event_Enable &&& lib.EVENT_ENABLE_TO_NORMAL != 0))
    else read_property_unknown cfg rpdata
  | PROP_ACKED_TRANSITIONS =>
    if cfg.INTRINSIC_REPORTING_B then
      encode_at_start rpdata
        (lib.encode_application_bitstring3
          (currentObject.Acked_Transitions.getD lib.TRANSITION_TO_OFFNORMAL default).bIsAcked
          (currentObject.Acked_Transitions.getD lib.TRANSITION_TO_FAULT default).bIsAcked
          (currentObject.Acked_Transitions.getD lib.TRANSITION_TO_NORMAL default).bIsAcked)
    else read_property_unknown cfg rpdata
  | PROP_NOTIFY_TYPE =>
    if cfg.INTRINSIC_REPORTING_B then
      encode_at_start rpdata
        (lib.encode_application_enumerated
          (BACNET_ENUMERATED.notifyType
            (if currentObject.Notify_Type != 0 then BACNET_NOTIFY_TYPE.NOTIFY_EVENT
             else BACNET_NOTIFY_TYPE.NOTIFY_ALARM)))
    else read_property_unknown cfg rpdata
  | PROP_EVENT_TIME_STAMPS =>
    if cfg.INTRINSIC_REPORTING_B then
      -- Array element zero is the number of elements in the array
      if rpdata.array_index = 0 then
        encode_at_start rpdata (lib.encode_application_unsigned cfg.MAX_BACNET_EVENT_TRANSITION)
      else if rpdata.array_index = cfg.BACNET_ARRAY_ALL then
        finish_array_loop cfg rpdata
          (event_time_stamps_loop cfg lib currentObject
            (List.range cfg.MAX_BACNET_EVENT_TRANSITION) 0 rpdata.application_data)
      else if rpdata.array_index ≤ cfg.MAX_BACNET_EVENT_TRANSITION then
        encode_at_start rpdata
          (encode_event_time_stamp cfg lib
            (currentObject.Event_Time_Stamps.getD (rpdata.array_index - 1) default))
      else read_property_invalid_index cfg rpdata
    else read_property_unknown cfg rpdata
  | PROP_NUMBER_OF_STATES =>
    encode_at_start rpdata
      (lib.encode_application_unsigned (Multistate_Output_Max_States cfg rpdata.object_instance))
  | PROP_STATE_TEXT =>
    if rpdata.array_index = 0 then
      -- Array element zero is the number of elements in the array
      encode_at_start rpdata
        (lib.encode_application_unsigned
          (Multistate_Output_Max_States cfg rpdata.object_instance))
    else if rpdata.array_index = cfg.BACNET_ARRAY_ALL then
      finish_array_loop cfg rpdata
        (state_text_loop cfg lib currentObject
          (List.range' 1 (Multistate_Output_Max_States cfg rpdata.object_instance)) 0
          rpdata.application_data)
    else if rpdata.array_index ≤ Multistate_Output_Max_States cfg rpdata.object_instance then
      encode_at_start rpdata
        (lib.encode_application_character_string
          (lib.characterstring_init_ansi
            (some (Multistate_Output_State_Text_Get currentObject rpdata.array_index))))
    else read_property_invalid_index cfg rpdata
  | PROP_PRIORITY_ARRAY =>
    -- Array element zero is the number of elements in the array
    if rpdata.array_index = 0 then
      encode_at_start rpdata (lib.encode_application_unsigned cfg.BACNET_MAX_PRIORITY)
    else if rpdata.array_index = cfg.BACNET_ARRAY_ALL then
      finish_array_loop cfg rpdata
        (priority_array_loop cfg lib currentObject (List.range cfg.BACNET_MAX_PRIORITY) 0
          rpdata.application_data)
    else if rpdata.array_index ≤ cfg.BACNET_MAX_PRIORITY then
      if currentObject.priorityFlags.testBit (rpdata.array_index - 1) then
        encode_at_start rpdata
          (lib.encode_application_real
            ((float_of_unsigned
              (currentObject.priorityArray.getD (rpdata.array_index - 1) 0) : Nat) : Rat))
      else
        encode_at_start rpdata lib.encode_application_null
    else read_property_invalid_index cfg rpdata
  | PROP_RELINQUISH_DEFAULT =>
    encode_at_start rpdata (lib.encode_application_real currentObject.Relinquish_Default)
  | PROP_PROPERTY_LIST =>
    lib.property_list_encode rpdata Properties_Required (Properties_Optional cfg)
      Properties_Proprietary
  | _ => read_property_unknown cfg rpdata

open BACNET_PROPERTY_ID in
/-- The closing test of `Multistate_Output_Read_Property`: only array properties
can have array options. -/
def read_property_array_check (cfg : Config) (r : Int × BACNET_READ_PROPERTY_DATA) :
    Int × BACNET_READ_PROPERTY_DATA :=
  let rpdata := r.2
  if 0 ≤ r.1 ∧ rpdata.object_property ≠ PROP_PROPERTY_LIST
      ∧ rpdata.object_property ≠ PROP_PRIORITY_ARRAY
      ∧ (cfg.INTRINSIC_REPORTING_B = true → rpdata.object_property ≠ PROP_EVENT_TIME_STAMPS)
      ∧ rpdata.object_property ≠ PROP_STATE_TEXT
      ∧ rpdata.array_index ≠ cfg.BACNET_ARRAY_ALL then
    (cfg.BACNET_STATUS_ERROR,
      { rpdata with
        error_class := BACNET_ERROR_CLASS.ERROR_CLASS_PROPERTY
        error_code := BACNET_ERROR_CODE.ERROR_CODE_PROPERTY_IS_NOT_AN_ARRAY })
  else r

/-- Embedding of `Multistate_Output_Read_Property` on the descriptor list
`MSO_Descriptor_List`: returns apdu length, or `BACNET_STATUS_ERROR` on error.
The request and its buffer are given, so of the `BAC_DEBUG` guard the test
`application_data_len == 0` remains. -/
def Multistate_Output_Read_Property (cfg : Config) (lib : Lib)
    (MSO_Descriptor_List : LLIST_HDR) (rpdata : BACNET_READ_PROPERTY_DATA) : ReadOutcome :=
  if cfg.BAC_DEBUG = true ∧ rpdata.application_data_len = 0 then
    { apdu_len := cfg.BACNET_STATUS_ERROR, rpdata := rpdata, panics := 0 }
  else
    match Multistate_Output_Instance_To_Object MSO_Descriptor_List rpdata.object_instance with
    | none =>
      -- panic(); return BACNET_STATUS_ERROR;
      { apdu_len := cfg.BACNET_STATUS_ERROR, rpdata := rpdata, panics := 1 }
    | some currentObject =>
      let r :=
        read_property_array_check cfg
          (read_property_switch cfg lib MSO_Descriptor_List currentObject rpdata)
      { apdu_len := r.1, rpdata := r.2, panics := 0 }

/-! ## Observations on a list of collaborator calls -/

/-- The call is a `datalink_send_pdu`. -/
def Call.isDatalinkSend : Call → Bool
  | Call.datalink_send_pdu _ _ _ => true
  | _ => false

/-- The call is a `tsm_set_confirmed_unsegmented_transaction`. -/
def Call.isTsmSet : Call → Bool
  | Call.tsm_set_confirmed_unsegmented_transaction _ _ _ _ => true
  | _ => false

/-- The call is a `tsm_free_invoke_id`. -/
def Call.isTsmFree : Call → Bool
  | Call.tsm_free_invoke_id _ => true
  | _ => false

/-- The call is a `tsm_next_free_invokeID`. -/
def Call.isAllocation : Call → Bool
  | Call.tsm_next_free_invokeID => true
  | _ => false

/-- The call is one of the encoders. -/
def Call.isEncode : Call → Bool
  | Call.npdu_encode_pdu _ _ _ => true
  | Call.cevent_notify_encode_apdu _ _ => true
  | Call.whois_encode_apdu _ _ => true
  | _ => false

/-! ## Sample data -/

/-- A path to a bound device. -/
def samplePath : BACNET_PATH :=
  { localMac := [192, 168, 0, 9, 186, 192], glAdr := { raw := [0, 0] } }

/-- An event. -/
def sampleEvent : BACNET_EVENT_NOTIFICATION_DATA := { raw := [9, 1, 28, 0, 64, 0, 1] }

/-- An environment with communication enabled, device 7 bound with a maximum
APDU of 480, invoke id 5 free, a two-octet NPDU, a short APDU, a datalink
that fails to send, and 0 in the parameter that receives no argument. -/
def sampleEnv : Env where
  dcc_communication_enabled := true
  address_get_by_device := fun d => if d = 7 then some (480, samplePath) else none
  tsm_next_free_invokeID := 5
  npdu_encode_pdu := fun _ _ _ => [1, 4]
  cevent_notify_encode_apdu := fun invoke_id data => [0, 5, invoke_id, 2] ++ data.raw
  whois_encode_apdu := fun _ _ => [16, 8]
  alloc_dlcb_response := fun _ _ => some { Handler_Transmit_Buffer := [], optr := 0 }
  datalink_send_pdu := fun _ _ _ => -1
  datalink_get_broadcast_address := fun r => r
  bacnet_path_set_broadcast_global := fun _ => { localMac := [], glAdr := { raw := [255, 255] } }
  bacnet_path_set_broadcast_local := fun _ => { localMac := [255], glAdr := { raw := [0, 0] } }
  dlcb := { Handler_Transmit_Buffer := [], optr := 0 }
  target_address := Ptr.null
  my_address := { raw := [10, 0, 0, 1] }
  stack_dest := { portParams := 0, bacnetPath := { localMac := [], glAdr := { raw := [] } } }
  missing_argument := 0
  port_of_int := fun x => Int.toNat x

/-- The sample environment with communication disabled. -/
def sampleEnvDisabled : Env := { sampleEnv with dcc_communication_enabled := false }

/-- The sample environment with no invoke id available (the allocator returns 0). -/
def sampleEnvExhausted : Env := { sampleEnv with tsm_next_free_invokeID := 0 }

/-- The sample environment where device 7 accepts at most 8 octets. -/
def sampleEnvSmall : Env :=
  { sampleEnv with address_get_by_device := fun d => if d = 7 then some (8, samplePath) else none }

/-- The sample environment where the allocator hands out 255. -/
def sampleEnvLast : Env := { sampleEnv with tsm_next_free_invokeID := 255 }

/-- A route of the caller. -/
def sampleRoute : BACNET_ROUTE := { portParams := 3, bacnetPath := samplePath }

/-- A configuration: no intrinsic reporting, COV compiled in, the values of
the original stack for the constants, and present-value registers of 16 bits
(the width `Multistate_Output_Present_Value_Set` casts to). -/
def sampleConfig : Config where
  BAC_DEBUG := false
  INTRINSIC_REPORTING_B := false
  BACNET_SVC_COV_B := true
  BACNET_PROTOCOL_REVISION := 14
  MAX_APDU := 480
  MULTISTATE_NUMBER_OF_STATES := 4
  BACNET_MAX_PRIORITY := 16
  MAX_BACNET_EVENT_TRANSITION := 3
  TIME_STAMP_DATETIME := 2
  BACNET_ARRAY_ALL := 4294967295
  BACNET_STATUS_ERROR := -1
  BACNET_STATUS_ABORT := -2
  PRESENT_VALUE_BITS := 16

/-- The octets of the application-tagged object identifier of instance `n` of
a Multi-state Output (type 14): tag octet 0xC4, then type and instance in 32 bits. -/
def sampleObjectId (n : Nat) : List Nat :=
  [196, (14 * 2 ^ 22 + n) / 2 ^ 24 % 256, (14 * 2 ^ 22 + n) / 2 ^ 16 % 256,
   (14 * 2 ^ 22 + n) / 2 ^ 8 % 256, (14 * 2 ^ 22 + n) % 256]

/-- A codec for the instances below. -/
def sampleLib : Lib where
  encode_application_object_id := fun _ n => sampleObjectId n
  encode_application_character_string := fun c => [117, c.value.length + 1, c.encoding] ++ c.value
  encode_application_enumerated := fun _ => [145, 0]
  encode_application_unsigned := fun n => [33, n % 256]
  encode_application_boolean := fun b => [if b then 17 else 16]
  encode_application_real := fun _ => [68, 0, 0, 0, 0]
  encode_application_null := [0]
  encode_status_flags := fun a f o =>
    [130, 4, (if a then 128 else 0) + (if f then 64 else 0) + (if o then 16 else 0)]
  encode_application_bitstring3 := fun a b c =>
    [130, 5, (if a then 128 else 0) + (if b then 64 else 0) + (if c then 32 else 0)]
  encode_opening_tag := fun t => [t * 16 + 14]
  encode_closing_tag := fun t => [t * 16 + 15]
  encode_application_date := fun d => 164 :: d
  encode_application_time := fun t => 180 :: t
  characterstring_init_ansi := fun s => { encoding := 0, value := s.getD [] }
  Generic_Instance_To_Object_Name := fun _ _ => (false, { encoding := 0, value := [] })
  property_list_encode := fun rp _ _ _ => (0, rp)
  EVENT_ENABLE_TO_OFFNORMAL := 1
  EVENT_ENABLE_TO_FAULT := 2
  EVENT_ENABLE_TO_NORMAL := 4
  TRANSITION_TO_OFFNORMAL := 0
  TRANSITION_TO_FAULT := 1
  TRANSITION_TO_NORMAL := 2

/-- The request of `testMultistateOutput`: instance 1, `PROP_OBJECT_IDENTIFIER`,
`BACNET_ARRAY_ALL`, on a zeroed buffer of `MAX_APDU` octets (the error fields,
which the test leaves indeterminate, are given values). -/
def testRequest : BACNET_READ_PROPERTY_DATA where
  object_type := BACNET_OBJECT_TYPE.OBJECT_MULTI_STATE_OUTPUT
  object_instance := 1
  object_property := BACNET_PROPERTY_ID.PROP_OBJECT_IDENTIFIER
  array_index := sampleConfig.BACNET_ARRAY_ALL
  application_data := List.replicate sampleConfig.MAX_APDU 0
  application_data_len := sampleConfig.MAX_APDU
  error_class := BACNET_ERROR_CLASS.other 0
  error_code := BACNET_ERROR_CODE.other 0

/-- A descriptor as `Multistate_Output_Create` leaves it for instance `n`: the
allocation zeroes it (for `shadowReliability` the zero is
`RELIABILITY_NO_FAULT_DETECTED`), `Reliability` is set to no fault and the
state texts to "Off" and "On"; the members of intrinsic reporting, which the
sample configuration compiles out, are as that section sets them. -/
def sampleObject (n : Nat) : MULTISTATE_OUTPUT_DESCR where
  common := { objectInstance := n, objectName := [77, 83, 79] }
  Out_Of_Service := false
  Present_Value := 0
  shadow_Present_Value := 0
  Reliability := BACNET_RELIABILITY.RELIABILITY_NO_FAULT_DETECTED
  shadowReliability := BACNET_RELIABILITY.RELIABILITY_NO_FAULT_DETECTED
  priorityFlags := 0
  priorityArray := List.replicate 16 0
  Relinquish_Default := 0
  State_Text := [[79, 102, 102], [79, 110], [], []]
  Changed := false
  Prior_Value := 0
  Event_State := BACNET_EVENT_STATE.EVENT_STATE_NORMAL
  Time_Delay := 0
  Remaining_Time_Delay := 0
  Notification_Class := 4194303
  Event_Enable := 0
  Notify_Type := 0
  Acked_Transitions := [{ bIsAcked := true }, { bIsAcked := true }, { bIsAcked := true }]
  Event_Time_Stamps := []
  High_Limit := 0
  Low_Limit := 0
  Deadband := 0
  Limit_Enable := 0

/-! ## Invoke-id allocator of the TSM -/

/-- Modelled from the spec: the Invoke-ID Allocator and the slot pool of the TSM
(`tsm.c`, with `tsm_next_free_invokeID` and `tsm_free_invoke_id`, is not among
the sources).  The state is the list of invoke ids held by the live originator
slots, one entry per slot, and the number of slots of the pool. -/
structure InvokeIdAllocator where
  pool_size : Nat
  live : List Nat
  deriving DecidableEq, Repr

/-- Modelled from the spec: `next_free() -> id | Exhausted` "scans the in-use
set for the lowest unused value in [0,254]"; `none` is `Exhausted`. -/
def InvokeIdAllocator.next_free (a : InvokeIdAllocator) : Option Nat :=
  (List.range 255).find? (fun id => decide (id ∉ a.live))

/-- Modelled from the spec: `acquire` "fails with `NoSlotAvailable` if the pool
is exhausted or `NoInvokeIdAvailable` if the 0-254 namespace is fully allocated;
otherwise returns a slot [...] holding a fresh invoke-id".  The result is the
id handed out, if any, and the allocator afterwards. -/
def InvokeIdAllocator.acquire (a : InvokeIdAllocator) : Option Nat × InvokeIdAllocator :=
  if a.pool_size ≤ a.live.length then
    (none, a)
  else
    match a.next_free with
    | none => (none, a)
    | some id => (some id, { a with live := id :: a.live })

/-- Modelled from the spec: `release(id)` frees the slot holding `id` and "is
idempotent". -/
def InvokeIdAllocator.release (a : InvokeIdAllocator) (id : Nat) : InvokeIdAllocator :=
  { a with live := a.live.filter (fun x => decide (x ≠ id)) }

/-- One step of a history of the allocator: an acquisition, or the release of an id. -/
inductive AllocatorOp where
  | acquire
  | release (id : Nat)
  deriving DecidableEq, Repr

/-- The allocator after one operation. -/
def InvokeIdAllocator.step (a : InvokeIdAllocator) : AllocatorOp → InvokeIdAllocator
  | AllocatorOp.acquire => a.acquire.2
  | AllocatorOp.release id => a.release id

/-- The allocator after a sequence of operations, oldest first. -/
def InvokeIdAllocator.run (a : InvokeIdAllocator) (ops : List AllocatorOp) : InvokeIdAllocator :=
  ops.foldl InvokeIdAllocator.step a

/-- The allocator of a pool of `pool_size` slots with no live transaction. -/
def InvokeIdAllocator.init (pool_size : Nat) : InvokeIdAllocator :=
  { pool_size := pool_size, live := [] }

/-! ## `mso.c`: data of the write path and of the COV value list -/

/-- The application tags `mso.c` names; any other tag is `other`. -/
inductive BACNET_APPLICATION_TAG where
  | BACNET_APPLICATION_TAG_NULL
  | BACNET_APPLICATION_TAG_BOOLEAN
  | BACNET_APPLICATION_TAG_UNSIGNED_INT
  | BACNET_APPLICATION_TAG_SIGNED_INT
  | BACNET_APPLICATION_TAG_REAL
  | BACNET_APPLICATION_TAG_CHARACTER_STRING
  | BACNET_APPLICATION_TAG_BIT_STRING
  | BACNET_APPLICATION_TAG_ENUMERATED
  | other (n : Nat)
  deriving DecidableEq, Repr

/-- A `BACNET_BIT_STRING`: the members `bits_used` and `value`. -/
structure BACNET_BIT_STRING where
  bits_used : Nat
  value : List Nat
  deriving DecidableEq, Repr, Inhabited

/-- The union `type` of a `BACNET_APPLICATION_DATA_VALUE`: the member last
written. -/
inductive BACNET_VALUE_TYPE where
  | Boolean (b : Bool)
  | Unsigned_Int (n : Nat)
  | Signed_Int (i : Int)
  | Real (q : Rat)
  | Enumerated (n : Nat)
  | Bit_String (s : BACNET_BIT_STRING)
  | Character_String (s : BACNET_CHARACTER_STRING)
  | indeterminate
  deriving DecidableEq, Repr

/-- Reading the member `Boolean` of the union (its content is indeterminate,
here `false`, when another member was written last). -/
def BACNET_VALUE_TYPE.getBoolean : BACNET_VALUE_TYPE → Bool
  | BACNET_VALUE_TYPE.Boolean b => b
  | _ => false

/-- Reading the member `Unsigned_Int` of the union (indeterminate, here 0,
when another member was written last). -/
def BACNET_VALUE_TYPE.getUnsigned_Int : BACNET_VALUE_TYPE → Nat
  | BACNET_VALUE_TYPE.Unsigned_Int n => n
  | _ => 0

/-- Reading the member `Signed_Int` of the union (indeterminate, here 0, when
another member was written last). -/
def BACNET_VALUE_TYPE.getSigned_Int : BACNET_VALUE_TYPE → Int
  | BACNET_VALUE_TYPE.Signed_Int i => i
  | _ => 0

/-- Reading the member `Real` of the union (indeterminate, here 0, when another
member was written last). -/
def BACNET_VALUE_TYPE.getReal : BACNET_VALUE_TYPE → Rat
  | BACNET_VALUE_TYPE.Real q => q
  | _ => 0

/-- Reading the member `Enumerated` of the union (indeterminate, here 0, when
another member was written last). -/
def BACNET_VALUE_TYPE.getEnumerated : BACNET_VALUE_TYPE → Nat
  | BACNET_VALUE_TYPE.Enumerated n => n
  | _ => 0

/-- Reading the member `Bit_String` of the union (indeterminate, here empty,
when another member was written last). -/
def BACNET_VALUE_TYPE.getBit_String : BACNET_VALUE_TYPE → BACNET_BIT_STRING
  | BACNET_VALUE_TYPE.Bit_String s => s
  | _ => { bits_used := 0, value := [] }

/-- Reading the member `Character_String` of the union (indeterminate, here
empty, when another member was written last). -/
def BACNET_VALUE_TYPE.getCharacter_String : BACNET_VALUE_TYPE → BACNET_CHARACTER_STRING
  | BACNET_VALUE_TYPE.Character_String s => s
  | _ => { encoding := 0, value := [] }

/-- A `BACNET_APPLICATION_DATA_VALUE`; `next` is `none` for `NULL`, otherwise
the handle of the value that follows. -/
structure BACNET_APPLICATION_DATA_VALUE where
  context_specific : Bool
  tag : BACNET_APPLICATION_TAG
  type : BACNET_VALUE_TYPE
  next : Option Nat
  deriving DecidableEq, Repr

/-- One node of a `BACNET_PROPERTY_VALUE` list; the member `next` is the rest of
the list the node sits in. -/
structure BACNET_PROPERTY_VALUE where
  propertyIdentifier : BACNET_PROPERTY_ID
  propertyArrayIndex : Nat
  value : BACNET_APPLICATION_DATA_VALUE
  priority : Nat
  deriving DecidableEq, Repr

/-- The fields of `BACNET_WRITE_PROPERTY_DATA` that `mso.c` reads and writes. -/
structure BACNET_WRITE_PROPERTY_DATA where
  object_type : BACNET_OBJECT_TYPE
  object_instance : Nat
  object_property : BACNET_PROPERTY_ID
  array_index : Nat
  application_data : List Nat
  application_data_len : Int
  priority : Nat
  error_class : BACNET_ERROR_CLASS
  error_code : BACNET_ERROR_CODE
  deriving DecidableEq, Repr

/-- The helpers and constants of the write path and of the COV value list that
are not among the sources (`bacapp.c`, `bacstr.c`, the `WP_Validate...` family,
`bacenum.h`, `mso.h`); each is a parameter.

* `bacapp_decode_application_data data len` gives the `int` returned and the
  value decoded.
* `WPValidateArgType value tag (class, code)` gives the status and the error
  class and code it leaves; the `WP_Validate...` functions give the status and
  the write data they leave.
* `characterstring_ansi_copy size s` is `none` when the copy is refused,
  otherwise the content of the destination of `size` octets.
* `STATE_TEXT_SIZE` is `sizeof(currentObject->State_Text[i])`. -/
structure WriteLib where
  bacapp_decode_application_data : List Nat → Int → Int × BACNET_APPLICATION_DATA_VALUE
  WPValidateArgType : BACNET_APPLICATION_DATA_VALUE → BACNET_APPLICATION_TAG →
    BACNET_ERROR_CLASS × BACNET_ERROR_CODE → Bool × (BACNET_ERROR_CLASS × BACNET_ERROR_CODE)
  WP_ValidateTagType : BACNET_WRITE_PROPERTY_DATA → BACNET_APPLICATION_DATA_VALUE →
    BACNET_APPLICATION_TAG → Bool × BACNET_WRITE_PROPERTY_DATA
  WP_ValidateRangeReal : BACNET_WRITE_PROPERTY_DATA → BACNET_APPLICATION_DATA_VALUE →
    Rat → Rat → Bool × BACNET_WRITE_PROPERTY_DATA
  WP_ValidateEnumTypeAndRange : BACNET_WRITE_PROPERTY_DATA → BACNET_APPLICATION_DATA_VALUE →
    Nat → Bool × BACNET_WRITE_PROPERTY_DATA
  characterstring_ansi_copy : Nat → BACNET_CHARACTER_STRING → Option (List Nat)
  reliability_of_enumerated : Nat → BACNET_RELIABILITY
  bitstring_init : BACNET_BIT_STRING
  bitstring_set_bit : BACNET_BIT_STRING → Nat → Bool → BACNET_BIT_STRING
  STATE_TEXT_SIZE : Nat
  CHARACTER_UTF8 : Nat
  RELIABILITY_PROPRIETARY_MAX : Nat
  BACNET_NO_PRIORITY : Nat
  NOTIFY_ALARM : Nat
  NOTIFY_EVENT : Nat
  STATUS_FLAG_IN_ALARM : Nat
  STATUS_FLAG_FAULT : Nat
  STATUS_FLAG_OVERRIDDEN : Nat
  STATUS_FLAG_OUT_OF_SERVICE : Nat

/-- What `Multistate_Output_Write_Property` leaves: the `bool` returned, the
write data (error fields), the descriptor list and the number of `panic()` calls. -/
structure WriteOutcome where
  status : Bool
  wp_data : BACNET_WRITE_PROPERTY_DATA
  MSO_Descriptor_List : LLIST_HDR
  panics : Nat
  deriving DecidableEq, Repr

/-! ## `mso.c`: operations of the write path -/

/-- The whole number a `float` converts to when it is assigned to an unsigned
integer: the fractional part is discarded (for a value of -1 or less the C
conversion is undefined; the embedding gives 0 there). -/
def float_to_unsigned (q : Rat) : Nat := Int.toNat ⌊q⌋

/-- The conversion to the unsigned integer type of the registers
`Present_Value` and `shadow_Present_Value`: a whole number below
`2 ^ PRESENT_VALUE_BITS` is stored as it is.  For a larger one an unsigned
integer is reduced modulo `2 ^ PRESENT_VALUE_BITS`, while the conversion of a
`float` is undefined in C; the embedding reduces it in the same way. -/
def to_present_value (cfg : Config) (x : Nat) : Nat := x % 2 ^ cfg.PRESENT_VALUE_BITS

/-- The conversion to `uint16_t`. -/
def toUint16 (x : Nat) : Nat := x % 2 ^ 16

/-- The assignments `error_class = c; error_code = e` on the write data. -/
def set_wp_error (wp_data : BACNET_WRITE_PROPERTY_DATA) (c : BACNET_ERROR_CLASS)
    (e : BACNET_ERROR_CODE) : BACNET_WRITE_PROPERTY_DATA :=
  { wp_data with error_class := c, error_code := e }

/-- A call `WPValidateArgType(value, tag, &wp_data->error_class, &wp_data->error_code)`:
the status and the write data it leaves. -/
def call_WPValidateArgType (wlib : WriteLib) (value : BACNET_APPLICATION_DATA_VALUE)
    (tag : BACNET_APPLICATION_TAG) (wp_data : BACNET_WRITE_PROPERTY_DATA) :
    Bool × BACNET_WRITE_PROPERTY_DATA :=
  let r := wlib.WPValidateArgType value tag (wp_data.error_class, wp_data.error_code)
  (r.1, { wp_data with error_class := r.2.1, error_code := r.2.2 })

/-- Embedding of `Multistate_Output_COV_Detect_PV_Change`. -/
def Multistate_Output_COV_Detect_PV_Change (currentObject : MULTISTATE_OUTPUT_DESCR)
    (value : Nat) : MULTISTATE_OUTPUT_DESCR :=
  if value ≠ currentObject.Prior_Value then
    { currentObject with Changed := true, Prior_Value := value }
  else currentObject

/-- Embedding of `SweepToPresentValue`: `tvalue` is a `float`, initialised with
`Relinquish_Default` and overwritten with the entry of the first priority whose
flag is set, which the assignment converts to `float`; it is then assigned to
the shadow value or to the present value, which converts it to the unsigned
integer type of the register. -/
def SweepToPresentValue (cfg : Config) (currentObject : MULTISTATE_OUTPUT_DESCR) :
    MULTISTATE_OUTPUT_DESCR :=
  let tvalue : Rat :=
    match (List.range cfg.BACNET_MAX_PRIORITY).find?
        (fun i => currentObject.priorityFlags.testBit i) with
    | some i => ((float_of_unsigned (currentObject.priorityArray.getD i 0) : Nat) : Rat)
    | none => currentObject.Relinquish_Default
  if currentObject.Out_Of_Service then
    { currentObject with
      shadow_Present_Value := to_present_value cfg (float_to_unsigned tvalue) }
  else
    { currentObject with Present_Value := to_present_value cfg (float_to_unsigned tvalue) }

/-- Embedding of `Multistate_Output_Present_Value_Set`: status, object and write data. -/
def Multistate_Output_Present_Value_Set (cfg : Config) (wlib : WriteLib)
    (currentObject : MULTISTATE_OUTPUT_DESCR) (wp_data : BACNET_WRITE_PROPERTY_DATA)
    (value : BACNET_APPLICATION_DATA_VALUE) :
    Bool × MULTISTATE_OUTPUT_DESCR × BACNET_WRITE_PROPERTY_DATA :=
  let r :=
    call_WPValidateArgType wlib value BACNET_APPLICATION_TAG.BACNET_APPLICATION_TAG_UNSIGNED_INT
      wp_data
  if !r.1 then (false, currentObject, r.2)
  else if !currentObject.Out_Of_Service then
    (false, currentObject,
      set_wp_error r.2 BACNET_ERROR_CLASS.ERROR_CLASS_PROPERTY
        BACNET_ERROR_CODE.ERROR_CODE_WRITE_ACCESS_DENIED)
  else
    let currentObject :=
      if cfg.BACNET_SVC_COV_B then
        Multistate_Output_COV_Detect_PV_Change currentObject value.type.getUnsigned_Int
      else currentObject
    if currentObject.Out_Of_Service then
      (true,
        { currentObject with
          shadow_Present_Value := to_present_value cfg (toUint16 value.type.getUnsigned_Int) },
        r.2)
    else
      (true,
        { currentObject with
          Present_Value := to_present_value cfg (toUint16 value.type.getUnsigned_Int) },
        r.2)

/-- Embedding of `Multistate_Output_Reliability_Set`. -/
def Multistate_Output_Reliability_Set (wlib : WriteLib)
    (currentObject : MULTISTATE_OUTPUT_DESCR) (wp_data : BACNET_WRITE_PROPERTY_DATA)
    (value : BACNET_APPLICATION_DATA_VALUE) :
    Bool × MULTISTATE_OUTPUT_DESCR × BACNET_WRITE_PROPERTY_DATA :=
  let r := wlib.WP_ValidateEnumTypeAndRange wp_data value wlib.RELIABILITY_PROPRIETARY_MAX
  if !r.1 then (false, currentObject, r.2)
  else
    let r :=
      call_WPValidateArgType wlib value BACNET_APPLICATION_TAG.BACNET_APPLICATION_TAG_ENUMERATED
        r.2
    if !r.1 then (r.1, currentObject, r.2)
    else if currentObject.Out_Of_Service then
      (true,
        { currentObject with
          shadowReliability := wlib.reliability_of_enumerated value.type.getEnumerated }, r.2)
    else
      (false, currentObject,
        set_wp_error r.2 BACNET_ERROR_CLASS.ERROR_CLASS_PROPERTY
          BACNET_ERROR_CODE.ERROR_CODE_WRITE_ACCESS_DENIED)

/-- Embedding of `Multistate_Output_Out_Of_Service_Set`. -/
def Multistate_Output_Out_Of_Service_Set (cfg : Config)
    (currentObject : MULTISTATE_OUTPUT_DESCR) (oos_flag : Bool) : MULTISTATE_OUTPUT_DESCR :=
  -- Is there actually a change? If not, then we don't have to do anything.
  if currentObject.Out_Of_Service = oos_flag then currentObject
  else
    let currentObject :=
      if cfg.BACNET_SVC_COV_B then { currentObject with Changed := true } else currentObject
    { currentObject with Out_Of_Service := oos_flag }

/-- Embedding of `Multistate_Output_Relinquish_Default_Set`.  The function ends
without a `return` once the value is stored; `fallthrough` is the value the
caller then finds where it reads the `bool` result. -/
def Multistate_Output_Relinquish_Default_Set (cfg : Config) (wlib : WriteLib)
    (fallthrough : Bool) (currentObject : MULTISTATE_OUTPUT_DESCR)
    (wp_data : BACNET_WRITE_PROPERTY_DATA) (value : BACNET_APPLICATION_DATA_VALUE) :
    Bool × MULTISTATE_OUTPUT_DESCR × BACNET_WRITE_PROPERTY_DATA :=
  let r :=
    wlib.WP_ValidateTagType wp_data value BACNET_APPLICATION_TAG.BACNET_APPLICATION_TAG_REAL
  if !r.1 then (false, currentObject, r.2)
  else
    -- if range properties (etc) exist check valid ranges here
    let r := wlib.WP_ValidateRangeReal r.2 value 0 100
    if !r.1 then (false, currentObject, r.2)
    else
      (fallthrough,
        SweepToPresentValue cfg { currentObject with Relinquish_Default := value.type.getReal },
        r.2)

/-- Embedding of `Multistate_Output_Present_Value_Relinquish`:
`priorityFlags &= ~(1 << (priority - 1))` keeps the bits of `priorityFlags`
that are not in the mask. -/
def Multistate_Output_Present_Value_Relinquish (cfg : Config)
    (currentObject : MULTISTATE_OUTPUT_DESCR) (priority : Nat) :
    Bool × MULTISTATE_OUTPUT_DESCR :=
  if priority ≠ 0 ∧ priority ≤ cfg.BACNET_MAX_PRIORITY ∧ priority ≠ 6 then
    (true,
      SweepToPresentValue cfg
        { currentObject with
          priorityFlags := Nat.ldiff currentObject.priorityFlags (1 <<< (priority - 1)) })
  else
    (false, currentObject)

/-- Modelled from the spec: `characterstring_length` (`bacstr.c`, not among the
sources) gives the number of octets of the string. -/
def characterstring_length (char_string : BACNET_CHARACTER_STRING) : Nat :=
  char_string.value.length

/-- Modelled from the spec: `characterstring_encoding` (`bacstr.c`, not among
the sources) gives the character set of the string. -/
def characterstring_encoding (char_string : BACNET_CHARACTER_STRING) : Nat :=
  char_string.encoding

/-- Embedding of `Multistate_Output_State_Text_Write`, for `state_index >= 1`:
the test `state_index-- < MULTISTATE_NUMBER_OF_STATES` compares the index as
passed and then decrements it. -/
def Multistate_Output_State_Text_Write (cfg : Config) (wlib : WriteLib)
    (currentObject : MULTISTATE_OUTPUT_DESCR) (state_index : Nat)
    (char_string : BACNET_CHARACTER_STRING) (wp_data : BACNET_WRITE_PROPERTY_DATA) :
    Bool × MULTISTATE_OUTPUT_DESCR × BACNET_WRITE_PROPERTY_DATA :=
  if state_index < cfg.MULTISTATE_NUMBER_OF_STATES then
    let state_index := state_index - 1
    let length := characterstring_length char_string
    if length ≤ wlib.STATE_TEXT_SIZE then
      let encoding := characterstring_encoding char_string
      if encoding = wlib.CHARACTER_UTF8 then
        match wlib.characterstring_ansi_copy wlib.STATE_TEXT_SIZE char_string with
        | some text =>
          (true,
            { currentObject with State_Text := currentObject.State_Text.set state_index text },
            wp_data)
        | none =>
          (false, currentObject,
            set_wp_error wp_data BACNET_ERROR_CLASS.ERROR_CLASS_PROPERTY
              BACNET_ERROR_CODE.ERROR_CODE_VALUE_OUT_OF_RANGE)
      else
        (false, currentObject,
          set_wp_error wp_data BACNET_ERROR_CLASS.ERROR_CLASS_PROPERTY
            BACNET_ERROR_CODE.ERROR_CODE_CHARACTER_SET_NOT_SUPPORTED)
    else
      (false, currentObject,
        set_wp_error wp_data BACNET_ERROR_CLASS.ERROR_CLASS_PROPERTY
          BACNET_ERROR_CODE.ERROR_CODE_NO_SPACE_TO_WRITE_PROPERTY)
  else
    (false, currentObject,
      set_wp_error wp_data BACNET_ERROR_CLASS.ERROR_CLASS_PROPERTY
        BACNET_ERROR_CODE.ERROR_CODE_VALUE_OUT_OF_RANGE)

/-- The `do ... while (max_states)` loop of `PROP_STATE_TEXT` with
`BACNET_ARRAY_ALL`, entered with `max_states` at least 1 (with no state at all
the C loop would not stop; the first clause is not reached from a configuration
with a state).  Arguments: `max_states`, `array_index`, `element_len`, `len`,
the decoded value, `status`, the object and the write data. -/
def state_text_write_loop (cfg : Config) (wlib : WriteLib) :
    Nat → Nat → Int → Int → BACNET_APPLICATION_DATA_VALUE → Bool →
      MULTISTATE_OUTPUT_DESCR → BACNET_WRITE_PROPERTY_DATA →
      Bool × MULTISTATE_OUTPUT_DESCR × BACNET_WRITE_PROPERTY_DATA
  | 0, _, _, _, _, status, currentObject, wp_data => (status, currentObject, wp_data)
  | max_states + 1, array_index, element_len, len, value, status, currentObject, wp_data =>
    let r : Bool × MULTISTATE_OUTPUT_DESCR × BACNET_WRITE_PROPERTY_DATA :=
      if element_len ≠ 0 then
        Multistate_Output_State_Text_Write cfg wlib currentObject array_index
          value.type.getCharacter_String wp_data
      else (status, currentObject, wp_data)
    -- max_states--; array_index++;
    if max_states ≠ 0 then
      let d :=
        wlib.bacapp_decode_application_data (wp_data.application_data.drop len.toNat)
          (wp_data.application_data_len - len)
      if d.1 < 0 then
        (r.1, r.2.1,
          set_wp_error r.2.2 BACNET_ERROR_CLASS.ERROR_CLASS_PROPERTY
            BACNET_ERROR_CODE.ERROR_CODE_VALUE_OUT_OF_RANGE)
      else
        state_text_write_loop cfg wlib max_states (array_index + 1) d.1 (len + d.1) d.2 r.1
          r.2.1 r.2.2
    else r

/-- A result of the switch of `Multistate_Output_Write_Property` that only sets
the error fields: `status` keeps its initial `false`. -/
def write_property_refuse (currentObject : MULTISTATE_OUTPUT_DESCR)
    (wp_data : BACNET_WRITE_PROPERTY_DATA) (e : BACNET_ERROR_CODE) :
    Bool × MULTISTATE_OUTPUT_DESCR × BACNET_WRITE_PROPERTY_DATA :=
  (false, currentObject, set_wp_error wp_data BACNET_ERROR_CLASS.ERROR_CLASS_PROPERTY e)

/-- The `default:` branch of the switch of `Multistate_Output_Write_Property`. -/
def write_property_unknown (currentObject : MULTISTATE_OUTPUT_DESCR)
    (wp_data : BACNET_WRITE_PROPERTY_DATA) :
    Bool × MULTISTATE_OUTPUT_DESCR × BACNET_WRITE_PROPERTY_DATA :=
  write_property_refuse currentObject wp_data BACNET_ERROR_CODE.ERROR_CODE_UNKNOWN_PROPERTY

/-- A case of the switch of the form `status = WPValidateArgType(...); if (status)
{ store }`: `store` gives the object once the value is accepted. -/
def write_property_typed (wlib : WriteLib) (tag : BACNET_APPLICATION_TAG)
    (store : MULTISTATE_OUTPUT_DESCR → MULTISTATE_OUTPUT_DESCR)
    (currentObject : MULTISTATE_OUTPUT_DESCR) (wp_data : BACNET_WRITE_PROPERTY_DATA)
    (value : BACNET_APPLICATION_DATA_VALUE) :
    Bool × MULTISTATE_OUTPUT_DESCR × BACNET_WRITE_PROPERTY_DATA :=
  let r := call_WPValidateArgType wlib value tag wp_data
  if r.1 then (true, store currentObject, r.2) else (false, currentObject, r.2)

/-- The cases `PROP_LIMIT_ENABLE` and `PROP_EVENT_ENABLE`: a bit string of
`bits` bits is stored by `store`, any other is out of range. -/
def write_property_bits (wlib : WriteLib) (bits : Nat)
    (store : MULTISTATE_OUTPUT_DESCR → Nat → MULTISTATE_OUTPUT_DESCR)
    (currentObject : MULTISTATE_OUTPUT_DESCR) (wp_data : BACNET_WRITE_PROPERTY_DATA)
    (value : BACNET_APPLICATION_DATA_VALUE) :
    Bool × MULTISTATE_OUTPUT_DESCR × BACNET_WRITE_PROPERTY_DATA :=
  let r :=
    call_WPValidateArgType wlib value BACNET_APPLICATION_TAG.BACNET_APPLICATION_TAG_BIT_STRING
      wp_data
  if r.1 then
    if value.type.getBit_String.bits_used = bits then
      (true, store currentObject (value.type.getBit_String.value.getD 0 0), r.2)
    else
      write_property_refuse currentObject r.2 BACNET_ERROR_CODE.ERROR_CODE_VALUE_OUT_OF_RANGE
  else (false, currentObject, r.2)

open BACNET_PROPERTY_ID BACNET_APPLICATION_TAG in
/-- The `switch (wp_data->object_property)` of `Multistate_Output_Write_Property`
on the object found: `status`, the object and the write data after it.  `len`
is the length of the value decoded first. -/
def write_property_switch (cfg : Config) (wlib : WriteLib) (fallthrough : Bool) (len : Int)
    (value : BACNET_APPLICATION_DATA_VALUE) (currentObject : MULTISTATE_OUTPUT_DESCR)
    (wp_data : BACNET_WRITE_PROPERTY_DATA) :
    Bool × MULTISTATE_OUTPUT_DESCR × BACNET_WRITE_PROPERTY_DATA :=
  match wp_data.object_property with
  | PROP_PRESENT_VALUE =>
    if value.tag = BACNET_APPLICATION_TAG_REAL then
      let r := Multistate_Output_Present_Value_Set cfg wlib currentObject wp_data value
      if wp_data.priority = 6 then
        -- Command priority 6 is reserved for use by Minimum On/Off algorithm
        (r.1, r.2.1,
          set_wp_error r.2.2 BACNET_ERROR_CLASS.ERROR_CLASS_PROPERTY
            BACNET_ERROR_CODE.ERROR_CODE_WRITE_ACCESS_DENIED)
      else if !r.1 then
        (r.1, r.2.1,
          set_wp_error r.2.2 BACNET_ERROR_CLASS.ERROR_CLASS_PROPERTY
            BACNET_ERROR_CODE.ERROR_CODE_VALUE_OUT_OF_RANGE)
      else r
    else
      let v := call_WPValidateArgType wlib value BACNET_APPLICATION_TAG_NULL wp_data
      if v.1 then
        let r := Multistate_Output_Present_Value_Relinquish cfg currentObject wp_data.priority
        if !r.1 then
          (false, r.2,
            set_wp_error v.2 BACNET_ERROR_CLASS.ERROR_CLASS_PROPERTY
              BACNET_ERROR_CODE.ERROR_CODE_VALUE_OUT_OF_RANGE)
        else (true, r.2, v.2)
      else (false, currentObject, v.2)
  | PROP_OUT_OF_SERVICE =>
    write_property_typed wlib BACNET_APPLICATION_TAG_BOOLEAN
      (fun o => Multistate_Output_Out_Of_Service_Set cfg o value.type.getBoolean)
      currentObject wp_data value
  | PROP_RELIABILITY => Multistate_Output_Reliability_Set wlib currentObject wp_data value
  | PROP_TIME_DELAY =>
    if cfg.INTRINSIC_REPORTING_B then
      write_property_typed wlib BACNET_APPLICATION_TAG_UNSIGNED_INT
        (fun o =>
          { o with
            Time_Delay := value.type.getUnsigned_Int
            Remaining_Time_Delay := value.type.getUnsigned_Int })
        currentObject wp_data value
    else write_property_unknown currentObject wp_data
  | PROP_NOTIFICATION_CLASS =>
    if cfg.INTRINSIC_REPORTING_B then
      write_property_typed wlib BACNET_APPLICATION_TAG_UNSIGNED_INT
        (fun o => { o with Notification_Class := value.type.getUnsigned_Int })
        currentObject wp_data value
    else write_property_unknown currentObject wp_data
  | PROP_HIGH_LIMIT =>
    if cfg.INTRINSIC_REPORTING_B then
      write_property_typed wlib BACNET_APPLICATION_TAG_SIGNED_INT
        (fun o => { o with High_Limit := value.type.getSigned_Int }) currentObject wp_data value
    else write_property_unknown currentObject wp_data
  | PROP_LOW_LIMIT =>
    if cfg.INTRINSIC_REPORTING_B then
      write_property_typed wlib BACNET_APPLICATION_TAG_SIGNED_INT
        (fun o => { o with Low_Limit := value.type.getSigned_Int }) currentObject wp_data value
    else write_property_unknown currentObject wp_data
  | PROP_DEADBAND =>
    if cfg.INTRINSIC_REPORTING_B then
      write_property_typed wlib BACNET_APPLICATION_TAG_SIGNED_INT
        (fun o => { o with Deadband := value.type.getSigned_Int }) currentObject wp_data value
    else write_property_unknown currentObject wp_data
  | PROP_LIMIT_ENABLE =>
    if cfg.INTRINSIC_REPORTING_B then
      write_property_bits wlib 2 (fun o b => { o with Limit_Enable := b }) currentObject wp_data
        value
    else write_property_unknown currentObject wp_data
  | PROP_EVENT_ENABLE =>
    if cfg.INTRINSIC_REPORTING_B then
      write_property_bits wlib 3 (fun o b => { o with Event_Enable := b }) currentObject wp_data
        value
    else write_property_unknown currentObject wp_data
  | PROP_NOTIFY_TYPE =>
    if cfg.INTRINSIC_REPORTING_B then
      let r := call_WPValidateArgType wlib value BACNET_APPLICATION_TAG_ENUMERATED wp_data
      if r.1 then
        if value.type.getEnumerated = wlib.NOTIFY_EVENT
            ∨ value.type.getEnumerated = wlib.NOTIFY_ALARM then
          (true, { currentObject with Notify_Type := value.type.getEnumerated }, r.2)
        else
          write_property_refuse currentObject r.2 BACNET_ERROR_CODE.ERROR_CODE_VALUE_OUT_OF_RANGE
      else (false, currentObject, r.2)
    else write_property_unknown currentObject wp_data
  | PROP_EVENT_DETECTION_ENABLE =>
    if cfg.INTRINSIC_REPORTING_B = true ∧ 13 ≤ cfg.BACNET_PROTOCOL_REVISION then
      let r := call_WPValidateArgType wlib value BACNET_APPLICATION_TAG_BOOLEAN wp_data
      if r.1 then
        write_property_refuse currentObject r.2 BACNET_ERROR_CODE.ERROR_CODE_WRITE_ACCESS_DENIED
      else (false, currentObject, r.2)
    else write_property_unknown currentObject wp_data
  | PROP_STATE_TEXT =>
    if value.tag = BACNET_APPLICATION_TAG_CHARACTER_STRING then
      if wp_data.array_index = 0 then
        -- Array element zero is the number of elements in the array: read-only
        write_property_refuse currentObject wp_data
          BACNET_ERROR_CODE.ERROR_CODE_WRITE_ACCESS_DENIED
      else if wp_data.array_index = cfg.BACNET_ARRAY_ALL then
        state_text_write_loop cfg wlib
          (Multistate_Output_Max_States cfg wp_data.object_instance) 1 len len value false
          currentObject wp_data
      else if wp_data.array_index ≤ Multistate_Output_Max_States cfg wp_data.object_instance then
        Multistate_Output_State_Text_Write cfg wlib currentObject wp_data.array_index
          value.type.getCharacter_String wp_data
      else
        write_property_refuse currentObject wp_data
          BACNET_ERROR_CODE.ERROR_CODE_WRITE_ACCESS_DENIED
    else
      write_property_refuse currentObject wp_data BACNET_ERROR_CODE.ERROR_CODE_INVALID_DATA_TYPE
  | PROP_RELINQUISH_DEFAULT =>
    Multistate_Output_Relinquish_Default_Set cfg wlib fallthrough currentObject wp_data value
  | PROP_DESCRIPTION | PROP_OBJECT_IDENTIFIER | PROP_OBJECT_NAME | PROP_OBJECT_TYPE
  | PROP_STATUS_FLAGS | PROP_EVENT_STATE | PROP_PRIORITY_ARRAY | PROP_NUMBER_OF_STATES =>
    write_property_refuse currentObject wp_data BACNET_ERROR_CODE.ERROR_CODE_WRITE_ACCESS_DENIED
  | PROP_ACKED_TRANSITIONS | PROP_EVENT_TIME_STAMPS =>
    if cfg.INTRINSIC_REPORTING_B then
      write_property_refuse currentObject wp_data
        BACNET_ERROR_CODE.ERROR_CODE_WRITE_ACCESS_DENIED
    else write_property_unknown currentObject wp_data
  | _ => write_property_unknown currentObject wp_data

/-- The descriptor list once the object found for `object_instance` (the first
of that instance) has been modified in place into `obj`. -/
def store_object (object_instance : Nat) (obj : MULTISTATE_OUTPUT_DESCR) :
    List MULTISTATE_OUTPUT_DESCR → List MULTISTATE_OUTPUT_DESCR
  | [] => []
  | o :: rest =>
    if o.common.objectInstance == object_instance then obj :: rest
    else o :: store_object object_instance obj rest

open BACNET_PROPERTY_ID in
/-- Embedding of `Multistate_Output_Write_Property` on the descriptor list
`MSO_Descriptor_List`: returns true if successful. -/
def Multistate_Output_Write_Property (cfg : Config) (wlib : WriteLib) (fallthrough : Bool)
    (MSO_Descriptor_List : LLIST_HDR) (wp_data : BACNET_WRITE_PROPERTY_DATA) : WriteOutcome :=
  -- decode some of the request
  let d := wlib.bacapp_decode_application_data wp_data.application_data
    wp_data.application_data_len
  if d.1 < 0 then
    -- error while decoding - a value larger than we can handle
    { status := false
      wp_data :=
        set_wp_error wp_data BACNET_ERROR_CLASS.ERROR_CLASS_PROPERTY
          BACNET_ERROR_CODE.ERROR_CODE_VALUE_OUT_OF_RANGE
      MSO_Descriptor_List := MSO_Descriptor_List
      panics := 0 }
  -- only array properties can have array options
  else if wp_data.array_index ≠ cfg.BACNET_ARRAY_ALL
      ∧ (cfg.INTRINSIC_REPORTING_B = true → wp_data.object_property ≠ PROP_EVENT_TIME_STAMPS)
      ∧ wp_data.object_property ≠ PROP_PRIORITY_ARRAY
      ∧ wp_data.object_property ≠ PROP_STATE_TEXT
      ∧ wp_data.object_property ≠ PROP_PROPERTY_LIST then
    { status := false
      wp_data :=
        set_wp_error wp_data BACNET_ERROR_CLASS.ERROR_CLASS_PROPERTY
          BACNET_ERROR_CODE.ERROR_CODE_PROPERTY_IS_NOT_AN_ARRAY
      MSO_Descriptor_List := MSO_Descriptor_List
      panics := 0 }
  else
    match Multistate_Output_Instance_To_Object MSO_Descriptor_List wp_data.object_instance with
    | none =>
      -- panic(); this should never happen
      { status := false
        wp_data :=
          { wp_data with error_code := BACNET_ERROR_CODE.ERROR_CODE_NO_OBJECTS_OF_SPECIFIED_TYPE }
        MSO_Descriptor_List := MSO_Descriptor_List
        panics := 1 }
    | some currentObject =>
      let r := write_property_switch cfg wlib fallthrough d.1 d.2 currentObject wp_data
      { status := r.1
        wp_data := r.2.2
        MSO_Descriptor_List :=
          { MSO_Descriptor_List with
            items := store_object wp_data.object_instance r.2.1 MSO_Descriptor_List.items }
        panics := 0 }

/-! ## `mso.c`: the COV value list -/

/-- Embedding of `Multistate_Output_Encode_Value_List`: the `bool` returned, the
list as it is reached from its head afterwards (`value_list->next = NULL` on
the second node cuts off what followed) and the number of `panic()` calls. -/
def Multistate_Output_Encode_Value_List (wlib : WriteLib) (cfg : Config)
    (MSO_Descriptor_List : LLIST_HDR) (object_instance : Nat)
    (value_list : List BACNET_PROPERTY_VALUE) : Bool × List BACNET_PROPERTY_VALUE × Nat :=
  match Multistate_Output_Instance_To_Object MSO_Descriptor_List object_instance with
  | none => (false, value_list, 1)
  | some currentObject =>
    match value_list with
    | [] => (false, [], 0)
    | _ :: rest =>
      let first : BACNET_PROPERTY_VALUE :=
        { propertyIdentifier := BACNET_PROPERTY_ID.PROP_PRESENT_VALUE
          propertyArrayIndex := cfg.BACNET_ARRAY_ALL
          value :=
            { context_specific := false
              tag := BACNET_APPLICATION_TAG.BACNET_APPLICATION_TAG_UNSIGNED_INT
              type :=
                BACNET_VALUE_TYPE.Unsigned_Int
                  (Multistate_Output_Present_Value_Get currentObject)
              next := none }
          priority := wlib.BACNET_NO_PRIORITY }
      match rest with
      | [] => (false, [first], 0)
      | _ :: _ =>
        let bits := wlib.bitstring_init
        let bits := wlib.bitstring_set_bit bits wlib.STATUS_FLAG_IN_ALARM (isInAlarm currentObject)
        let bits := wlib.bitstring_set_bit bits wlib.STATUS_FLAG_FAULT (isInFault currentObject)
        let bits := wlib.bitstring_set_bit bits wlib.STATUS_FLAG_OVERRIDDEN false
        let bits :=
          wlib.bitstring_set_bit bits wlib.STATUS_FLAG_OUT_OF_SERVICE
            (isOutOfService currentObject)
        let second : BACNET_PROPERTY_VALUE :=
          { propertyIdentifier := BACNET_PROPERTY_ID.PROP_STATUS_FLAGS
            propertyArrayIndex := cfg.BACNET_ARRAY_ALL
            value :=
              { context_specific := false
                tag := BACNET_APPLICATION_TAG.BACNET_APPLICATION_TAG_BIT_STRING
                type := BACNET_VALUE_TYPE.Bit_String bits
                next := none }
            priority := wlib.BACNET_NO_PRIORITY }
        (true, [first, second], 0)

/-! ## Sample data of the write path -/

/-- A value as decoded from a request: tag and content, nothing following. -/
def sampleValue (tag : BACNET_APPLICATION_TAG) (type : BACNET_VALUE_TYPE) :
    BACNET_APPLICATION_DATA_VALUE :=
  { context_specific := false, tag := tag, type := type, next := none }

/-- A decoder for the instances below: it knows Null, a one-octet unsigned
integer, the reals 50, 200 and 2.5 (IEEE 754 single precision), and refuses
anything else. -/
def sampleDecode (data : List Nat) (_len : Int) : Int × BACNET_APPLICATION_DATA_VALUE :=
  match data with
  | [0] => (1, sampleValue BACNET_APPLICATION_TAG.BACNET_APPLICATION_TAG_NULL
      BACNET_VALUE_TYPE.indeterminate)
  | [33, n] => (2, sampleValue BACNET_APPLICATION_TAG.BACNET_APPLICATION_TAG_UNSIGNED_INT
      (BACNET_VALUE_TYPE.Unsigned_Int n))
  | [68, 66, 72, 0, 0] => (5, sampleValue BACNET_APPLICATION_TAG.BACNET_APPLICATION_TAG_REAL
      (BACNET_VALUE_TYPE.Real 50))
  | [68, 67, 72, 0, 0] => (5, sampleValue BACNET_APPLICATION_TAG.BACNET_APPLICATION_TAG_REAL
      (BACNET_VALUE_TYPE.Real 200))
  | [68, 64, 32, 0, 0] => (5, sampleValue BACNET_APPLICATION_TAG.BACNET_APPLICATION_TAG_REAL
      (BACNET_VALUE_TYPE.Real (5 / 2)))
  | _ => (-1, sampleValue (BACNET_APPLICATION_TAG.other 15) BACNET_VALUE_TYPE.indeterminate)

/-- Helpers of the write path for the instances below: the validators accept a
value exactly when its tag is the expected one (and, for the range test, when
the real lies in the range), and set `INVALID_DATA_TYPE` or
`VALUE_OUT_OF_RANGE` otherwise. -/
def sampleWriteLib : WriteLib where
  bacapp_decode_application_data := sampleDecode
  WPValidateArgType := fun v tag err =>
    if v.tag = tag then (true, err)
    else (false, (BACNET_ERROR_CLASS.ERROR_CLASS_PROPERTY,
      BACNET_ERROR_CODE.ERROR_CODE_INVALID_DATA_TYPE))
  WP_ValidateTagType := fun wp v tag =>
    if v.tag = tag then (true, wp)
    else (false, set_wp_error wp BACNET_ERROR_CLASS.ERROR_CLASS_PROPERTY
      BACNET_ERROR_CODE.ERROR_CODE_INVALID_DATA_TYPE)
  WP_ValidateRangeReal := fun wp v lo hi =>
    if lo ≤ v.type.getReal ∧ v.type.getReal ≤ hi then (true, wp)
    else (false, set_wp_error wp BACNET_ERROR_CLASS.ERROR_CLASS_PROPERTY
      BACNET_ERROR_CODE.ERROR_CODE_VALUE_OUT_OF_RANGE)
  WP_ValidateEnumTypeAndRange := fun wp v hi =>
    if v.tag = BACNET_APPLICATION_TAG.BACNET_APPLICATION_TAG_ENUMERATED
        ∧ v.type.getEnumerated ≤ hi then (true, wp)
    else (false, set_wp_error wp BACNET_ERROR_CLASS.ERROR_CLASS_PROPERTY
      BACNET_ERROR_CODE.ERROR_CODE_VALUE_OUT_OF_RANGE)
  characterstring_ansi_copy := fun size s => if s.value.length < size then some s.value else none
  reliability_of_enumerated := fun n =>
    if n = 0 then BACNET_RELIABILITY.RELIABILITY_NO_FAULT_DETECTED
    else BACNET_RELIABILITY.other n
  bitstring_init := { bits_used := 0, value := [0] }
  bitstring_set_bit := fun s n b =>
    { bits_used := max s.bits_used (n + 1)
      value :=
        [if b then s.value.getD 0 0 ||| 2 ^ n else Nat.ldiff (s.value.getD 0 0) (2 ^ n)] }
  STATE_TEXT_SIZE := 64
  CHARACTER_UTF8 := 0
  RELIABILITY_PROPRIETARY_MAX := 255
  BACNET_NO_PRIORITY := 0
  NOTIFY_ALARM := 0
  NOTIFY_EVENT := 1
  STATUS_FLAG_IN_ALARM := 0
  STATUS_FLAG_FAULT := 1
  STATUS_FLAG_OVERRIDDEN := 2
  STATUS_FLAG_OUT_OF_SERVICE := 3

/-- The list holding the one object of instance 1 that `sampleObject` describes. -/
def sampleList : LLIST_HDR := { max := 100, items := [sampleObject 1] }

/-- A write request for instance 1 with no array index: property, octets of the
value and priority. -/
def sampleWrite (property : BACNET_PROPERTY_ID) (data : List Nat) (priority : Nat) :
    BACNET_WRITE_PROPERTY_DATA where
  object_type := BACNET_OBJECT_TYPE.OBJECT_MULTI_STATE_OUTPUT
  object_instance := 1
  object_property := property
  array_index := sampleConfig.BACNET_ARRAY_ALL
  application_data := data
  application_data_len := data.length
  priority := priority
  error_class := BACNET_ERROR_CLASS.other 0
  error_code := BACNET_ERROR_CODE.other 0

/-- A node of a value list as a caller supplies it, not yet filled in. -/
def sampleNode : BACNET_PROPERTY_VALUE where
  propertyIdentifier := BACNET_PROPERTY_ID.other 0
  propertyArrayIndex := 0
  value := sampleValue (BACNET_APPLICATION_TAG.other 0) BACNET_VALUE_TYPE.indeterminate
  priority := 0

/-- The sample configuration with the smallest APDU size of the protocol, 50 octets. -/
def smallConfig : Config := { sampleConfig with MAX_APDU := 50 }

/-- Object 1 with four state texts of twenty characters each ("A" to "D" repeated). -/
def longTextObject : MULTISTATE_OUTPUT_DESCR :=
  { sampleObject 1 with
    State_Text :=
      [List.replicate 20 65, List.replicate 20 66, List.replicate 20 67, List.replicate 20 68] }

/-- A read of all state texts of instance 1 into a zeroed buffer of `MAX_APDU`
(50) octets, whose length is recorded in `application_data_len`. -/
def stateTextRequest : BACNET_READ_PROPERTY_DATA where
  object_type := BACNET_OBJECT_TYPE.OBJECT_MULTI_STATE_OUTPUT
  object_instance := 1
  object_property := BACNET_PROPERTY_ID.PROP_STATE_TEXT
  array_index := smallConfig.BACNET_ARRAY_ALL
  application_data := List.replicate 50 0
  application_data_len := 50
  error_class := BACNET_ERROR_CLASS.other 0
  error_code := BACNET_ERROR_CODE.other 0

/-- A read of the object identifier of instance 1 into a buffer of three octets. -/
def shortBufferRequest : BACNET_READ_PROPERTY_DATA :=
  { testRequest with application_data := [0, 0, 0], application_data_len := 3 }

/-- The register `SweepToPresentValue` assigns: the shadow value when the
object is out of service, the present value otherwise. -/
def target_register (o : MULTISTATE_OUTPUT_DESCR) : Nat :=
  if o.Out_Of_Service then o.shadow_Present_Value else o.Present_Value

/-- The register `SweepToPresentValue` leaves alone: the present value when the
object is out of service, the shadow value otherwise. -/
def other_register (o : MULTISTATE_OUTPUT_DESCR) : Nat :=
  if o.Out_Of_Service then o.Present_Value else o.shadow_Present_Value

/-- Object 1 with a relinquish default of 2.5 and no priority commanding it. -/
def halfDefaultObject : MULTISTATE_OUTPUT_DESCR :=
  { sampleObject 1 with Relinquish_Default := 5 / 2 }

/-- Object 1 out of service and commanded at priorities 3 and 10 (entries 7
and 3), with 7 in its shadow value and 1 in its present value. -/
def commandedObject : MULTISTATE_OUTPUT_DESCR :=
  { sampleObject 1 with
    Out_Of_Service := true
    Present_Value := 1
    shadow_Present_Value := 7
    priorityFlags := 516
    priorityArray := [0, 0, 7, 0, 0, 0, 0, 0, 0, 3, 0, 0, 0, 0, 0, 0] }

/-- The sample configuration with present-value registers of 32 bits. -/
def wideConfig : Config := { sampleConfig with PRESENT_VALUE_BITS := 32 }

/-- Object 1 in service and commanded at priorities 1 and 2, the entry of
priority 2 being 16777217, which no `float` holds. -/
def largeEntryObject : MULTISTATE_OUTPUT_DESCR :=
  { sampleObject 1 with
    Present_Value := 5
    priorityFlags := 3
    priorityArray := [5, 16777217, 0, 0, 0, 0, 0, 0, 0, 0, 0, 0, 0, 0, 0, 0] }

/-- The helpers of the write path with the `WPValidateArgType` that `mso.c`
defines for its unit test: it leaves the error fields alone and returns false. -/
def stubWriteLib : WriteLib :=
  { sampleWriteLib with WPValidateArgType := fun _ _ err => (false, err) }

/-! ## `mso.c`: change of value -/

/-- Embedding of `Multistate_Output_Change_Of_Value`: the `bool` returned and
the number of `panic()` calls. -/
def Multistate_Output_Change_Of_Value (MSO_Descriptor_List : LLIST_HDR)
    (object_instance : Nat) : Bool × Nat :=
  match Multistate_Output_Instance_To_Object MSO_Descriptor_List object_instance with
  | none => (false, 1)
  | some currentObject => (currentObject.Changed, 0)

/-- Embedding of `Multistate_Output_Change_Of_Value_Clear`: the descriptor list
it leaves and the number of `panic()` calls. -/
def Multistate_Output_Change_Of_Value_Clear (MSO_Descriptor_List : LLIST_HDR)
    (object_instance : Nat) : LLIST_HDR × Nat :=
  match Multistate_Output_Instance_To_Object MSO_Descriptor_List object_instance with
  | none => (MSO_Descriptor_List, 1)
  | some currentObject =>
    ({ MSO_Descriptor_List with
       items :=
         store_object object_instance { currentObject with Changed := false }
           MSO_Descriptor_List.items }, 0)

/-! ## Sample data of the change of value and of the state texts -/

/-- Object 1, in service, no priority commanding it, nothing reported yet
(`Changed` false, `Prior_Value` 0), with a relinquish default of 3. -/
def covObject : MULTISTATE_OUTPUT_DESCR :=
  { sampleObject 1 with Relinquish_Default := 3 }

/-- The octets of the character string "On" in UTF-8: tag, length, character
set, characters. -/
def sampleTextOctets : List Nat := [117, 3, 0, 79, 110]

/-- The character string "On" in UTF-8. -/
def sampleText : BACNET_CHARACTER_STRING := { encoding := 0, value := [79, 110] }

/-- The sample helpers of the write path with a decoder that knows the
character string "On" (and refuses anything else). -/
def textWriteLib : WriteLib :=
  { sampleWriteLib with
    bacapp_decode_application_data := fun data _ =>
      if data = sampleTextOctets then
        (5, sampleValue BACNET_APPLICATION_TAG.BACNET_APPLICATION_TAG_CHARACTER_STRING
          (BACNET_VALUE_TYPE.Character_String sampleText))
      else
        (-1, sampleValue (BACNET_APPLICATION_TAG.other 15) BACNET_VALUE_TYPE.indeterminate) }

/-- A write of "On" to element `i` of the state texts of instance 1. -/
def stateTextWrite (i : Nat) : BACNET_WRITE_PROPERTY_DATA :=
  { sampleWrite BACNET_PROPERTY_ID.PROP_STATE_TEXT sampleTextOctets 16 with array_index := i }

/-- A read of element `i` of the state texts of instance 1 into a zeroed buffer
of 16 octets. -/
def stateTextRead (i : Nat) : BACNET_READ_PROPERTY_DATA where
  object_type := BACNET_OBJECT_TYPE.OBJECT_MULTI_STATE_OUTPUT
  object_instance := 1
  object_property := BACNET_PROPERTY_ID.PROP_STATE_TEXT
  array_index := i
  application_data := List.replicate 16 0
  application_data_len := 16
  error_class := BACNET_ERROR_CLASS.other 0
  error_code := BACNET_ERROR_CODE.other 0

/-! ## `s_cevent.c`: properties -/

/-- The unsigned conversion leaves an `int` length as it is. -/
theorem toUnsigned_of_lt {x : Nat} (h : x < 2 ^ 31) : toUnsigned x = x := by
  unfold toUnsigned
  exact Nat.mod_eq_of_lt (lt_trans h (by norm_num))

/-- C1: with communication disabled `Send_CEvent_Notify` returns 0 and calls no
collaborator at all: no address lookup, no invoke-id allocation, no TSM
registration, no release and no datalink send, for every port, device and event. -/
theorem send_cevent_disabled_returns_zero_silently (env : Env) (portParams : PORT_SUPPORT)
    (device_id : Nat) (data : BACNET_EVENT_NOTIFICATION_DATA)
    (hoff : env.dcc_communication_enabled = false) :
    Send_CEvent_Notify env portParams device_id data = (0, []) := by
  simp [Send_CEvent_Notify, hoff]

/-- Instance of C1 on the sample environment with communication disabled. -/
theorem send_cevent_disabled_returns_zero_silently_witness :
    Send_CEvent_Notify sampleEnvDisabled 1 7 sampleEvent = (0, []) :=
  send_cevent_disabled_returns_zero_silently sampleEnvDisabled 1 7 sampleEvent rfl

/-- C3: `tsm_set_confirmed_unsegmented_transaction` is called only for a bound
device whose encoded request (NPDU length plus APDU length, the length recorded
in the control block) does not exceed the `max_apdu` of the binding; and when
that length exceeds `max_apdu`, the calls end with `tsm_free_invoke_id` of the
allocated id, nothing is handed to the TSM or the datalink, and 0 is returned.
The lengths are C `int`s. -/
theorem send_cevent_oversize_never_reaches_tsm (env : Env) (portParams : PORT_SUPPORT)
    (device_id : Nat) (data : BACNET_EVENT_NOTIFICATION_DATA)
    (hint : ∀ m d, env.address_get_by_device device_id = some (m, d) →
      cevent_pdu_len env d (toUint8 env.tsm_next_free_invokeID) data < 2 ^ 31) :
    (∀ id dest npci dlcb,
        Call.tsm_set_confirmed_unsegmented_transaction id dest npci dlcb
            ∈ (Send_CEvent_Notify env portParams device_id data).2 →
          ∃ m d, env.address_get_by_device device_id = some (m, d)
            ∧ dlcb.optr = cevent_pdu_len env d id data
            ∧ cevent_pdu_len env d id data ≤ m)
    ∧ (∀ m d, env.dcc_communication_enabled = true →
        env.address_get_by_device device_id = some (m, d) →
        toUint8 env.tsm_next_free_invokeID ≠ 0 →
        m < cevent_pdu_len env d (toUint8 env.tsm_next_free_invokeID) data →
          Send_CEvent_Notify env portParams device_id data =
            (0,
              [Call.address_get_by_device device_id, Call.tsm_next_free_invokeID,
               Call.datalink_get_my_address,
               Call.npdu_encode_pdu (Ptr.glAdr d.glAdr) Ptr.null
                 (npdu_setup_npci_data true BACNET_MESSAGE_PRIORITY.MESSAGE_PRIORITY_NORMAL),
               Call.cevent_notify_encode_apdu (toUint8 env.tsm_next_free_invokeID) data,
               Call.tsm_free_invoke_id (toUint8 env.tsm_next_free_invokeID)])) := by
  constructor
  · intro id dest npci dlcb hmem
    unfold Send_CEvent_Notify at hmem
    cases hen : env.dcc_communication_enabled with
    | false => simp [hen] at hmem
    | true =>
      cases hb : env.address_get_by_device device_id with
      | none => simp [hen, hb] at hmem
      | some b =>
        obtain ⟨m, d⟩ := b
        have hlen := hint m d hb
        by_cases hz : toUint8 env.tsm_next_free_invokeID = 0
        · simp [hen, hb, hz] at hmem
        · by_cases hfit :
            toUnsigned (cevent_pdu_len env d (toUint8 env.tsm_next_free_invokeID) data) < m
          · have hfit' := hfit
            unfold cevent_pdu_len at hfit'
            simp [hen, hb, hz, hfit'] at hmem
            obtain ⟨hid, -, -, hdl⟩ := hmem
            refine ⟨m, d, rfl, ?_, ?_⟩
            · subst hid
              subst hdl
              rfl
            · subst hid
              rw [toUnsigned_of_lt hlen] at hfit
              exact le_of_lt hfit
          · have hfit' := hfit
            unfold cevent_pdu_len at hfit'
            simp [hen, hb, hz, hfit'] at hmem
  · intro m d hen hb hz hbig
    have hlen := hint m d hb
    have hfit :
        ¬ toUnsigned (cevent_pdu_len env d (toUint8 env.tsm_next_free_invokeID) data) < m := by
      rw [toUnsigned_of_lt hlen]
      exact not_lt.mpr (le_of_lt hbig)
    unfold cevent_pdu_len at hfit
    unfold Send_CEvent_Notify
    simp [hen, hb, hz, hfit]

/-- Instance of C3: device 7 accepts 8 octets, the request has 13; the invoke id
5 is released and 0 is returned. -/
theorem send_cevent_oversize_never_reaches_tsm_witness :
    Send_CEvent_Notify sampleEnvSmall 1 7 sampleEvent =
      (0,
        [Call.address_get_by_device 7, Call.tsm_next_free_invokeID,
         Call.datalink_get_my_address,
         Call.npdu_encode_pdu (Ptr.glAdr samplePath.glAdr) Ptr.null
           (npdu_setup_npci_data true BACNET_MESSAGE_PRIORITY.MESSAGE_PRIORITY_NORMAL),
         Call.cevent_notify_encode_apdu 5 sampleEvent,
         Call.tsm_free_invoke_id 5]) :=
  (send_cevent_oversize_never_reaches_tsm sampleEnvSmall 1 7 sampleEvent
      (by intro m d _; show (13 : Nat) < 2 ^ 31; norm_num)).2 8 samplePath rfl rfl (by decide) (by decide)

/-- C4, as stated, fails: communication is enabled and invoke id 5 is free, yet
`Send_CEvent_Notify` returns 0, because device 8 is not bound. -/
theorem send_cevent_zero_with_slot_available :
    sampleEnv.dcc_communication_enabled = true
      ∧ toUint8 sampleEnv.tsm_next_free_invokeID = 5
      ∧ (Send_CEvent_Notify sampleEnv 1 8 sampleEvent).1 = 0 := by
  decide

/-- C4, amended: `Send_CEvent_Notify` returns 0 exactly when communication is
disabled, or the device is not bound, or the allocator returns 0 (no slot /
invoke id), or the encoded length is not below the `max_apdu` of the binding.
In every other case the value returned is the invoke id the allocator gave,
the APDU was encoded with it, and the calls end with the registration of that
id with the TSM followed by `datalink_send_pdu` of the same control block to
the same destination. -/
theorem send_cevent_zero_iff (env : Env) (portParams : PORT_SUPPORT) (device_id : Nat)
    (data : BACNET_EVENT_NOTIFICATION_DATA) :
    ((Send_CEvent_Notify env portParams device_id data).1 = 0 ↔
        (env.dcc_communication_enabled = false
          ∨ env.address_get_by_device device_id = none
          ∨ toUint8 env.tsm_next_free_invokeID = 0
          ∨ ∃ m d, env.address_get_by_device device_id = some (m, d)
              ∧ ¬ toUnsigned (cevent_pdu_len env d (toUint8 env.tsm_next_free_invokeID) data)
                    < m))
    ∧ ((Send_CEvent_Notify env portParams device_id data).1 ≠ 0 →
        (Send_CEvent_Notify env portParams device_id data).1 = toUint8 env.tsm_next_free_invokeID
          ∧ ∃ m d dlcb, env.address_get_by_device device_id = some (m, d)
              ∧ (Send_CEvent_Notify env portParams device_id data).2 =
                  [Call.address_get_by_device device_id, Call.tsm_next_free_invokeID,
                   Call.datalink_get_my_address,
                   Call.npdu_encode_pdu (Ptr.glAdr d.glAdr) Ptr.null
                     (npdu_setup_npci_data true
                       BACNET_MESSAGE_PRIORITY.MESSAGE_PRIORITY_NORMAL),
                   Call.cevent_notify_encode_apdu (toUint8 env.tsm_next_free_invokeID) data,
                   Call.tsm_set_confirmed_unsegmented_transaction
                     (toUint8 env.tsm_next_free_invokeID) (Ptr.path d)
                     (npdu_setup_npci_data true
                       BACNET_MESSAGE_PRIORITY.MESSAGE_PRIORITY_NORMAL) dlcb,
                   Call.datalink_send_pdu (Ptr.path d)
                     (npdu_setup_npci_data true
                       BACNET_MESSAGE_PRIORITY.MESSAGE_PRIORITY_NORMAL) dlcb]) := by
  unfold Send_CEvent_Notify
  cases hen : env.dcc_communication_enabled with
  | false => simp
  | true =>
    cases hb : env.address_get_by_device device_id with
    | none => simp
    | some b =>
      obtain ⟨m, d⟩ := b
      by_cases hz : toUint8 env.tsm_next_free_invokeID = 0
      · simp [hz]
      · by_cases hfit :
          toUnsigned (cevent_pdu_len env d (toUint8 env.tsm_next_free_invokeID) data) < m
        · have hfit' := hfit
          unfold cevent_pdu_len at hfit'
          simp [hz, hfit, hfit']
        · have hfit' := hfit
          unfold cevent_pdu_len at hfit'
          simp [hz, hfit']
          exact ⟨m, d, ⟨rfl, rfl⟩, not_lt.mp hfit⟩

/-- Instance of the amended C4 on the sample environment: device 7 is bound,
the request fits, and invoke id 5 is returned. -/
theorem send_cevent_zero_iff_witness :
    (Send_CEvent_Notify sampleEnv 1 7 sampleEvent).1 = toUint8 sampleEnv.tsm_next_free_invokeID :=
  ((send_cevent_zero_iff sampleEnv 1 7 sampleEvent).2 (by decide)).1

/-- C5: when the device is bound and the allocator reports that no invoke id is
available (it returns 0), `Send_CEvent_Notify` returns 0 having made the
address lookup and exactly one allocation attempt: nothing is encoded, sent,
registered or freed. -/
theorem send_cevent_no_invoke_id_fails_at_once (env : Env) (portParams : PORT_SUPPORT)
    (device_id : Nat) (data : BACNET_EVENT_NOTIFICATION_DATA) (b : Nat × BACNET_PATH)
    (hen : env.dcc_communication_enabled = true)
    (hbound : env.address_get_by_device device_id = some b)
    (hnone : toUint8 env.tsm_next_free_invokeID = 0) :
    Send_CEvent_Notify env portParams device_id data =
        (0, [Call.address_get_by_device device_id, Call.tsm_next_free_invokeID])
      ∧ (Send_CEvent_Notify env portParams device_id data).2.countP Call.isAllocation = 1
      ∧ (Send_CEvent_Notify env portParams device_id data).2.any Call.isEncode = false
      ∧ (Send_CEvent_Notify env portParams device_id data).2.any Call.isDatalinkSend = false
      ∧ (Send_CEvent_Notify env portParams device_id data).2.any Call.isTsmSet = false
      ∧ (Send_CEvent_Notify env portParams device_id data).2.any Call.isTsmFree = false := by
  have h : Send_CEvent_Notify env portParams device_id data =
      (0, [Call.address_get_by_device device_id, Call.tsm_next_free_invokeID]) := by
    unfold Send_CEvent_Notify
    simp [hen, hbound, hnone]
  rw [h]
  simp [Call.isAllocation, Call.isEncode, Call.isDatalinkSend, Call.isTsmSet, Call.isTsmFree]

/-- Instance of C5 on the sample environment with the allocator exhausted. -/
theorem send_cevent_no_invoke_id_fails_at_once_witness :
    Send_CEvent_Notify sampleEnvExhausted 1 7 sampleEvent =
      (0, [Call.address_get_by_device 7, Call.tsm_next_free_invokeID]) :=
  (send_cevent_no_invoke_id_fails_at_once sampleEnvExhausted 1 7 sampleEvent (480, samplePath)
    rfl rfl rfl).1

/-- C6: `Send_CEvent_Notify` calls `datalink_send_pdu` at most once; and when
that call fails (`bytes_sent <= 0`) there is still exactly one send, no
`tsm_free_invoke_id`, the transaction registered just before it with the same
invoke id, destination and control block stays registered, and that invoke id
(non-zero) is what the caller gets. -/
theorem send_cevent_failed_send_not_retried (env : Env) (portParams : PORT_SUPPORT)
    (device_id : Nat) (data : BACNET_EVENT_NOTIFICATION_DATA) :
    (Send_CEvent_Notify env portParams device_id data).2.countP Call.isDatalinkSend ≤ 1
    ∧ (∀ dest npci dlcb,
        Call.datalink_send_pdu dest npci dlcb
            ∈ (Send_CEvent_Notify env portParams device_id data).2 →
        env.datalink_send_pdu dest npci dlcb ≤ 0 →
          (Send_CEvent_Notify env portParams device_id data).2.countP Call.isDatalinkSend = 1
          ∧ (Send_CEvent_Notify env portParams device_id data).2.any Call.isTsmFree = false
          ∧ Call.tsm_set_confirmed_unsegmented_transaction
                (Send_CEvent_Notify env portParams device_id data).1 dest npci dlcb
              ∈ (Send_CEvent_Notify env portParams device_id data).2
          ∧ (Send_CEvent_Notify env portParams device_id data).1
              = toUint8 env.tsm_next_free_invokeID
          ∧ (Send_CEvent_Notify env portParams device_id data).1 ≠ 0) := by
  unfold Send_CEvent_Notify
  cases hen : env.dcc_communication_enabled with
  | false => simp
  | true =>
    cases hb : env.address_get_by_device device_id with
    | none => simp [Call.isDatalinkSend]
    | some b =>
      obtain ⟨m, d⟩ := b
      by_cases hz : toUint8 env.tsm_next_free_invokeID = 0
      · simp [hz, Call.isDatalinkSend]
      · by_cases hfit :
          toUnsigned
              ((env.npdu_encode_pdu (Ptr.glAdr d.glAdr) Ptr.null
                    (npdu_setup_npci_data true
                      BACNET_MESSAGE_PRIORITY.MESSAGE_PRIORITY_NORMAL)).length
                + (env.cevent_notify_encode_apdu (toUint8 env.tsm_next_free_invokeID)
                    data).length) < m
        · simp [hz, hfit, Call.isDatalinkSend, Call.isTsmFree, List.countP_cons]
          intro dest npci dlcb h1 h2 h3 _
          exact ⟨h1, h2, h3⟩
        · simp [hz, hfit, Call.isDatalinkSend, List.countP_cons]

/-- Instance of C6 on the sample environment, whose datalink fails to send
(`bytes_sent = -1`): invoke id 5 is returned all the same. -/
theorem send_cevent_failed_send_not_retried_witness :
    (Send_CEvent_Notify sampleEnv 1 7 sampleEvent).2.countP Call.isDatalinkSend = 1
      ∧ (Send_CEvent_Notify sampleEnv 1 7 sampleEvent).2.any Call.isTsmFree = false
      ∧ Call.tsm_set_confirmed_unsegmented_transaction
            (Send_CEvent_Notify sampleEnv 1 7 sampleEvent).1 (Ptr.path samplePath)
            (npdu_setup_npci_data true BACNET_MESSAGE_PRIORITY.MESSAGE_PRIORITY_NORMAL)
            { Handler_Transmit_Buffer := [1, 4, 0, 5, 5, 2, 9, 1, 28, 0, 64, 0, 1], optr := 13 }
          ∈ (Send_CEvent_Notify sampleEnv 1 7 sampleEvent).2
      ∧ (Send_CEvent_Notify sampleEnv 1 7 sampleEvent).1 = toUint8 sampleEnv.tsm_next_free_invokeID
      ∧ (Send_CEvent_Notify sampleEnv 1 7 sampleEvent).1 ≠ 0 :=
  (send_cevent_failed_send_not_retried sampleEnv 1 7 sampleEvent).2 (Ptr.path samplePath)
    (npdu_setup_npci_data true BACNET_MESSAGE_PRIORITY.MESSAGE_PRIORITY_NORMAL)
    { Handler_Transmit_Buffer := [1, 4, 0, 5, 5, 2, 9, 1, 28, 0, 64, 0, 1], optr := 13 }
    (by decide) (by decide)

/-- C7, as stated, fails: 0 lies in the namespace 0-254, but when the allocator
hands out 0 for a bound device nothing is encoded, registered or sent, and the
value returned is the failure result. -/
theorem send_cevent_invoke_id_zero_is_none :
    toUint8 sampleEnvExhausted.tsm_next_free_invokeID = 0
      ∧ sampleEnvExhausted.dcc_communication_enabled = true
      ∧ sampleEnvExhausted.address_get_by_device 7 = some (480, samplePath)
      ∧ Send_CEvent_Notify sampleEnvExhausted 1 7 sampleEvent =
          (0, [Call.address_get_by_device 7, Call.tsm_next_free_invokeID]) := by
  decide

/-- C7, amended: every non-zero invoke id (1-255) the allocator hands out for a
bound device is treated as a valid id: the APDU is encoded with it, and when
the encoded length is below `max_apdu` it is registered with the TSM, sent, and
returned, a value different from the failure result 0, which is the one
reserved value. -/
theorem send_cevent_nonzero_invoke_id_is_valid (env : Env) (portParams : PORT_SUPPORT)
    (device_id : Nat) (data : BACNET_EVENT_NOTIFICATION_DATA) (m : Nat) (d : BACNET_PATH)
    (hen : env.dcc_communication_enabled = true)
    (hbound : env.address_get_by_device device_id = some (m, d))
    (hid : toUint8 env.tsm_next_free_invokeID ≠ 0) :
    1 ≤ toUint8 env.tsm_next_free_invokeID ∧ toUint8 env.tsm_next_free_invokeID ≤ 255
    ∧ Call.cevent_notify_encode_apdu (toUint8 env.tsm_next_free_invokeID) data
        ∈ (Send_CEvent_Notify env portParams device_id data).2
    ∧ (toUnsigned (cevent_pdu_len env d (toUint8 env.tsm_next_free_invokeID) data) < m →
        (Send_CEvent_Notify env portParams device_id data).1 = toUint8 env.tsm_next_free_invokeID
        ∧ (Send_CEvent_Notify env portParams device_id data).1 ≠ 0
        ∧ (Send_CEvent_Notify env portParams device_id data).2.any Call.isTsmSet = true
        ∧ (Send_CEvent_Notify env portParams device_id data).2.any Call.isDatalinkSend = true
        ∧ (Send_CEvent_Notify env portParams device_id data).2.any Call.isTsmFree = false) := by
  refine ⟨Nat.pos_of_ne_zero hid, ?_, ?_, ?_⟩
  · have : toUint8 env.tsm_next_free_invokeID < 2 ^ 8 := Nat.mod_lt _ (by norm_num)
    omega
  · unfold Send_CEvent_Notify
    by_cases hfit :
        toUnsigned
            ((env.npdu_encode_pdu (Ptr.glAdr d.glAdr) Ptr.null
                  (npdu_setup_npci_data true
                    BACNET_MESSAGE_PRIORITY.MESSAGE_PRIORITY_NORMAL)).length
              + (env.cevent_notify_encode_apdu (toUint8 env.tsm_next_free_invokeID)
                  data).length) < m
    · simp [hen, hbound, hid, hfit]
    · simp [hen, hbound, hid, hfit]
  · intro hfit
    unfold cevent_pdu_len at hfit
    unfold Send_CEvent_Notify
    simp [hen, hbound, hid, hfit, Call.isTsmSet, Call.isDatalinkSend, Call.isTsmFree]

/-- Instance of the amended C7: the allocator hands out 255, and 255 is encoded,
registered, sent and returned. -/
theorem send_cevent_nonzero_invoke_id_is_valid_witness :
    (Send_CEvent_Notify sampleEnvLast 1 7 sampleEvent).1 = 255
      ∧ Call.cevent_notify_encode_apdu 255 sampleEvent
          ∈ (Send_CEvent_Notify sampleEnvLast 1 7 sampleEvent).2 :=
  ⟨((send_cevent_nonzero_invoke_id_is_valid sampleEnvLast 1 7 sampleEvent 480 samplePath
      rfl rfl (by decide)).2.2.2 (by decide)).1,
   (send_cevent_nonzero_invoke_id_is_valid sampleEnvLast 1 7 sampleEvent 480 samplePath
      rfl rfl (by decide)).2.2.1⟩

/-- C8, as stated, fails: device 8 is not bound, and `Send_CEvent_Notify` only
reports failure: it returns 0 and its one collaborator call is the lookup, so
no address-resolution request (nor anything else) is sent. -/
theorem send_cevent_lookup_miss_sends_nothing :
    sampleEnv.dcc_communication_enabled = true
      ∧ sampleEnv.address_get_by_device 8 = none
      ∧ Send_CEvent_Notify sampleEnv 1 8 sampleEvent = (0, [Call.address_get_by_device 8])
      ∧ (Send_CEvent_Notify sampleEnv 1 8 sampleEvent).2.any Call.isDatalinkSend = false := by
  decide

/-- C8, amended: when `address_get_by_device` finds no binding,
`Send_CEvent_Notify` only reports failure: it returns 0 and the lookup is the
only collaborator call, so no invoke id is allocated, nothing is encoded, and
nothing (no address-resolution request either) is handed to the datalink. -/
theorem send_cevent_lookup_miss_only_fails (env : Env) (portParams : PORT_SUPPORT)
    (device_id : Nat) (data : BACNET_EVENT_NOTIFICATION_DATA)
    (hen : env.dcc_communication_enabled = true)
    (hmiss : env.address_get_by_device device_id = none) :
    Send_CEvent_Notify env portParams device_id data
      = (0, [Call.address_get_by_device device_id]) := by
  unfold Send_CEvent_Notify
  simp [hen, hmiss]

/-- Instance of the amended C8 on the sample environment, where device 9 is not bound. -/
theorem send_cevent_lookup_miss_only_fails_witness :
    Send_CEvent_Notify sampleEnv 2 9 sampleEvent = (0, [Call.address_get_by_device 9]) :=
  send_cevent_lookup_miss_only_fails sampleEnv 2 9 sampleEvent rfl rfl

/-! ## `s_whois.c`: properties -/

/-- C2, as stated, fails: with communication disabled `Send_WhoIs_To_Network`,
which has no DCC test, still calls `datalink_send_pdu`. -/
theorem whois_to_network_sends_when_disabled :
    sampleEnvDisabled.dcc_communication_enabled = false
      ∧ (Send_WhoIs_To_Network sampleEnvDisabled (Ptr.route sampleRoute) (-1) (-1)).any
          Call.isDatalinkSend = true := by
  decide

/-- C2, amended: with communication disabled, `Send_WhoIs`, `Send_WhoIs_Global`,
`Send_WhoIs_Local` and `Send_WhoIs_Remote` call no collaborator at all, hence
never `datalink_send_pdu`, for every port, target and pair of limits;
`Send_WhoIs_To_Network` is not gated: whenever a control block is allocated it
makes one `datalink_send_pdu` call, whether communication is enabled or not. -/
theorem whois_gated_senders_silent_when_disabled (env : Env) (portParams : PORT_SUPPORT)
    (target_address : BACNET_PATH) (low_limit high_limit : Int) :
    (env.dcc_communication_enabled = false →
        Send_WhoIs env low_limit high_limit = []
          ∧ Send_WhoIs_Global env portParams low_limit high_limit = []
          ∧ Send_WhoIs_Local env portParams low_limit high_limit = []
          ∧ Send_WhoIs_Remote env portParams target_address low_limit high_limit = [])
      ∧ (∀ dest dlcb, env.alloc_dlcb_response 't' dest = some dlcb →
          (Send_WhoIs_To_Network env dest low_limit high_limit).countP Call.isDatalinkSend
            = 1) := by
  refine ⟨fun hoff => ⟨?_, ?_, ?_, ?_⟩, ?_⟩
  · simp [Send_WhoIs, Send_WhoIs_Global, hoff]
  · simp [Send_WhoIs_Global, hoff]
  · simp [Send_WhoIs_Local, hoff]
  · simp [Send_WhoIs_Remote, hoff]
  · intro dest dlcb halloc
    simp [Send_WhoIs_To_Network, halloc, Call.isDatalinkSend, List.countP_cons]

/-- Instance of the amended C2: the gated senders on the sample environment
with communication disabled, and `Send_WhoIs_To_Network` sending once on the
sample environment with communication enabled. -/
theorem whois_gated_senders_silent_when_disabled_witness :
    Send_WhoIs sampleEnvDisabled (-1) (-1) = []
      ∧ Send_WhoIs_Global sampleEnvDisabled 3 (-1) (-1) = []
      ∧ Send_WhoIs_Local sampleEnvDisabled 3 (-1) (-1) = []
      ∧ Send_WhoIs_Remote sampleEnvDisabled 3 samplePath (-1) (-1) = []
      ∧ (Send_WhoIs_To_Network sampleEnv (Ptr.route sampleRoute) (-1) (-1)).countP
          Call.isDatalinkSend = 1 :=
  have h := (whois_gated_senders_silent_when_disabled sampleEnvDisabled 3 samplePath
    (-1) (-1)).1 rfl
  ⟨h.1, h.2.1, h.2.2.1, h.2.2.2,
    (whois_gated_senders_silent_when_disabled sampleEnv 3 samplePath (-1) (-1)).2
      (Ptr.route sampleRoute) _ rfl⟩

/-- C10: with communication enabled, `Send_WhoIs_Global` is
`Send_WhoIs_To_Network` on the route whose port is the caller's `portParams`
and whose path is the one `bacnet_path_set_broadcast_global` sets, and
`Send_WhoIs_Local` (after `datalink_get_broadcast_address`) is
`Send_WhoIs_To_Network` on the route whose port is `portParams` and whose path
is the one `bacnet_path_set_broadcast_local` sets; `Send_WhoIs_To_Network`
receives that route as `dest` (its first call allocates the control block for
it), every `whois_encode_apdu` call it makes carries the caller's `low_limit`
and `high_limit`, and it makes that call whenever the control block is
allocated. -/
theorem whois_broadcast_routes_and_limits (env : Env)
    (hen : env.dcc_communication_enabled = true) (portParams : PORT_SUPPORT)
    (low_limit high_limit : Int) :
    Send_WhoIs_Global env portParams low_limit high_limit =
        Send_WhoIs_To_Network env
          (Ptr.route
            { portParams := portParams
              bacnetPath := env.bacnet_path_set_broadcast_global env.stack_dest.bacnetPath })
          low_limit high_limit
      ∧ Send_WhoIs_Local env portParams low_limit high_limit =
          Call.datalink_get_broadcast_address ::
            Send_WhoIs_To_Network env
              (Ptr.route
                { portParams := portParams
                  bacnetPath :=
                    env.bacnet_path_set_broadcast_local
                      (env.datalink_get_broadcast_address env.stack_dest).bacnetPath })
              low_limit high_limit
      ∧ (∀ dest, (Send_WhoIs_To_Network env dest low_limit high_limit).head?
            = some (Call.alloc_dlcb_response 't' dest))
      ∧ (∀ dest l h, Call.whois_encode_apdu l h
            ∈ Send_WhoIs_To_Network env dest low_limit high_limit →
          l = low_limit ∧ h = high_limit)
      ∧ (∀ dest dlcb, env.alloc_dlcb_response 't' dest = some dlcb →
          Call.whois_encode_apdu low_limit high_limit
            ∈ Send_WhoIs_To_Network env dest low_limit high_limit) := by
  refine ⟨?_, ?_, ?_, ?_, ?_⟩
  · simp [Send_WhoIs_Global, hen, whois_global_route]
  · simp [Send_WhoIs_Local, hen, whois_local_route]
  · intro dest
    unfold Send_WhoIs_To_Network
    cases env.alloc_dlcb_response 't' dest <;> simp
  · intro dest l h hmem
    unfold Send_WhoIs_To_Network at hmem
    cases halloc : env.alloc_dlcb_response 't' dest with
    | none => simp [halloc] at hmem
    | some dlcb =>
      simp [halloc] at hmem
      exact hmem
  · intro dest dlcb halloc
    simp [Send_WhoIs_To_Network, halloc]

/-- Instance of C10 on the sample environment: the calls of a global Who-Is for
the range 1 to 100 on port 3. -/
theorem whois_broadcast_routes_and_limits_witness :
    Send_WhoIs_Global sampleEnv 3 1 100 =
      Send_WhoIs_To_Network sampleEnv
        (Ptr.route
          { portParams := 3
            bacnetPath := { localMac := [], glAdr := { raw := [255, 255] } } }) 1 100 :=
  (whois_broadcast_routes_and_limits sampleEnv rfl 3 1 100).1

/-! ## `mso.c`: properties -/

/-- After `Multistate_Output_Init` no instance number designates an object. -/
theorem mso_init_has_no_object (object_instance : Nat) :
    Multistate_Output_Instance_To_Object Multistate_Output_Init object_instance = none := by
  rfl

/-- After `Multistate_Output_Init`, reading any property of any instance returns
`BACNET_STATUS_ERROR` and leaves the request data, buffer included, as it was. -/
theorem mso_read_property_after_init_is_error (cfg : Config) (lib : Lib)
    (rpdata : BACNET_READ_PROPERTY_DATA) :
    (Multistate_Output_Read_Property cfg lib Multistate_Output_Init rpdata).apdu_len
        = cfg.BACNET_STATUS_ERROR
      ∧ (Multistate_Output_Read_Property cfg lib Multistate_Output_Init rpdata).rpdata
          = rpdata := by
  unfold Multistate_Output_Read_Property
  rw [mso_init_has_no_object]
  split_ifs <;> simp

/-- When the list holds an object of the instance asked for, reading
`PROP_OBJECT_IDENTIFIER` with `BACNET_ARRAY_ALL` returns the length of the
encoded object identifier of `OBJECT_MULTI_STATE_OUTPUT` and that instance, and
writes it at the start of the buffer. -/
theorem mso_read_object_identifier_of_existing (cfg : Config) (lib : Lib)
    (MSO_Descriptor_List : LLIST_HDR) (rpdata : BACNET_READ_PROPERTY_DATA)
    (currentObject : MULTISTATE_OUTPUT_DESCR)
    (hobj : Multistate_Output_Instance_To_Object MSO_Descriptor_List rpdata.object_instance
      = some currentObject)
    (hprop : rpdata.object_property = BACNET_PROPERTY_ID.PROP_OBJECT_IDENTIFIER)
    (hall : rpdata.array_index = cfg.BACNET_ARRAY_ALL)
    (hlen : rpdata.application_data_len ≠ 0) :
    Multistate_Output_Read_Property cfg lib MSO_Descriptor_List rpdata =
      { apdu_len :=
          ((lib.encode_application_object_id BACNET_OBJECT_TYPE.OBJECT_MULTI_STATE_OUTPUT
            rpdata.object_instance).length : Int)
        rpdata :=
          { rpdata with
            application_data :=
              writeAt rpdata.application_data 0
                (lib.encode_application_object_id BACNET_OBJECT_TYPE.OBJECT_MULTI_STATE_OUTPUT
                  rpdata.object_instance) }
        panics := 0 } := by
  unfold Multistate_Output_Read_Property
  simp [hobj, hlen, read_property_switch, hprop, read_property_array_check, encode_at_start,
    hall]

/-- Octets written at the start of a buffer are its first octets afterwards. -/
theorem writeAt_zero_take (buf bytes : List Nat) :
    (writeAt buf 0 bytes).take bytes.length = bytes := by
  simp [writeAt]

/-- Instance of the lemma above: once an object of instance 1 is in the list,
the request of `testMultistateOutput` gets five octets, the object identifier
of Multi-state Output 1. -/
theorem mso_read_object_identifier_of_existing_witness :
    (Multistate_Output_Read_Property sampleConfig sampleLib
        { max := 100, items := [sampleObject 1] } testRequest).apdu_len = 5
      ∧ (Multistate_Output_Read_Property sampleConfig sampleLib
          { max := 100, items := [sampleObject 1] } testRequest).rpdata.application_data.take 5
          = [196, 3, 128, 0, 1] := by
  rw [mso_read_object_identifier_of_existing sampleConfig sampleLib
    { max := 100, items := [sampleObject 1] } testRequest (sampleObject 1) rfl rfl rfl
    (by decide)]
  exact ⟨rfl, writeAt_zero_take _ (sampleObjectId 1)⟩

/-- C9, on the code: after `Multistate_Output_Init` the request of
`testMultistateOutput` (instance 1, `PROP_OBJECT_IDENTIFIER`, `BACNET_ARRAY_ALL`)
finds no object: `Multistate_Output_Read_Property` calls `panic()`, returns
`BACNET_STATUS_ERROR` (-1) and leaves the zeroed buffer untouched, so the
buffer holds no object identifier. -/
theorem mso_test_request_after_init_is_error :
    Multistate_Output_Read_Property sampleConfig sampleLib Multistate_Output_Init testRequest
        = { apdu_len := -1, rpdata := testRequest, panics := 1 }
      ∧ testRequest.application_data = List.replicate 480 0
      ∧ testRequest.application_data.take 5 ≠ sampleObjectId 1 := by
  refine ⟨rfl, rfl, ?_⟩
  decide


/-- With communication enabled `Send_WhoIs_Remote` makes the calls of
`Send_WhoIs_To_Network` on the caller's bare path. -/
theorem whois_remote_hands_over_path (env : Env) (portParams : PORT_SUPPORT)
    (target_address : BACNET_PATH) (low_limit high_limit : Int)
    (hen : env.dcc_communication_enabled = true) :
    Send_WhoIs_Remote env portParams target_address low_limit high_limit =
      Send_WhoIs_To_Network env (Ptr.path target_address) low_limit high_limit := by
  simp [Send_WhoIs_Remote, hen]

/-- C11, on the code: with communication enabled, `Send_WhoIs_Remote` on port 3
and the sample path builds the route of port 3 and that path, but what
`Send_WhoIs_To_Network` receives as `dest` (its first call allocates the
control block for it) is the bare path; the route is handed to no collaborator. -/
theorem whois_remote_passes_bare_path :
    sampleEnv.dcc_communication_enabled = true
      ∧ whois_remote_route sampleEnv 3 samplePath = { portParams := 3, bacnetPath := samplePath }
      ∧ Send_WhoIs_Remote sampleEnv 3 samplePath 1 100 =
          Send_WhoIs_To_Network sampleEnv (Ptr.path samplePath) 1 100
      ∧ (Send_WhoIs_Remote sampleEnv 3 samplePath 1 100).head? =
          some (Call.alloc_dlcb_response 't' (Ptr.path samplePath))
      ∧ Call.alloc_dlcb_response 't' (Ptr.route (whois_remote_route sampleEnv 3 samplePath))
          ∉ Send_WhoIs_Remote sampleEnv 3 samplePath 1 100 := by
  decide

/-- With communication enabled `Send_WhoIs` makes the calls of
`Send_WhoIs_To_Network` on the route of the port its first argument converts
to, with its second argument as the low limit and the value of the unfilled
parameter as the high limit. -/
theorem whois_binds_arguments_in_order (env : Env) (low_limit high_limit : Int)
    (hen : env.dcc_communication_enabled = true) :
    Send_WhoIs env low_limit high_limit =
      Send_WhoIs_To_Network env
        (Ptr.route (whois_global_route env (env.port_of_int low_limit)))
        high_limit env.missing_argument := by
  simp [Send_WhoIs, Send_WhoIs_Global, hen]

/-- The calls of `Send_WhoIs_To_Network` once the control block is allocated. -/
theorem whois_to_network_calls (env : Env) (dest : Ptr) (low_limit high_limit : Int)
    (dlcb : DLCB) (halloc : env.alloc_dlcb_response 't' dest = some dlcb) :
    ∃ npdu send,
      Send_WhoIs_To_Network env dest low_limit high_limit =
        [Call.alloc_dlcb_response 't' dest, Call.datalink_get_my_address, npdu,
         Call.whois_encode_apdu low_limit high_limit, send]
      ∧ (∀ l h, npdu ≠ Call.whois_encode_apdu l h)
      ∧ (∀ l h, send ≠ Call.whois_encode_apdu l h) := by
  simp only [Send_WhoIs_To_Network, halloc]
  exact ⟨_, _, rfl, fun l h => Call.noConfusion, fun l h => Call.noConfusion⟩

/-- C12, on the code: `Send_WhoIs(low_limit, high_limit)` calls
`Send_WhoIs_Global` with two arguments for three parameters, so the limits
arrive one place out: with communication enabled and the control block
allocated, the Who-Is it encodes has `high_limit` as its low limit and the
indeterminate content of the unfilled parameter as its high limit, and the
route is built for the port `low_limit` converts to.  Unless
`(low_limit, high_limit)` happens to equal `(high_limit, that content)`, the
Who-Is with the caller's limits is never encoded, and the calls differ from
those of `Send_WhoIs_Global` with the same limits on every port. -/
theorem whois_passes_limits_out_of_place (env : Env) (low_limit high_limit : Int)
    (dlcb : DLCB)
    (hen : env.dcc_communication_enabled = true)
    (halloc : env.alloc_dlcb_response 't'
        (Ptr.route (whois_global_route env (env.port_of_int low_limit))) = some dlcb)
    (hne : low_limit ≠ high_limit ∨ high_limit ≠ env.missing_argument) :
    (Send_WhoIs env low_limit high_limit).head? =
        some (Call.alloc_dlcb_response 't'
          (Ptr.route (whois_global_route env (env.port_of_int low_limit))))
      ∧ Call.whois_encode_apdu high_limit env.missing_argument
          ∈ Send_WhoIs env low_limit high_limit
      ∧ Call.whois_encode_apdu low_limit high_limit ∉ Send_WhoIs env low_limit high_limit
      ∧ (∀ portParams, env.alloc_dlcb_response 't'
            (Ptr.route (whois_global_route env portParams)) ≠ none →
          Call.whois_encode_apdu low_limit high_limit
            ∈ Send_WhoIs_Global env portParams low_limit high_limit)
      ∧ (∀ portParams, Send_WhoIs env low_limit high_limit
          ≠ Send_WhoIs_Global env portParams low_limit high_limit) := by
  have hpair : ¬ (low_limit = high_limit ∧ high_limit = env.missing_argument) := by
    rintro ⟨h1, h2⟩
    rcases hne with h | h
    · exact h h1
    · exact h h2
  obtain ⟨npdu, send, hcalls, hnpdu, hsend⟩ :=
    whois_to_network_calls env _ high_limit env.missing_argument dlcb halloc
  have hshift := whois_binds_arguments_in_order env low_limit high_limit hen
  have hnot : Call.whois_encode_apdu low_limit high_limit
      ∉ Send_WhoIs env low_limit high_limit := by
    rw [hshift, hcalls]
    intro hmem
    simp only [List.mem_cons, List.mem_singleton, List.not_mem_nil, or_false] at hmem
    rcases hmem with h | h | h | h | h
    · exact Call.noConfusion h
    · exact Call.noConfusion h
    · exact hnpdu _ _ h.symm
    · injection h with h1 h2
      exact hpair ⟨h1, h2⟩
    · exact hsend _ _ h.symm
  have hglobal : ∀ portParams, env.alloc_dlcb_response 't'
        (Ptr.route (whois_global_route env portParams)) ≠ none →
      Call.whois_encode_apdu low_limit high_limit
        ∈ Send_WhoIs_Global env portParams low_limit high_limit := by
    intro portParams hsome
    cases hd : env.alloc_dlcb_response 't' (Ptr.route (whois_global_route env portParams)) with
    | none => exact absurd hd hsome
    | some d =>
      obtain ⟨n, t, hc, -, -⟩ :=
        whois_to_network_calls env _ low_limit high_limit d hd
      have hg : Send_WhoIs_Global env portParams low_limit high_limit =
          Send_WhoIs_To_Network env (Ptr.route (whois_global_route env portParams))
            low_limit high_limit := by
        simp [Send_WhoIs_Global, hen]
      rw [hg, hc]
      simp
  refine ⟨?_, ?_, hnot, hglobal, ?_⟩
  · rw [hshift, hcalls]
    rfl
  · rw [hshift, hcalls]
    simp
  · intro portParams heq
    cases hd : env.alloc_dlcb_response 't' (Ptr.route (whois_global_route env portParams)) with
    | none =>
      have hg : Send_WhoIs_Global env portParams low_limit high_limit =
          [Call.alloc_dlcb_response 't' (Ptr.route (whois_global_route env portParams))] := by
        simp [Send_WhoIs_Global, hen, Send_WhoIs_To_Network, hd]
      rw [hshift, hcalls, hg] at heq
      simp at heq
    | some d =>
      have hmem := hglobal portParams (by rw [hd]; exact Option.some_ne_none d)
      rw [← heq] at hmem
      exact hnot hmem

/-- Instance of C12 on the sample environment: `Send_WhoIs(1, 100)` encodes the
Who-Is of the limits (100, 0) for the route of port 1, while
`Send_WhoIs_Global` with the limits 1 and 100 encodes the Who-Is of the limits
(1, 100) on the caller's port. -/
theorem whois_passes_limits_out_of_place_witness :
    (Send_WhoIs sampleEnv 1 100).head? =
        some (Call.alloc_dlcb_response 't' (Ptr.route (whois_global_route sampleEnv 1)))
      ∧ Call.whois_encode_apdu 100 0 ∈ Send_WhoIs sampleEnv 1 100
      ∧ Call.whois_encode_apdu 1 100 ∉ Send_WhoIs sampleEnv 1 100
      ∧ Call.whois_encode_apdu 1 100 ∈ Send_WhoIs_Global sampleEnv 3 1 100
      ∧ Send_WhoIs sampleEnv 1 100 ≠ Send_WhoIs_Global sampleEnv 3 1 100 :=
  have h := whois_passes_limits_out_of_place sampleEnv 1 100
    { Handler_Transmit_Buffer := [], optr := 0 } rfl rfl (Or.inl (by decide))
  ⟨h.1, h.2.1, h.2.2.1, h.2.2.2.1 3 (by decide), h.2.2.2.2 3⟩


/-! ## Invoke-id allocator: properties -/

/-- An acquisition hands out an id that no live transaction holds. -/
theorem allocator_acquire_fresh (a : InvokeIdAllocator) (id : Nat)
    (h : a.acquire.1 = some id) : id ∉ a.live ∧ a.acquire.2.live = id :: a.live := by
  unfold InvokeIdAllocator.acquire at h ⊢
  by_cases hp : a.pool_size ≤ a.live.length
  · simp [hp] at h
  · cases hn : a.next_free with
    | none => simp [hp, hn] at h
    | some j =>
      simp only [hp, hn, if_false] at h ⊢
      have hj : j = id := by simpa using h
      subst hj
      have := List.find?_some hn
      exact ⟨by simpa using this, rfl⟩

/-- One operation keeps the ids of the live transactions pairwise distinct. -/
theorem allocator_step_nodup (a : InvokeIdAllocator) (op : AllocatorOp)
    (h : a.live.Nodup) : (a.step op).live.Nodup := by
  cases op with
  | acquire =>
    show a.acquire.2.live.Nodup
    cases hacq : a.acquire.1 with
    | none =>
      have : a.acquire.2 = a := by
        unfold InvokeIdAllocator.acquire at hacq ⊢
        by_cases hp : a.pool_size ≤ a.live.length
        · simp [hp]
        · cases hn : a.next_free with
          | none => simp [hp, hn]
          | some j => simp [hp, hn] at hacq
      rw [this]
      exact h
    | some id =>
      obtain ⟨hfresh, hlive⟩ := allocator_acquire_fresh a id hacq
      rw [hlive]
      exact List.nodup_cons.mpr ⟨hfresh, h⟩
  | release id =>
    show (a.live.filter _).Nodup
    exact h.filter _

/-- A history keeps the ids of the live transactions pairwise distinct. -/
theorem allocator_run_nodup (ops : List AllocatorOp) (a : InvokeIdAllocator)
    (h : a.live.Nodup) : (a.run ops).live.Nodup := by
  induction ops generalizing a with
  | nil => exact h
  | cons op rest ih =>
    show ((a.step op).run rest).live.Nodup
    exact ih (a.step op) (allocator_step_nodup a op h)

/-- C13: after every sequence of acquisitions and releases, starting with no
live transaction, the invoke ids held by the live originator transactions are
pairwise distinct, and a further acquisition hands out an id that none of them
holds. -/
theorem invoke_ids_of_live_transactions_distinct (pool_size : Nat) (ops : List AllocatorOp) :
    ((InvokeIdAllocator.init pool_size).run ops).live.Nodup
      ∧ ∀ id, ((InvokeIdAllocator.init pool_size).run ops).acquire.1 = some id →
          id ∉ ((InvokeIdAllocator.init pool_size).run ops).live := by
  refine ⟨allocator_run_nodup ops _ List.nodup_nil, ?_⟩
  intro id h
  exact (allocator_acquire_fresh _ id h).1

/-- Instance of C13: three acquisitions, the release of id 1 and one more
acquisition leave the ids 1, 2 and 0 live. -/
theorem invoke_ids_of_live_transactions_distinct_witness :
    ((InvokeIdAllocator.init 4).run
        [AllocatorOp.acquire, AllocatorOp.acquire, AllocatorOp.acquire,
         AllocatorOp.release 1, AllocatorOp.acquire]).live = [1, 2, 0]
      ∧ ((InvokeIdAllocator.init 4).run
        [AllocatorOp.acquire, AllocatorOp.acquire, AllocatorOp.acquire,
         AllocatorOp.release 1, AllocatorOp.acquire]).live.Nodup :=
  ⟨by decide,
   (invoke_ids_of_live_transactions_distinct 4
      [AllocatorOp.acquire, AllocatorOp.acquire, AllocatorOp.acquire,
       AllocatorOp.release 1, AllocatorOp.acquire]).1⟩

/-! ## Frames handed to the datalink -/

/-- Two encoders writing one after the other from the start of a buffer leave
the octets of the first immediately followed by the octets of the second. -/
theorem writeAt_two_take (buf a b : List Nat) :
    (writeAt (writeAt buf 0 a) a.length b).take (a.length + b.length) = a ++ b := by
  simp [writeAt, List.take_append_eq_append_take]

/-- Whenever `Send_CEvent_Notify` sends, the control block handed to
`datalink_send_pdu` starts with the NPDU immediately followed by the APDU, and
its `optr` is NPDU length plus APDU length. -/
theorem send_cevent_frame_is_npdu_then_apdu (env : Env) (portParams : PORT_SUPPORT)
    (device_id : Nat) (data : BACNET_EVENT_NOTIFICATION_DATA) (dest : Ptr)
    (npci : BACNET_NPCI_DATA) (dlcb : DLCB)
    (hsend : Call.datalink_send_pdu dest npci dlcb
      ∈ (Send_CEvent_Notify env portParams device_id data).2) :
    ∃ d, dest = Ptr.path d
      ∧ dlcb.optr =
          (env.npdu_encode_pdu (Ptr.glAdr d.glAdr) Ptr.null npci).length
            + (env.cevent_notify_encode_apdu (toUint8 env.tsm_next_free_invokeID) data).length
      ∧ dlcb.Handler_Transmit_Buffer.take dlcb.optr =
          env.npdu_encode_pdu (Ptr.glAdr d.glAdr) Ptr.null npci
            ++ env.cevent_notify_encode_apdu (toUint8 env.tsm_next_free_invokeID) data := by
  unfold Send_CEvent_Notify at hsend
  cases hen : env.dcc_communication_enabled with
  | false => simp [hen] at hsend
  | true =>
    cases hb : env.address_get_by_device device_id with
    | none => simp [hen, hb] at hsend
    | some b =>
      obtain ⟨m, d⟩ := b
      by_cases hz : toUint8 env.tsm_next_free_invokeID = 0
      · simp [hen, hb, hz] at hsend
      · by_cases hfit :
          toUnsigned
              ((env.npdu_encode_pdu (Ptr.glAdr d.glAdr) Ptr.null
                    (npdu_setup_npci_data true
                      BACNET_MESSAGE_PRIORITY.MESSAGE_PRIORITY_NORMAL)).length
                + (env.cevent_notify_encode_apdu (toUint8 env.tsm_next_free_invokeID)
                    data).length) < m
        · simp [hen, hb, hz, hfit] at hsend
          obtain ⟨hdest, hnpci, hdlcb⟩ := hsend
          subst hdest
          subst hnpci
          subst hdlcb
          exact ⟨d, rfl, rfl, writeAt_two_take _ _ _⟩
        · simp [hen, hb, hz, hfit] at hsend

/-- Instance of the lemma above on the sample environment. -/
theorem send_cevent_frame_is_npdu_then_apdu_witness :
    ∃ d, Ptr.path samplePath = Ptr.path d
      ∧ (13 : Nat) =
          (sampleEnv.npdu_encode_pdu (Ptr.glAdr d.glAdr) Ptr.null
              (npdu_setup_npci_data true BACNET_MESSAGE_PRIORITY.MESSAGE_PRIORITY_NORMAL)).length
            + (sampleEnv.cevent_notify_encode_apdu (toUint8 sampleEnv.tsm_next_free_invokeID)
                sampleEvent).length
      ∧ [1, 4, 0, 5, 5, 2, 9, 1, 28, 0, 64, 0, 1] =
          sampleEnv.npdu_encode_pdu (Ptr.glAdr d.glAdr) Ptr.null
              (npdu_setup_npci_data true BACNET_MESSAGE_PRIORITY.MESSAGE_PRIORITY_NORMAL)
            ++ sampleEnv.cevent_notify_encode_apdu (toUint8 sampleEnv.tsm_next_free_invokeID)
                sampleEvent :=
  send_cevent_frame_is_npdu_then_apdu sampleEnv 1 7 sampleEvent (Ptr.path samplePath)
    (npdu_setup_npci_data true BACNET_MESSAGE_PRIORITY.MESSAGE_PRIORITY_NORMAL)
    { Handler_Transmit_Buffer := [1, 4, 0, 5, 5, 2, 9, 1, 28, 0, 64, 0, 1], optr := 13 }
    (by decide)

/-- C19, on the code: `Send_WhoIs_To_Network` hands `datalink_send_pdu` a
control block whose buffer holds the NPDU (2 octets) immediately followed by
the APDU (2 octets), but whose `optr` is still the 0 it was allocated with, not
the 4 octets of the frame: `pdu_len` is computed and never stored. -/
theorem whois_to_network_leaves_optr_unset :
    sampleEnv.alloc_dlcb_response 't' (Ptr.route sampleRoute)
        = some { Handler_Transmit_Buffer := [], optr := 0 }
      ∧ sampleEnv.npdu_encode_pdu sampleEnv.target_address (Ptr.address sampleEnv.my_address)
          (npdu_setup_npci_data false BACNET_MESSAGE_PRIORITY.MESSAGE_PRIORITY_NORMAL) = [1, 4]
      ∧ sampleEnv.whois_encode_apdu 1 100 = [16, 8]
      ∧ (Send_WhoIs_To_Network sampleEnv (Ptr.route sampleRoute) 1 100).getLast? =
          some (Call.datalink_send_pdu sampleEnv.target_address
            (npdu_setup_npci_data false BACNET_MESSAGE_PRIORITY.MESSAGE_PRIORITY_NORMAL)
            { Handler_Transmit_Buffer := [1, 4, 16, 8], optr := 0 }) := by
  decide


/-! ## `mso.c`: properties of the write path -/

/-- Storing the object found unchanged leaves the list as it was. -/
theorem store_object_same (object_instance : Nat) (obj : MULTISTATE_OUTPUT_DESCR) :
    ∀ items : List MULTISTATE_OUTPUT_DESCR,
      items.find? (fun o => o.common.objectInstance == object_instance) = some obj →
        store_object object_instance obj items = items
  | [], h => by simp at h
  | o :: rest, h => by
    unfold store_object
    by_cases ho : (o.common.objectInstance == object_instance) = true
    · simp [List.find?, ho] at h
      subst h
      simp [ho]
    · simp [List.find?, ho] at h
      simp [ho, store_object_same object_instance obj rest h]

/-- After the object found has been modified in place, the lookup finds the
modified object. -/
theorem find_store_object (object_instance : Nat) (obj obj' : MULTISTATE_OUTPUT_DESCR)
    (hinst : obj'.common.objectInstance = object_instance) :
    ∀ items : List MULTISTATE_OUTPUT_DESCR,
      items.find? (fun o => o.common.objectInstance == object_instance) = some obj →
        (store_object object_instance obj' items).find?
          (fun o => o.common.objectInstance == object_instance) = some obj'
  | [], h => by simp at h
  | o :: rest, h => by
    unfold store_object
    by_cases ho : (o.common.objectInstance == object_instance) = true
    · simp [ho, List.find?, hinst]
    · simp [List.find?, ho] at h
      simp [ho, List.find?, find_store_object object_instance obj obj' hinst rest h]

/-- The object a lookup finds has the instance number asked for. -/
theorem instance_of_found (list : LLIST_HDR) (object_instance : Nat)
    (obj : MULTISTATE_OUTPUT_DESCR)
    (h : Multistate_Output_Instance_To_Object list object_instance = some obj) :
    obj.common.objectInstance = object_instance := by
  have := List.find?_some h
  simpa using this

/-- `SweepToPresentValue` changes the two present-value registers only. -/
theorem sweep_keeps_other_members (cfg : Config) (obj : MULTISTATE_OUTPUT_DESCR) :
    (SweepToPresentValue cfg obj).common = obj.common
      ∧ (SweepToPresentValue cfg obj).Relinquish_Default = obj.Relinquish_Default
      ∧ (SweepToPresentValue cfg obj).priorityFlags = obj.priorityFlags
      ∧ (SweepToPresentValue cfg obj).priorityArray = obj.priorityArray
      ∧ (SweepToPresentValue cfg obj).Out_Of_Service = obj.Out_Of_Service := by
  unfold SweepToPresentValue
  split_ifs <;> simp

/-- When the value decodes to `value` and both validators accept it, a write of
`PROP_RELINQUISH_DEFAULT` to an existing object stores the real, sweeps, and
returns whatever `fallthrough` is. -/
theorem mso_write_relinquish_default_accepted (cfg : Config) (wlib : WriteLib)
    (fallthrough : Bool) (list : LLIST_HDR) (wp_data : BACNET_WRITE_PROPERTY_DATA)
    (obj : MULTISTATE_OUTPUT_DESCR) (len : Int) (value : BACNET_APPLICATION_DATA_VALUE)
    (hdec : wlib.bacapp_decode_application_data wp_data.application_data
      wp_data.application_data_len = (len, value))
    (hlen : 0 ≤ len)
    (hprop : wp_data.object_property = BACNET_PROPERTY_ID.PROP_RELINQUISH_DEFAULT)
    (hall : wp_data.array_index = cfg.BACNET_ARRAY_ALL)
    (hobj : Multistate_Output_Instance_To_Object list wp_data.object_instance = some obj)
    (htag : (wlib.WP_ValidateTagType wp_data value
      BACNET_APPLICATION_TAG.BACNET_APPLICATION_TAG_REAL).1 = true)
    (hrange : (wlib.WP_ValidateRangeReal
      (wlib.WP_ValidateTagType wp_data value
        BACNET_APPLICATION_TAG.BACNET_APPLICATION_TAG_REAL).2 value 0 100).1 = true) :
    (Multistate_Output_Write_Property cfg wlib fallthrough list wp_data).status = fallthrough
      ∧ Multistate_Output_Instance_To_Object
          (Multistate_Output_Write_Property cfg wlib fallthrough list wp_data).MSO_Descriptor_List
          wp_data.object_instance
        = some (SweepToPresentValue cfg { obj with Relinquish_Default := value.type.getReal }) := by
  have hinst := instance_of_found list wp_data.object_instance obj hobj
  unfold Multistate_Output_Write_Property
  simp only [hdec, not_lt.mpr hlen, if_false, hall, ne_eq, not_true_eq_false, false_and, hobj]
  simp only [write_property_switch, hprop, Multistate_Output_Relinquish_Default_Set, htag,
    hrange, Bool.not_true, Bool.false_eq_true, if_false]
  refine ⟨trivial, ?_⟩
  unfold Multistate_Output_Instance_To_Object Generic_Instance_To_Object
  apply find_store_object _ obj
  · rw [(sweep_keeps_other_members cfg _).1]
    exact hinst
  · exact hobj


/-- A write of `PROP_RELINQUISH_DEFAULT` that one of the validators refuses (as
they do for a value that is not a Real, or a real outside 0 to 100) returns
false and leaves the descriptor list as it was. -/
theorem mso_write_relinquish_default_refused (cfg : Config) (wlib : WriteLib)
    (fallthrough : Bool) (list : LLIST_HDR) (wp_data : BACNET_WRITE_PROPERTY_DATA)
    (hprop : wp_data.object_property = BACNET_PROPERTY_ID.PROP_RELINQUISH_DEFAULT)
    (hrefused :
      (wlib.WP_ValidateTagType wp_data
          (wlib.bacapp_decode_application_data wp_data.application_data
            wp_data.application_data_len).2
          BACNET_APPLICATION_TAG.BACNET_APPLICATION_TAG_REAL).1 = false
      ∨ (wlib.WP_ValidateRangeReal
          (wlib.WP_ValidateTagType wp_data
            (wlib.bacapp_decode_application_data wp_data.application_data
              wp_data.application_data_len).2
            BACNET_APPLICATION_TAG.BACNET_APPLICATION_TAG_REAL).2
          (wlib.bacapp_decode_application_data wp_data.application_data
            wp_data.application_data_len).2 0 100).1 = false) :
    (Multistate_Output_Write_Property cfg wlib fallthrough list wp_data).status = false
      ∧ (Multistate_Output_Write_Property cfg wlib fallthrough list wp_data).MSO_Descriptor_List
          = list := by
  unfold Multistate_Output_Write_Property
  by_cases hd : (wlib.bacapp_decode_application_data wp_data.application_data
      wp_data.application_data_len).1 < 0
  · simp [hd]
  · by_cases hidx : wp_data.array_index = cfg.BACNET_ARRAY_ALL
    · cases hobj : Multistate_Output_Instance_To_Object list wp_data.object_instance with
      | none => simp [hd, hidx, hobj]
      | some obj =>
        have hsame := store_object_same wp_data.object_instance obj list.items hobj
        simp only [hd, hidx, hobj, if_false, ne_eq, not_true_eq_false, false_and]
        simp only [write_property_switch, hprop, Multistate_Output_Relinquish_Default_Set]
        rcases hrefused with h | h
        · simp [h, hsame]
        · cases ht : (wlib.WP_ValidateTagType wp_data
              (wlib.bacapp_decode_application_data wp_data.application_data
                wp_data.application_data_len).2
              BACNET_APPLICATION_TAG.BACNET_APPLICATION_TAG_REAL).1 with
          | false => simp [ht, hsame]
          | true => simp [ht, h, hsame]
    · simp [hd, hidx, hprop]

/-- C14, on the code: writing the Real 50.0 to `PROP_RELINQUISH_DEFAULT` of the
existing object 1 stores 50 as `Relinquish_Default` and recomputes the present
value (50), but `Multistate_Output_Relinquish_Default_Set` ends without a
`return`: what `Multistate_Output_Write_Property` returns for the successful
write is whatever the caller finds where it reads the result, false as well as
true. -/
theorem mso_write_relinquish_default_returns_indeterminate (fallthrough : Bool) :
    (Multistate_Output_Write_Property sampleConfig sampleWriteLib fallthrough sampleList
        (sampleWrite BACNET_PROPERTY_ID.PROP_RELINQUISH_DEFAULT [68, 66, 72, 0, 0] 16)).status
        = fallthrough
      ∧ (Multistate_Output_Instance_To_Object
          (Multistate_Output_Write_Property sampleConfig sampleWriteLib fallthrough sampleList
            (sampleWrite BACNET_PROPERTY_ID.PROP_RELINQUISH_DEFAULT [68, 66, 72, 0, 0]
              16)).MSO_Descriptor_List 1).map
          (fun o => (o.Relinquish_Default, o.Present_Value)) = some (50, 50) := by
  have h := mso_write_relinquish_default_accepted sampleConfig sampleWriteLib fallthrough
    sampleList (sampleWrite BACNET_PROPERTY_ID.PROP_RELINQUISH_DEFAULT [68, 66, 72, 0, 0] 16)
    (sampleObject 1) 5
    (sampleValue BACNET_APPLICATION_TAG.BACNET_APPLICATION_TAG_REAL (BACNET_VALUE_TYPE.Real 50))
    rfl (by decide) rfl rfl rfl rfl
    (by norm_num [sampleWriteLib, sampleValue, BACNET_VALUE_TYPE.getReal])
  refine ⟨h.1, ?_⟩
  have h2 := h.2
  simp only [sampleWrite] at h2 ⊢
  rw [h2]
  simp [SweepToPresentValue, sampleObject, sampleConfig, float_to_unsigned, to_present_value,
    sampleValue, BACNET_VALUE_TYPE.getReal, List.range, List.range.loop, List.find?]

/-- The sample validator accepts a value only when its tag is the expected one. -/
theorem sampleWriteLib_validates_tag (v : BACNET_APPLICATION_DATA_VALUE)
    (tag : BACNET_APPLICATION_TAG) (err : BACNET_ERROR_CLASS × BACNET_ERROR_CODE)
    (h : (sampleWriteLib.WPValidateArgType v tag err).1 = true) : v.tag = tag := by
  by_contra hne
  simp [sampleWriteLib, hne] at h

/-- C15: command priority 6 may not be used.  Whatever the value decoded (Real,
Unsigned, Null or other), a write of `PROP_PRESENT_VALUE` with priority 6
returns false and leaves the descriptor list as it was, so that for an existing
object `priorityFlags`, `priorityArray`, `Present_Value` and
`shadow_Present_Value` are unchanged.  `WPValidateArgType` is taken to accept a
value only when its tag is the expected one. -/
theorem mso_write_present_value_priority_6_refused (cfg : Config) (wlib : WriteLib)
    (fallthrough : Bool) (list : LLIST_HDR) (wp_data : BACNET_WRITE_PROPERTY_DATA)
    (hsound : ∀ v tag err, (wlib.WPValidateArgType v tag err).1 = true → v.tag = tag)
    (hprop : wp_data.object_property = BACNET_PROPERTY_ID.PROP_PRESENT_VALUE)
    (hprio : wp_data.priority = 6) :
    (Multistate_Output_Write_Property cfg wlib fallthrough list wp_data).status = false
      ∧ (Multistate_Output_Write_Property cfg wlib fallthrough list wp_data).MSO_Descriptor_List
          = list
      ∧ ∀ obj, Multistate_Output_Instance_To_Object list wp_data.object_instance = some obj →
          ∃ obj', Multistate_Output_Instance_To_Object
              (Multistate_Output_Write_Property cfg wlib fallthrough list
                wp_data).MSO_Descriptor_List wp_data.object_instance = some obj'
            ∧ obj'.priorityFlags = obj.priorityFlags
            ∧ obj'.priorityArray = obj.priorityArray
            ∧ obj'.Present_Value = obj.Present_Value
            ∧ obj'.shadow_Present_Value = obj.shadow_Present_Value := by
  have key :
      (Multistate_Output_Write_Property cfg wlib fallthrough list wp_data).status = false
        ∧ (Multistate_Output_Write_Property cfg wlib fallthrough list wp_data).MSO_Descriptor_List
            = list := by
    unfold Multistate_Output_Write_Property
    by_cases hd : (wlib.bacapp_decode_application_data wp_data.application_data
        wp_data.application_data_len).1 < 0
    · simp [hd]
    · by_cases hidx : wp_data.array_index = cfg.BACNET_ARRAY_ALL
      · cases hobj : Multistate_Output_Instance_To_Object list wp_data.object_instance with
        | none => simp [hd, hidx, hobj]
        | some obj =>
          have hsame := store_object_same wp_data.object_instance obj list.items hobj
          simp only [hd, hidx, hobj, if_false, ne_eq, not_true_eq_false, false_and]
          simp only [write_property_switch, hprop, hprio, if_true]
          by_cases htag : (wlib.bacapp_decode_application_data wp_data.application_data
              wp_data.application_data_len).2.tag
                = BACNET_APPLICATION_TAG.BACNET_APPLICATION_TAG_REAL
          · have hno : (wlib.WPValidateArgType
                (wlib.bacapp_decode_application_data wp_data.application_data
                  wp_data.application_data_len).2
                BACNET_APPLICATION_TAG.BACNET_APPLICATION_TAG_UNSIGNED_INT
                (wp_data.error_class, wp_data.error_code)).1 = false := by
              cases hv : (wlib.WPValidateArgType
                (wlib.bacapp_decode_application_data wp_data.application_data
                  wp_data.application_data_len).2
                BACNET_APPLICATION_TAG.BACNET_APPLICATION_TAG_UNSIGNED_INT
                (wp_data.error_class, wp_data.error_code)).1 with
              | false => rfl
              | true =>
                have := hsound _ _ _ hv
                rw [htag] at this
                exact absurd this (by decide)
            simp [htag, Multistate_Output_Present_Value_Set, call_WPValidateArgType, hno, hsame]
          · cases hv : (wlib.WPValidateArgType
                (wlib.bacapp_decode_application_data wp_data.application_data
                  wp_data.application_data_len).2
                BACNET_APPLICATION_TAG.BACNET_APPLICATION_TAG_NULL
                (wp_data.error_class, wp_data.error_code)).1 with
            | false => simp [htag, call_WPValidateArgType, hv, hsame]
            | true =>
              simp [htag, call_WPValidateArgType, hv, hprio,
                Multistate_Output_Present_Value_Relinquish, hsame]
      · simp [hd, hidx, hprop]
  refine ⟨key.1, key.2, ?_⟩
  intro obj hobj
  rw [key.2]
  exact ⟨obj, hobj, rfl, rfl, rfl, rfl⟩

/-- Instance of C15: a Null written to the present value of object 1 at
priority 6 is refused and the list is as before. -/
theorem mso_write_present_value_priority_6_refused_witness :
    (Multistate_Output_Write_Property sampleConfig sampleWriteLib false sampleList
        (sampleWrite BACNET_PROPERTY_ID.PROP_PRESENT_VALUE [0] 6)).status = false
      ∧ (Multistate_Output_Write_Property sampleConfig sampleWriteLib false sampleList
          (sampleWrite BACNET_PROPERTY_ID.PROP_PRESENT_VALUE [0] 6)).MSO_Descriptor_List
          = sampleList :=
  have h := mso_write_present_value_priority_6_refused sampleConfig sampleWriteLib false
    sampleList (sampleWrite BACNET_PROPERTY_ID.PROP_PRESENT_VALUE [0] 6)
    sampleWriteLib_validates_tag rfl rfl
  ⟨h.1, h.2.1⟩


/-- C16, as stated, fails: `PROP_PRESENT_VALUE` is a required property and is
no array, but a write to index 3 of it whose value does not decode is rejected
with error code `VALUE_OUT_OF_RANGE`, not `PROPERTY_IS_NOT_AN_ARRAY`: the value
is decoded before the array index is looked at. -/
theorem mso_write_undecodable_value_reports_out_of_range :
    BACNET_PROPERTY_ID.PROP_PRESENT_VALUE ∈ Properties_Required
      ∧ (3 : Nat) ≠ sampleConfig.BACNET_ARRAY_ALL
      ∧ (sampleWriteLib.bacapp_decode_application_data [255] 1).1 = -1
      ∧ Multistate_Output_Write_Property sampleConfig sampleWriteLib false sampleList
          { sampleWrite BACNET_PROPERTY_ID.PROP_PRESENT_VALUE [255] 16 with array_index := 3 }
        = { status := false
            wp_data :=
              { sampleWrite BACNET_PROPERTY_ID.PROP_PRESENT_VALUE [255] 16 with
                array_index := 3
                error_class := BACNET_ERROR_CLASS.ERROR_CLASS_PROPERTY
                error_code := BACNET_ERROR_CODE.ERROR_CODE_VALUE_OUT_OF_RANGE }
            MSO_Descriptor_List := sampleList
            panics := 0 } := by
  refine ⟨by decide, by decide, rfl, rfl⟩

/-- C16, amended: for every property of the required or optional list other
than `PROP_PRIORITY_ARRAY`, `PROP_STATE_TEXT` and `PROP_EVENT_TIME_STAMPS`, a
request with an array index other than `BACNET_ARRAY_ALL` is rejected with
error class `PROPERTY` and error code `PROPERTY_IS_NOT_AN_ARRAY`: by
`Multistate_Output_Read_Property`, which returns `BACNET_STATUS_ERROR`, when
the object exists (and the buffer length is not 0 in a `BAC_DEBUG` build); by
`Multistate_Output_Write_Property`, which returns false and leaves the list as
it was, when the value written decodes.  A write whose value does not decode is
rejected before that, with `VALUE_OUT_OF_RANGE`. -/
theorem mso_array_index_on_scalar_property_refused (cfg : Config) (lib : Lib)
    (wlib : WriteLib) (fallthrough : Bool) (list : LLIST_HDR) (property : BACNET_PROPERTY_ID)
    (hlisted : property ∈ Properties_Required ++ Properties_Optional cfg)
    (hpa : property ≠ BACNET_PROPERTY_ID.PROP_PRIORITY_ARRAY)
    (hst : property ≠ BACNET_PROPERTY_ID.PROP_STATE_TEXT)
    (hts : property ≠ BACNET_PROPERTY_ID.PROP_EVENT_TIME_STAMPS) :
    (∀ rpdata obj, rpdata.object_property = property →
        rpdata.array_index ≠ cfg.BACNET_ARRAY_ALL →
        Multistate_Output_Instance_To_Object list rpdata.object_instance = some obj →
        (cfg.BAC_DEBUG = true → rpdata.application_data_len ≠ 0) →
          (Multistate_Output_Read_Property cfg lib list rpdata).apdu_len
              = cfg.BACNET_STATUS_ERROR
            ∧ (Multistate_Output_Read_Property cfg lib list rpdata).rpdata.error_class
              = BACNET_ERROR_CLASS.ERROR_CLASS_PROPERTY
            ∧ (Multistate_Output_Read_Property cfg lib list rpdata).rpdata.error_code
              = BACNET_ERROR_CODE.ERROR_CODE_PROPERTY_IS_NOT_AN_ARRAY)
    ∧ (∀ wp_data, wp_data.object_property = property →
        wp_data.array_index ≠ cfg.BACNET_ARRAY_ALL →
        0 ≤ (wlib.bacapp_decode_application_data wp_data.application_data
              wp_data.application_data_len).1 →
          Multistate_Output_Write_Property cfg wlib fallthrough list wp_data =
            { status := false
              wp_data :=
                { wp_data with
                  error_class := BACNET_ERROR_CLASS.ERROR_CLASS_PROPERTY
                  error_code := BACNET_ERROR_CODE.ERROR_CODE_PROPERTY_IS_NOT_AN_ARRAY }
              MSO_Descriptor_List := list
              panics := 0 })
    ∧ (∀ wp_data,
        (wlib.bacapp_decode_application_data wp_data.application_data
              wp_data.application_data_len).1 < 0 →
          Multistate_Output_Write_Property cfg wlib fallthrough list wp_data =
            { status := false
              wp_data :=
                { wp_data with
                  error_class := BACNET_ERROR_CLASS.ERROR_CLASS_PROPERTY
                  error_code := BACNET_ERROR_CODE.ERROR_CODE_VALUE_OUT_OF_RANGE }
              MSO_Descriptor_List := list
              panics := 0 }) := by
  have hpl : property ≠ BACNET_PROPERTY_ID.PROP_PROPERTY_LIST := by
    intro h
    subst h
    simp [Properties_Required, Properties_Optional] at hlisted
  refine ⟨?_, ?_, ?_⟩
  · intro rpdata obj hprop hidx hobj hdbg
    have hguard : ¬ (cfg.BAC_DEBUG = true ∧ rpdata.application_data_len = 0) := by
      intro h
      exact hdbg h.1 h.2
    have hnonneg : 0 ≤ (read_property_switch cfg lib list obj rpdata).1
        ∧ (read_property_switch cfg lib list obj rpdata).2.object_property = property
        ∧ (read_property_switch cfg lib list obj rpdata).2.array_index = rpdata.array_index := by
      by_cases hI : cfg.INTRINSIC_REPORTING_B = true
      · by_cases hR : 13 ≤ cfg.BACNET_PROTOCOL_REVISION
        · simp [Properties_Required, Properties_Optional, hI, hR] at hlisted
          rcases hlisted with h | h | h | h | h | h | h | h | h | h | h | h | h | h | h | h | h
            | h | h | h <;>
            simp_all [read_property_switch, encode_at_start]
        · simp [Properties_Required, Properties_Optional, hI, hR] at hlisted
          rcases hlisted with h | h | h | h | h | h | h | h | h | h | h | h | h | h | h | h | h
            | h | h <;>
            simp_all [read_property_switch, encode_at_start]
      · simp [Properties_Required, Properties_Optional, hI] at hlisted
        rcases hlisted with h | h | h | h | h | h | h | h | h | h | h | h | h <;>
          simp_all [read_property_switch, encode_at_start]
    obtain ⟨h0, hp, hi⟩ := hnonneg
    unfold Multistate_Output_Read_Property
    simp only [hguard, if_false, hobj]
    unfold read_property_array_check
    have hcond : 0 ≤ (read_property_switch cfg lib list obj rpdata).1
        ∧ (read_property_switch cfg lib list obj rpdata).2.object_property
            ≠ BACNET_PROPERTY_ID.PROP_PROPERTY_LIST
        ∧ (read_property_switch cfg lib list obj rpdata).2.object_property
            ≠ BACNET_PROPERTY_ID.PROP_PRIORITY_ARRAY
        ∧ (cfg.INTRINSIC_REPORTING_B = true →
            (read_property_switch cfg lib list obj rpdata).2.object_property
              ≠ BACNET_PROPERTY_ID.PROP_EVENT_TIME_STAMPS)
        ∧ (read_property_switch cfg lib list obj rpdata).2.object_property
            ≠ BACNET_PROPERTY_ID.PROP_STATE_TEXT
        ∧ (read_property_switch cfg lib list obj rpdata).2.array_index
            ≠ cfg.BACNET_ARRAY_ALL := by
      rw [hp, hi]
      exact ⟨h0, hpl, hpa, fun _ => hts, hst, hidx⟩
    rw [if_pos hcond]
    exact ⟨rfl, rfl, rfl⟩
  · intro wp_data hprop hidx hdec
    unfold Multistate_Output_Write_Property
    have hcond : wp_data.array_index ≠ cfg.BACNET_ARRAY_ALL
        ∧ (cfg.INTRINSIC_REPORTING_B = true →
            wp_data.object_property ≠ BACNET_PROPERTY_ID.PROP_EVENT_TIME_STAMPS)
        ∧ wp_data.object_property ≠ BACNET_PROPERTY_ID.PROP_PRIORITY_ARRAY
        ∧ wp_data.object_property ≠ BACNET_PROPERTY_ID.PROP_STATE_TEXT
        ∧ wp_data.object_property ≠ BACNET_PROPERTY_ID.PROP_PROPERTY_LIST := by
      rw [hprop]
      exact ⟨hidx, fun _ => hts, hpa, hst, hpl⟩
    rw [if_neg (not_lt.mpr hdec), if_pos hcond]
    rfl
  · intro wp_data hdec
    unfold Multistate_Output_Write_Property
    rw [if_pos hdec]
    rfl


/-- Instance of the amended C16 on object 1: reading index 2 of
`PROP_OBJECT_IDENTIFIER` and writing a Null to index 3 of `PROP_PRESENT_VALUE`
are both refused with `PROPERTY_IS_NOT_AN_ARRAY`. -/
theorem mso_array_index_on_scalar_property_refused_witness :
    ((Multistate_Output_Read_Property sampleConfig sampleLib sampleList
          { testRequest with array_index := 2 }).apdu_len = sampleConfig.BACNET_STATUS_ERROR
        ∧ (Multistate_Output_Read_Property sampleConfig sampleLib sampleList
          { testRequest with array_index := 2 }).rpdata.error_class
            = BACNET_ERROR_CLASS.ERROR_CLASS_PROPERTY
        ∧ (Multistate_Output_Read_Property sampleConfig sampleLib sampleList
          { testRequest with array_index := 2 }).rpdata.error_code
            = BACNET_ERROR_CODE.ERROR_CODE_PROPERTY_IS_NOT_AN_ARRAY)
      ∧ Multistate_Output_Write_Property sampleConfig sampleWriteLib false sampleList
          { sampleWrite BACNET_PROPERTY_ID.PROP_PRESENT_VALUE [0] 16 with array_index := 3 }
        = { status := false
            wp_data :=
              { sampleWrite BACNET_PROPERTY_ID.PROP_PRESENT_VALUE [0] 16 with
                array_index := 3
                error_class := BACNET_ERROR_CLASS.ERROR_CLASS_PROPERTY
                error_code := BACNET_ERROR_CODE.ERROR_CODE_PROPERTY_IS_NOT_AN_ARRAY }
            MSO_Descriptor_List := sampleList
            panics := 0 } :=
  ⟨(mso_array_index_on_scalar_property_refused sampleConfig sampleLib sampleWriteLib false
      sampleList BACNET_PROPERTY_ID.PROP_OBJECT_IDENTIFIER (by decide) (by decide) (by decide)
      (by decide)).1 { testRequest with array_index := 2 } (sampleObject 1) rfl (by decide) rfl
      (by decide),
   (mso_array_index_on_scalar_property_refused sampleConfig sampleLib sampleWriteLib false
      sampleList BACNET_PROPERTY_ID.PROP_PRESENT_VALUE (by decide) (by decide) (by decide)
      (by decide)).2.1
      { sampleWrite BACNET_PROPERTY_ID.PROP_PRESENT_VALUE [0] 16 with array_index := 3 } rfl
      (by decide) (by decide)⟩

/-! ## `mso.c`: properties of the COV value list -/

/-- C17: for an existing object `Multistate_Output_Encode_Value_List` returns
true exactly when the list supplied has at least two nodes; the list then
consists of two nodes: the first holds `PROP_PRESENT_VALUE`, no array index, as
an unsigned integer equal to the present value (the shadow value when out of
service), the second holds `PROP_STATUS_FLAGS` as the bit string with in-alarm
set to `Event_State != EVENT_STATE_NORMAL`, fault to (reliability, the shadow
one when out of service) `!= RELIABILITY_NO_FAULT_DETECTED`, overridden to
false and out-of-service to `Out_Of_Service`, and nothing follows it.  For a
missing object or a null list the function returns false. -/
theorem mso_encode_value_list_result (wlib : WriteLib) (cfg : Config) (list : LLIST_HDR)
    (object_instance : Nat) (value_list : List BACNET_PROPERTY_VALUE) :
    (∀ obj, Multistate_Output_Instance_To_Object list object_instance = some obj →
      ((Multistate_Output_Encode_Value_List wlib cfg list object_instance value_list).1 = true
          ↔ 2 ≤ value_list.length)
      ∧ (2 ≤ value_list.length →
          (Multistate_Output_Encode_Value_List wlib cfg list object_instance value_list).2.1 =
            [{ propertyIdentifier := BACNET_PROPERTY_ID.PROP_PRESENT_VALUE
               propertyArrayIndex := cfg.BACNET_ARRAY_ALL
               value :=
                 { context_specific := false
                   tag := BACNET_APPLICATION_TAG.BACNET_APPLICATION_TAG_UNSIGNED_INT
                   type :=
                     BACNET_VALUE_TYPE.Unsigned_Int
                       (if obj.Out_Of_Service = true then obj.shadow_Present_Value
                        else obj.Present_Value)
                   next := none }
               priority := wlib.BACNET_NO_PRIORITY },
             { propertyIdentifier := BACNET_PROPERTY_ID.PROP_STATUS_FLAGS
               propertyArrayIndex := cfg.BACNET_ARRAY_ALL
               value :=
                 { context_specific := false
                   tag := BACNET_APPLICATION_TAG.BACNET_APPLICATION_TAG_BIT_STRING
                   type :=
                     BACNET_VALUE_TYPE.Bit_String
                       (wlib.bitstring_set_bit
                         (wlib.bitstring_set_bit
                           (wlib.bitstring_set_bit
                             (wlib.bitstring_set_bit wlib.bitstring_init
                               wlib.STATUS_FLAG_IN_ALARM
                               (obj.Event_State != BACNET_EVENT_STATE.EVENT_STATE_NORMAL))
                             wlib.STATUS_FLAG_FAULT
                             ((if obj.Out_Of_Service = true then obj.shadowReliability
                               else obj.Reliability)
                               != BACNET_RELIABILITY.RELIABILITY_NO_FAULT_DETECTED))
                           wlib.STATUS_FLAG_OVERRIDDEN false)
                         wlib.STATUS_FLAG_OUT_OF_SERVICE obj.Out_Of_Service)
                   next := none }
               priority := wlib.BACNET_NO_PRIORITY }]))
    ∧ (Multistate_Output_Instance_To_Object list object_instance = none →
        (Multistate_Output_Encode_Value_List wlib cfg list object_instance value_list).1 = false)
    ∧ (value_list = [] →
        (Multistate_Output_Encode_Value_List wlib cfg list object_instance value_list).1
          = false) := by
  refine ⟨?_, ?_, ?_⟩
  · intro obj hobj
    unfold Multistate_Output_Encode_Value_List
    simp only [hobj]
    match value_list with
    | [] => simp
    | [_] => simp
    | _ :: _ :: rest =>
      simp [Multistate_Output_Present_Value_Get, isOutOfService, isInAlarm, isInFault,
        Multistate_Output_Reliability_Get]
  · intro hnone
    unfold Multistate_Output_Encode_Value_List
    simp [hnone]
  · intro hnil
    subst hnil
    unfold Multistate_Output_Encode_Value_List
    cases Multistate_Output_Instance_To_Object list object_instance <;> simp


/-- Instance of C17: with three nodes supplied for object 1 the function
returns true and leaves two nodes. -/
theorem mso_encode_value_list_result_witness :
    (Multistate_Output_Encode_Value_List sampleWriteLib sampleConfig sampleList 1
        [sampleNode, sampleNode, sampleNode]).1 = true
      ∧ (Multistate_Output_Encode_Value_List sampleWriteLib sampleConfig sampleList 1
        [sampleNode, sampleNode, sampleNode]).2.1.length = 2 :=
  have h := (mso_encode_value_list_result sampleWriteLib sampleConfig sampleList 1
    [sampleNode, sampleNode, sampleNode]).1 (sampleObject 1) rfl
  ⟨h.1.mpr (by decide), by rw [h.2 (by decide)]; rfl⟩

/-! ## `mso.c`: the buffer of a read -/

/-- C18, on the code: `Multistate_Output_Read_Property` never looks at
`application_data_len`.  Reading all four state texts (23 octets each once
encoded) into a buffer of `MAX_APDU` = 50 octets, it writes the third text at
offsets 46 to 68 before it tests for room, so 19 octets land beyond the buffer,
and then returns `BACNET_STATUS_ABORT`; reading the object identifier into a
buffer of 3 octets, it writes 5 octets and returns 5. -/
theorem mso_read_property_writes_past_buffer :
    stateTextRequest.application_data.length = 50
      ∧ stateTextRequest.application_data_len = 50
      ∧ (Multistate_Output_Read_Property smallConfig sampleLib
          { max := 100, items := [longTextObject] } stateTextRequest).apdu_len
          = smallConfig.BACNET_STATUS_ABORT
      ∧ (Multistate_Output_Read_Property smallConfig sampleLib
          { max := 100, items := [longTextObject] } stateTextRequest).rpdata.application_data.length
          = 69
      ∧ (Multistate_Output_Read_Property smallConfig sampleLib
          { max := 100, items := [longTextObject] } stateTextRequest).rpdata.application_data.drop 50
          = List.replicate 19 67
      ∧ shortBufferRequest.application_data_len = 3
      ∧ (Multistate_Output_Read_Property sampleConfig sampleLib sampleList
          shortBufferRequest).apdu_len = 5
      ∧ (Multistate_Output_Read_Property sampleConfig sampleLib sampleList
          shortBufferRequest).rpdata.application_data = [196, 3, 128, 0, 1] := by
  decide


/-! ## `mso.c`: relinquishing a priority -/

/-- A whole number survives the conversion from `float` unchanged. -/
theorem float_to_unsigned_natCast (n : Nat) : float_to_unsigned (n : Rat) = n := by
  simp [float_to_unsigned]

/-- For a `float` that is not negative the conversion gives its integer part. -/
theorem float_to_unsigned_floor (q : Rat) (h : 0 ≤ q) :
    (float_to_unsigned q : Int) = ⌊q⌋ := by
  unfold float_to_unsigned
  exact Int.toNat_of_nonneg (Int.floor_nonneg.mpr h)

/-- An unsigned integer below `2 ^ 24` is a `float`: the conversion keeps it. -/
theorem float_of_unsigned_of_lt (n : Nat) (h : n < 2 ^ 24) : float_of_unsigned n = n := by
  have hfind : (List.range 105).find? (fun e => decide (n / 2 ^ e < 2 ^ 24)) = some 0 := by
    rw [List.find?_range_eq_some]
    refine ⟨by simpa using h, by simp, ?_⟩
    intro j hj
    exact absurd hj (Nat.not_lt_zero j)
  unfold float_of_unsigned
  rw [hfind]
  simp [Nat.mod_one]

/-- A whole number that fits the present-value registers is stored as it is. -/
theorem to_present_value_of_lt (cfg : Config) (x : Nat) (h : x < 2 ^ cfg.PRESENT_VALUE_BITS) :
    to_present_value cfg x = x :=
  Nat.mod_eq_of_lt h

/-- What `SweepToPresentValue` assigns: the entry of the first priority below
`BACNET_MAX_PRIORITY` whose flag is set, converted to `float` and on to the
register, or `Relinquish_Default` converted to the register when no flag is
set; the other register keeps its value. -/
theorem sweep_target_register (cfg : Config) (o : MULTISTATE_OUTPUT_DESCR) :
    (∀ i, i < cfg.BACNET_MAX_PRIORITY → o.priorityFlags.testBit i = true →
        (∀ j, j < i → o.priorityFlags.testBit j = false) →
          target_register (SweepToPresentValue cfg o)
            = to_present_value cfg (float_of_unsigned (o.priorityArray.getD i 0)))
      ∧ ((∀ i, i < cfg.BACNET_MAX_PRIORITY → o.priorityFlags.testBit i = false) →
          target_register (SweepToPresentValue cfg o)
            = to_present_value cfg (float_to_unsigned o.Relinquish_Default))
      ∧ other_register (SweepToPresentValue cfg o) = other_register o := by
  refine ⟨?_, ?_, ?_⟩
  · intro i hi hset hmin
    have hfind : (List.range cfg.BACNET_MAX_PRIORITY).find?
        (fun i => o.priorityFlags.testBit i) = some i := by
      rw [List.find?_range_eq_some]
      refine ⟨hset, List.mem_range.mpr hi, ?_⟩
      intro j hj
      simp [hmin j hj]
    unfold SweepToPresentValue target_register
    simp only [hfind]
    split_ifs <;> simp_all [float_to_unsigned_natCast]
  · intro hnone
    have hfind : (List.range cfg.BACNET_MAX_PRIORITY).find?
        (fun i => o.priorityFlags.testBit i) = none := by
      rw [List.find?_range_eq_none]
      intro i hi
      simp [hnone i hi]
    unfold SweepToPresentValue target_register
    simp only [hfind]
    split_ifs <;> simp_all
  · unfold SweepToPresentValue other_register
    split_ifs <;> simp_all

/-- Clearing the bit of a priority: every other bit of the flags is as before. -/
theorem testBit_clear_priority (flags k j : Nat) :
    (Nat.ldiff flags (1 <<< k)).testBit j = (flags.testBit j && decide (j ≠ k)) := by
  rw [Nat.testBit_ldiff, Nat.one_shiftLeft, Nat.testBit_two_pow]
  by_cases h : k = j
  · subst h
    simp
  · have h' : j ≠ k := fun e => h e.symm
    simp [h, h']

/-- When the value decodes to a Null that `WPValidateArgType` accepts, a write
of `PROP_PRESENT_VALUE` to an existing object at a priority that may be
relinquished returns true and leaves the object with the bit of that priority
cleared and the present value swept. -/
theorem mso_write_null_accepted (cfg : Config) (wlib : WriteLib) (fallthrough : Bool)
    (list : LLIST_HDR) (wp_data : BACNET_WRITE_PROPERTY_DATA) (obj : MULTISTATE_OUTPUT_DESCR)
    (len : Int) (value : BACNET_APPLICATION_DATA_VALUE)
    (hdec : wlib.bacapp_decode_application_data wp_data.application_data
      wp_data.application_data_len = (len, value))
    (hlen : 0 ≤ len)
    (hnull : value.tag = BACNET_APPLICATION_TAG.BACNET_APPLICATION_TAG_NULL)
    (haccept : (wlib.WPValidateArgType value BACNET_APPLICATION_TAG.BACNET_APPLICATION_TAG_NULL
      (wp_data.error_class, wp_data.error_code)).1 = true)
    (hprop : wp_data.object_property = BACNET_PROPERTY_ID.PROP_PRESENT_VALUE)
    (hall : wp_data.array_index = cfg.BACNET_ARRAY_ALL)
    (hobj : Multistate_Output_Instance_To_Object list wp_data.object_instance = some obj)
    (hp : wp_data.priority ≠ 0 ∧ wp_data.priority ≤ cfg.BACNET_MAX_PRIORITY
      ∧ wp_data.priority ≠ 6) :
    (Multistate_Output_Write_Property cfg wlib fallthrough list wp_data).status = true
      ∧ Multistate_Output_Instance_To_Object
          (Multistate_Output_Write_Property cfg wlib fallthrough list wp_data).MSO_Descriptor_List
          wp_data.object_instance
        = some (SweepToPresentValue cfg
            { obj with
              priorityFlags := Nat.ldiff obj.priorityFlags (1 <<< (wp_data.priority - 1)) }) := by
  have hinst := instance_of_found list wp_data.object_instance obj hobj
  have hnotreal : ¬ value.tag = BACNET_APPLICATION_TAG.BACNET_APPLICATION_TAG_REAL := by
    rw [hnull]
    decide
  have hrel : Multistate_Output_Present_Value_Relinquish cfg obj wp_data.priority
      = (true, SweepToPresentValue cfg
          { obj with
            priorityFlags := Nat.ldiff obj.priorityFlags (1 <<< (wp_data.priority - 1)) }) := by
    unfold Multistate_Output_Present_Value_Relinquish
    rw [if_pos hp]
  unfold Multistate_Output_Write_Property
  simp only [hdec, not_lt.mpr hlen, if_false, hall, ne_eq, not_true_eq_false, false_and, hobj]
  simp only [write_property_switch, hprop, hnotreal, if_false, call_WPValidateArgType, haccept,
    if_true, hrel, Bool.not_true, Bool.false_eq_true]
  refine ⟨trivial, ?_⟩
  unfold Multistate_Output_Instance_To_Object Generic_Instance_To_Object
  apply find_store_object _ obj
  · rw [(sweep_keeps_other_members cfg _).1]
    exact hinst
  · exact hobj

/-- When the value decodes to a Null, a write of `PROP_PRESENT_VALUE` to an
existing object returns false and leaves the descriptor list as it was if
`WPValidateArgType` refuses the value or the priority is one that
`Multistate_Output_Present_Value_Relinquish` refuses. -/
theorem mso_write_null_refused (cfg : Config) (wlib : WriteLib) (fallthrough : Bool)
    (list : LLIST_HDR) (wp_data : BACNET_WRITE_PROPERTY_DATA) (obj : MULTISTATE_OUTPUT_DESCR)
    (len : Int) (value : BACNET_APPLICATION_DATA_VALUE)
    (hdec : wlib.bacapp_decode_application_data wp_data.application_data
      wp_data.application_data_len = (len, value))
    (hlen : 0 ≤ len)
    (hnull : value.tag = BACNET_APPLICATION_TAG.BACNET_APPLICATION_TAG_NULL)
    (hprop : wp_data.object_property = BACNET_PROPERTY_ID.PROP_PRESENT_VALUE)
    (hall : wp_data.array_index = cfg.BACNET_ARRAY_ALL)
    (hobj : Multistate_Output_Instance_To_Object list wp_data.object_instance = some obj)
    (hrefused :
      (wlib.WPValidateArgType value BACNET_APPLICATION_TAG.BACNET_APPLICATION_TAG_NULL
        (wp_data.error_class, wp_data.error_code)).1 = false
      ∨ ¬ (wp_data.priority ≠ 0 ∧ wp_data.priority ≤ cfg.BACNET_MAX_PRIORITY
        ∧ wp_data.priority ≠ 6)) :
    (Multistate_Output_Write_Property cfg wlib fallthrough list wp_data).status = false
      ∧ (Multistate_Output_Write_Property cfg wlib fallthrough list wp_data).MSO_Descriptor_List
          = list := by
  have hnotreal : ¬ value.tag = BACNET_APPLICATION_TAG.BACNET_APPLICATION_TAG_REAL := by
    rw [hnull]
    decide
  have hsame := store_object_same wp_data.object_instance obj list.items hobj
  unfold Multistate_Output_Write_Property
  simp only [hdec, not_lt.mpr hlen, if_false, hall, ne_eq, not_true_eq_false, false_and, hobj]
  simp only [write_property_switch, hprop, hnotreal, if_false, call_WPValidateArgType]
  cases hacc : (wlib.WPValidateArgType value BACNET_APPLICATION_TAG.BACNET_APPLICATION_TAG_NULL
      (wp_data.error_class, wp_data.error_code)).1 with
  | false =>
    simp only [Bool.false_eq_true, if_false, hsame]
    exact ⟨trivial, trivial⟩
  | true =>
    have hbad : ¬ (wp_data.priority ≠ 0 ∧ wp_data.priority ≤ cfg.BACNET_MAX_PRIORITY
        ∧ wp_data.priority ≠ 6) := by
      rcases hrefused with h | h
      · rw [hacc] at h
        exact absurd h (by decide)
      · exact h
    have hrel : Multistate_Output_Present_Value_Relinquish cfg obj wp_data.priority
        = (false, obj) := by
      unfold Multistate_Output_Present_Value_Relinquish
      rw [if_neg hbad]
    simp only [if_true, hrel, Bool.not_false, hsame]
    exact ⟨trivial, trivial⟩

/-- The integer part of 2.5 is 2. -/
theorem float_to_unsigned_five_halves : float_to_unsigned (5 / 2) = 2 := by
  unfold float_to_unsigned
  have h : ⌊(5 / 2 : Rat)⌋ = 2 := by
    rw [Int.floor_eq_iff]
    constructor <;> norm_num
  rw [h]
  rfl

/-- C20, as stated, fails: object 1 is in service, no priority commands it and
its `Relinquish_Default` is 2.5; a Null written to its present value at
priority 1 returns true and sets `Present_Value` to 2, the integer part, not to
`Relinquish_Default`. -/
theorem mso_relinquish_truncates_relinquish_default :
    (Multistate_Output_Write_Property sampleConfig sampleWriteLib false
        { max := 100, items := [halfDefaultObject] }
        (sampleWrite BACNET_PROPERTY_ID.PROP_PRESENT_VALUE [0] 1)).status = true
      ∧ Multistate_Output_Instance_To_Object
          (Multistate_Output_Write_Property sampleConfig sampleWriteLib false
            { max := 100, items := [halfDefaultObject] }
            (sampleWrite BACNET_PROPERTY_ID.PROP_PRESENT_VALUE [0] 1)).MSO_Descriptor_List 1
        = some (SweepToPresentValue sampleConfig
            { halfDefaultObject with priorityFlags := Nat.ldiff 0 (1 <<< 0) })
      ∧ (SweepToPresentValue sampleConfig
          { halfDefaultObject with priorityFlags := Nat.ldiff 0 (1 <<< 0) }).Out_Of_Service
          = false
      ∧ (SweepToPresentValue sampleConfig
          { halfDefaultObject with priorityFlags := Nat.ldiff 0 (1 <<< 0) }).Present_Value = 2
      ∧ (SweepToPresentValue sampleConfig
          { halfDefaultObject with priorityFlags := Nat.ldiff 0 (1 <<< 0) }).Relinquish_Default
          = 5 / 2
      ∧ ((2 : Nat) : Rat) ≠ 5 / 2 := by
  have h := mso_write_null_accepted sampleConfig sampleWriteLib false
    { max := 100, items := [halfDefaultObject] }
    (sampleWrite BACNET_PROPERTY_ID.PROP_PRESENT_VALUE [0] 1) halfDefaultObject 1
    (sampleValue BACNET_APPLICATION_TAG.BACNET_APPLICATION_TAG_NULL
      BACNET_VALUE_TYPE.indeterminate)
    rfl (by decide) rfl rfl rfl rfl rfl (by decide)
  have hnone : ∀ i, i < sampleConfig.BACNET_MAX_PRIORITY →
      ({ halfDefaultObject with priorityFlags := Nat.ldiff 0 (1 <<< 0) } :
        MULTISTATE_OUTPUT_DESCR).priorityFlags.testBit i = false := by
    intro i _
    show (Nat.ldiff 0 (1 <<< 0)).testBit i = false
    rw [testBit_clear_priority]
    simp
  have ht := (sweep_target_register sampleConfig
    { halfDefaultObject with priorityFlags := Nat.ldiff 0 (1 <<< 0) }).2.1 hnone
  have hk := sweep_keeps_other_members sampleConfig
    { halfDefaultObject with priorityFlags := Nat.ldiff 0 (1 <<< 0) }
  have hoos : (SweepToPresentValue sampleConfig
      { halfDefaultObject with priorityFlags := Nat.ldiff 0 (1 <<< 0) }).Out_Of_Service
      = false := by
    rw [hk.2.2.2.2]
    rfl
  refine ⟨h.1, h.2, hoos, ?_, ?_, by norm_num⟩
  · unfold target_register at ht
    rw [hoos] at ht
    simp only [Bool.false_eq_true, if_false] at ht
    rw [ht]
    show to_present_value sampleConfig (float_to_unsigned (5 / 2)) = 2
    rw [float_to_unsigned_five_halves]
    rfl
  · rw [hk.2.1]
    rfl

/-- C20, amended: take an existing object, `BACNET_MAX_PRIORITY` = 16, and a
write of `PROP_PRESENT_VALUE` with no array index whose value decodes to a
Null.  If `WPValidateArgType` accepts the Null, then for a priority p with
1 <= p <= 16 and p != 6 the write returns true and clears exactly bit p-1 of
`priorityFlags`; the target register (the shadow value when out of service,
otherwise the present value) is assigned through a `float`: with i the
smallest index whose bit is still set it receives `priorityArray[i]` rounded
to a `float` (when that fits the register), which is `priorityArray[i]` itself
when the entry is below 2^24, and with no bit set it receives the integer part
of `Relinquish_Default` (when that is not negative and fits the register); the
other register, `Out_Of_Service`, the priority array and the relinquish default
are unchanged.  If `WPValidateArgType` refuses the Null, or p = 0, p > 16 or
p = 6, the write returns false and the list is as before. -/
theorem mso_write_null_relinquishes_priority (cfg : Config) (wlib : WriteLib)
    (fallthrough : Bool) (list : LLIST_HDR) (wp_data : BACNET_WRITE_PROPERTY_DATA)
    (obj : MULTISTATE_OUTPUT_DESCR) (len : Int) (value : BACNET_APPLICATION_DATA_VALUE)
    (hmax : cfg.BACNET_MAX_PRIORITY = 16)
    (hdec : wlib.bacapp_decode_application_data wp_data.application_data
      wp_data.application_data_len = (len, value))
    (hlen : 0 ≤ len)
    (hnull : value.tag = BACNET_APPLICATION_TAG.BACNET_APPLICATION_TAG_NULL)
    (hprop : wp_data.object_property = BACNET_PROPERTY_ID.PROP_PRESENT_VALUE)
    (hall : wp_data.array_index = cfg.BACNET_ARRAY_ALL)
    (hobj : Multistate_Output_Instance_To_Object list wp_data.object_instance = some obj) :
    ((wlib.WPValidateArgType value BACNET_APPLICATION_TAG.BACNET_APPLICATION_TAG_NULL
          (wp_data.error_class, wp_data.error_code)).1 = true →
      1 ≤ wp_data.priority → wp_data.priority ≤ 16 → wp_data.priority ≠ 6 →
      ∃ obj',
        (Multistate_Output_Write_Property cfg wlib fallthrough list wp_data).status = true
        ∧ Multistate_Output_Instance_To_Object
            (Multistate_Output_Write_Property cfg wlib fallthrough list
              wp_data).MSO_Descriptor_List wp_data.object_instance = some obj'
        ∧ (∀ j, obj'.priorityFlags.testBit j
            = (obj.priorityFlags.testBit j && decide (j ≠ wp_data.priority - 1)))
        ∧ (∀ i, i < 16 → obj'.priorityFlags.testBit i = true →
            (∀ j, j < i → obj'.priorityFlags.testBit j = false) →
              (float_of_unsigned (obj.priorityArray.getD i 0) < 2 ^ cfg.PRESENT_VALUE_BITS →
                target_register obj' = float_of_unsigned (obj.priorityArray.getD i 0))
              ∧ (obj.priorityArray.getD i 0 < 2 ^ 24 →
                  obj.priorityArray.getD i 0 < 2 ^ cfg.PRESENT_VALUE_BITS →
                    target_register obj' = obj.priorityArray.getD i 0))
        ∧ ((∀ i, i < 16 → obj'.priorityFlags.testBit i = false) →
            0 ≤ obj.Relinquish_Default →
            ⌊obj.Relinquish_Default⌋ < 2 ^ cfg.PRESENT_VALUE_BITS →
              (target_register obj' : Int) = ⌊obj.Relinquish_Default⌋)
        ∧ other_register obj' = other_register obj
        ∧ obj'.Out_Of_Service = obj.Out_Of_Service
        ∧ obj'.priorityArray = obj.priorityArray
        ∧ obj'.Relinquish_Default = obj.Relinquish_Default)
    ∧ ((wlib.WPValidateArgType value BACNET_APPLICATION_TAG.BACNET_APPLICATION_TAG_NULL
            (wp_data.error_class, wp_data.error_code)).1 = false
          ∨ wp_data.priority = 0 ∨ 16 < wp_data.priority ∨ wp_data.priority = 6 →
        (Multistate_Output_Write_Property cfg wlib fallthrough list wp_data).status = false
        ∧ (Multistate_Output_Write_Property cfg wlib fallthrough list
            wp_data).MSO_Descriptor_List = list) := by
  constructor
  · intro haccept h1 h16 h6
    have hp : wp_data.priority ≠ 0 ∧ wp_data.priority ≤ cfg.BACNET_MAX_PRIORITY
        ∧ wp_data.priority ≠ 6 := by
      rw [hmax]
      exact ⟨by omega, h16, h6⟩
    have h := mso_write_null_accepted cfg wlib fallthrough list wp_data obj len value hdec hlen
      hnull haccept hprop hall hobj hp
    have hk := sweep_keeps_other_members cfg
      { obj with priorityFlags := Nat.ldiff obj.priorityFlags (1 <<< (wp_data.priority - 1)) }
    have ht := sweep_target_register cfg
      { obj with priorityFlags := Nat.ldiff obj.priorityFlags (1 <<< (wp_data.priority - 1)) }
    rw [hmax] at ht
    refine ⟨_, h.1, h.2, ?_, ?_, ?_, ?_, ?_, ?_, ?_⟩
    · intro j
      rw [hk.2.2.1]
      exact testBit_clear_priority _ _ _
    · intro i hi hset hmin
      rw [hk.2.2.1] at hset hmin
      have hreg := ht.1 i hi hset hmin
      constructor
      · intro hfit
        rw [hreg]
        exact to_present_value_of_lt cfg _ hfit
      · intro h24 hfit
        rw [hreg]
        show to_present_value cfg (float_of_unsigned (obj.priorityArray.getD i 0))
          = obj.priorityArray.getD i 0
        rw [float_of_unsigned_of_lt _ h24]
        exact to_present_value_of_lt cfg _ hfit
    · intro hnone hpos hfit
      rw [hk.2.2.1] at hnone
      rw [ht.2.1 hnone]
      show ((to_present_value cfg (float_to_unsigned obj.Relinquish_Default) : Nat) : Int)
        = ⌊obj.Relinquish_Default⌋
      have hfloor := float_to_unsigned_floor obj.Relinquish_Default hpos
      have hlt : float_to_unsigned obj.Relinquish_Default < 2 ^ cfg.PRESENT_VALUE_BITS := by
        have : ((float_to_unsigned obj.Relinquish_Default : Nat) : Int)
            < ((2 ^ cfg.PRESENT_VALUE_BITS : Nat) : Int) := by
          rw [hfloor]
          exact_mod_cast hfit
        exact_mod_cast this
      rw [to_present_value_of_lt cfg _ hlt]
      exact hfloor
    · rw [ht.2.2]
      rfl
    · rw [hk.2.2.2.2]
    · rw [hk.2.2.2.1]
    · rw [hk.2.1]
  · intro hbad
    apply mso_write_null_refused cfg wlib fallthrough list wp_data obj len value hdec hlen hnull
      hprop hall hobj
    rcases hbad with h | h | h | h
    · exact Or.inl h
    · exact Or.inr (fun hp => hp.1 h)
    · exact Or.inr (fun hp => by rw [hmax] at hp; omega)
    · exact Or.inr (fun hp => hp.2.2 h)

/-- Instance of the amended C20.  Object 1 is out of service and commanded at
priorities 3 (entry 7) and 10 (entry 3), with 7 in the shadow value and 1 in
the present value: a Null written at priority 3 returns true, clears bit 2 and
keeps bit 9, and the shadow value becomes 3, the entry of priority 10, while
the present value stays 1.  With registers of 32 bits, an object in service
whose entry of priority 2 is 16777217 receives 16777216, the nearest `float`,
when priority 1 is relinquished.  A Null written at priority 17 is refused,
and so is a Null at priority 3 when `WPValidateArgType` is the stub that
returns false; both leave the list as it was. -/
theorem mso_write_null_relinquishes_priority_witness :
    (∃ obj',
      (Multistate_Output_Write_Property sampleConfig sampleWriteLib false
          { max := 100, items := [commandedObject] }
          (sampleWrite BACNET_PROPERTY_ID.PROP_PRESENT_VALUE [0] 3)).status = true
      ∧ Multistate_Output_Instance_To_Object
          (Multistate_Output_Write_Property sampleConfig sampleWriteLib false
            { max := 100, items := [commandedObject] }
            (sampleWrite BACNET_PROPERTY_ID.PROP_PRESENT_VALUE [0] 3)).MSO_Descriptor_List 1
          = some obj'
      ∧ commandedObject.priorityFlags.testBit 2 = true
      ∧ obj'.priorityFlags.testBit 2 = false
      ∧ obj'.priorityFlags.testBit 9 = true
      ∧ obj'.Out_Of_Service = true
      ∧ commandedObject.shadow_Present_Value = 7
      ∧ obj'.shadow_Present_Value = 3
      ∧ obj'.Present_Value = 1)
    ∧ (∃ obj',
      Multistate_Output_Instance_To_Object
          (Multistate_Output_Write_Property wideConfig sampleWriteLib false
            { max := 100, items := [largeEntryObject] }
            (sampleWrite BACNET_PROPERTY_ID.PROP_PRESENT_VALUE [0] 1)).MSO_Descriptor_List 1
          = some obj'
      ∧ obj'.priorityArray.getD 1 0 = 16777217
      ∧ obj'.Present_Value = 16777216)
    ∧ (Multistate_Output_Write_Property sampleConfig sampleWriteLib false
          { max := 100, items := [commandedObject] }
          (sampleWrite BACNET_PROPERTY_ID.PROP_PRESENT_VALUE [0] 17)).status = false
    ∧ (Multistate_Output_Write_Property sampleConfig sampleWriteLib false
          { max := 100, items := [commandedObject] }
          (sampleWrite BACNET_PROPERTY_ID.PROP_PRESENT_VALUE [0] 17)).MSO_Descriptor_List
        = { max := 100, items := [commandedObject] }
    ∧ (Multistate_Output_Write_Property sampleConfig stubWriteLib false
          { max := 100, items := [commandedObject] }
          (sampleWrite BACNET_PROPERTY_ID.PROP_PRESENT_VALUE [0] 3)).status = false
    ∧ (Multistate_Output_Write_Property sampleConfig stubWriteLib false
          { max := 100, items := [commandedObject] }
          (sampleWrite BACNET_PROPERTY_ID.PROP_PRESENT_VALUE [0] 3)).MSO_Descriptor_List
        = { max := 100, items := [commandedObject] } := by
  have hcmd := mso_write_null_relinquishes_priority sampleConfig sampleWriteLib false
    { max := 100, items := [commandedObject] }
    (sampleWrite BACNET_PROPERTY_ID.PROP_PRESENT_VALUE [0] 3) commandedObject 1
    (sampleValue BACNET_APPLICATION_TAG.BACNET_APPLICATION_TAG_NULL
      BACNET_VALUE_TYPE.indeterminate)
    rfl rfl (by decide) rfl rfl rfl rfl
  have hwide := mso_write_null_relinquishes_priority wideConfig sampleWriteLib false
    { max := 100, items := [largeEntryObject] }
    (sampleWrite BACNET_PROPERTY_ID.PROP_PRESENT_VALUE [0] 1) largeEntryObject 1
    (sampleValue BACNET_APPLICATION_TAG.BACNET_APPLICATION_TAG_NULL
      BACNET_VALUE_TYPE.indeterminate)
    rfl rfl (by decide) rfl rfl rfl rfl
  have h17 := (mso_write_null_relinquishes_priority sampleConfig sampleWriteLib false
    { max := 100, items := [commandedObject] }
    (sampleWrite BACNET_PROPERTY_ID.PROP_PRESENT_VALUE [0] 17) commandedObject 1
    (sampleValue BACNET_APPLICATION_TAG.BACNET_APPLICATION_TAG_NULL
      BACNET_VALUE_TYPE.indeterminate)
    rfl rfl (by decide) rfl rfl rfl rfl).2 (Or.inr (Or.inr (Or.inl (by decide))))
  have hstub := (mso_write_null_relinquishes_priority sampleConfig stubWriteLib false
    { max := 100, items := [commandedObject] }
    (sampleWrite BACNET_PROPERTY_ID.PROP_PRESENT_VALUE [0] 3) commandedObject 1
    (sampleValue BACNET_APPLICATION_TAG.BACNET_APPLICATION_TAG_NULL
      BACNET_VALUE_TYPE.indeterminate)
    rfl rfl (by decide) rfl rfl rfl rfl).2 (Or.inl rfl)
  obtain ⟨o, hs, hl, hflags, hentry, -, hother, hoos, -, -⟩ :=
    hcmd.1 rfl (by decide) (by decide) (by decide)
  obtain ⟨w, -, hwl, hwflags, hwentry, -, -, hwoos, hwarr, -⟩ :=
    hwide.1 rfl (by decide) (by decide) (by decide)
  have hbit : ∀ j, o.priorityFlags.testBit j
      = (Nat.testBit 516 j && decide (j ≠ 2)) := hflags
  have hwbit : ∀ j, w.priorityFlags.testBit j
      = (Nat.testBit 3 j && decide (j ≠ 0)) := hwflags
  have hoos' : o.Out_Of_Service = true := hoos
  have hwoos' : w.Out_Of_Service = false := hwoos
  have htarget : target_register o = 3 :=
    (hentry 9 (by decide) (by rw [hbit]; decide)
      (fun j hj => by
        rw [hbit]
        interval_cases j <;> decide)).2 (by decide) (by decide)
  have hwtarget : target_register w = 16777216 :=
    (hwentry 1 (by decide) (by rw [hwbit]; decide)
      (fun j hj => by
        rw [hwbit]
        interval_cases j
        decide)).1 (by decide)
  refine ⟨⟨o, hs, hl, by decide, by rw [hbit]; decide, by rw [hbit]; decide, hoos', rfl,
    ?_, ?_⟩, ⟨w, hwl, by rw [hwarr]; rfl, ?_⟩, h17.1, h17.2, hstub.1, hstub.2⟩
  · unfold target_register at htarget
    rw [hoos'] at htarget
    exact htarget
  · unfold other_register at hother
    rw [hoos'] at hother
    exact hother
  · unfold target_register at hwtarget
    rw [hwoos'] at hwtarget
    exact hwtarget


/-- On every send of `Send_WhoIs_To_Network` the buffer handed to
`datalink_send_pdu` starts with the NPDU immediately followed by the APDU,
while `optr` is the one of the control block as allocated. -/
theorem whois_to_network_frame (env : Env) (dest : Ptr) (low_limit high_limit : Int)
    (dlcb : DLCB) (halloc : env.alloc_dlcb_response 't' dest = some dlcb) :
    ∃ sent : DLCB,
      (Send_WhoIs_To_Network env dest low_limit high_limit).getLast? =
          some (Call.datalink_send_pdu env.target_address
            (npdu_setup_npci_data false BACNET_MESSAGE_PRIORITY.MESSAGE_PRIORITY_NORMAL) sent)
        ∧ sent.optr = dlcb.optr
        ∧ sent.Handler_Transmit_Buffer.take
            ((env.npdu_encode_pdu env.target_address (Ptr.address env.my_address)
                (npdu_setup_npci_data false
                  BACNET_MESSAGE_PRIORITY.MESSAGE_PRIORITY_NORMAL)).length
              + (env.whois_encode_apdu low_limit high_limit).length)
          = env.npdu_encode_pdu env.target_address (Ptr.address env.my_address)
                (npdu_setup_npci_data false BACNET_MESSAGE_PRIORITY.MESSAGE_PRIORITY_NORMAL)
              ++ env.whois_encode_apdu low_limit high_limit := by
  refine ⟨{ dlcb with
      Handler_Transmit_Buffer :=
        writeAt
          (writeAt dlcb.Handler_Transmit_Buffer 0
            (env.npdu_encode_pdu env.target_address (Ptr.address env.my_address)
              (npdu_setup_npci_data false BACNET_MESSAGE_PRIORITY.MESSAGE_PRIORITY_NORMAL)))
          (env.npdu_encode_pdu env.target_address (Ptr.address env.my_address)
            (npdu_setup_npci_data false BACNET_MESSAGE_PRIORITY.MESSAGE_PRIORITY_NORMAL)).length
          (env.whois_encode_apdu low_limit high_limit) }, ?_, rfl, ?_⟩
  · unfold Send_WhoIs_To_Network
    simp only [halloc]
    rfl
  · exact writeAt_two_take _ _ _

/-- Instance of the lemma above on the sample environment. -/
theorem whois_to_network_frame_witness :
    ∃ sent : DLCB,
      (Send_WhoIs_To_Network sampleEnv (Ptr.route sampleRoute) 1 100).getLast? =
          some (Call.datalink_send_pdu sampleEnv.target_address
            (npdu_setup_npci_data false BACNET_MESSAGE_PRIORITY.MESSAGE_PRIORITY_NORMAL) sent)
        ∧ sent.optr = 0
        ∧ sent.Handler_Transmit_Buffer.take (2 + 2) = [1, 4] ++ [16, 8] :=
  whois_to_network_frame sampleEnv (Ptr.route sampleRoute) 1 100
    { Handler_Transmit_Buffer := [], optr := 0 } rfl


/-! ## `mso.c`: change of value on a sweep -/

/-- `SweepToPresentValue` leaves `Changed` and `Prior_Value` as they were,
whatever it stores and whether COV is compiled in or not. -/
theorem sweep_keeps_cov_members (cfg : Config) (obj : MULTISTATE_OUTPUT_DESCR) :
    (SweepToPresentValue cfg obj).Changed = obj.Changed
      ∧ (SweepToPresentValue cfg obj).Prior_Value = obj.Prior_Value := by
  unfold SweepToPresentValue
  split_ifs <;> simp

/-- What `Multistate_Output_COV_Detect_PV_Change` does with a value that is not
`Prior_Value`: it sets `Changed` and records the value. -/
theorem cov_detect_on_change (obj : MULTISTATE_OUTPUT_DESCR) (value : Nat)
    (h : value ≠ obj.Prior_Value) :
    (Multistate_Output_COV_Detect_PV_Change obj value).Changed = true
      ∧ (Multistate_Output_COV_Detect_PV_Change obj value).Prior_Value = value := by
  unfold Multistate_Output_COV_Detect_PV_Change
  simp [h]

/-- Instance of the lemma above: the value 3 seen by an object that reported 0. -/
theorem cov_detect_on_change_witness :
    (Multistate_Output_COV_Detect_PV_Change covObject 3).Changed = true
      ∧ (Multistate_Output_COV_Detect_PV_Change covObject 3).Prior_Value = 3 :=
  cov_detect_on_change covObject 3 (by decide)

/-- C21, on the code: COV is compiled in, object 1 has reported the value 0
(`Prior_Value` 0, `Changed` false) and `SweepToPresentValue` stores the present
value 3, which differs from `Prior_Value`; yet `Changed` stays false,
`Prior_Value` stays 0 and `Multistate_Output_Change_Of_Value` returns false
afterwards: the sweep does not call `Multistate_Output_COV_Detect_PV_Change`. -/
theorem sweep_does_not_detect_change :
    sampleConfig.BACNET_SVC_COV_B = true
      ∧ covObject.Prior_Value = 0
      ∧ (SweepToPresentValue sampleConfig covObject).Out_Of_Service = false
      ∧ (SweepToPresentValue sampleConfig covObject).Present_Value = 3
      ∧ (SweepToPresentValue sampleConfig covObject).Changed = false
      ∧ (SweepToPresentValue sampleConfig covObject).Prior_Value = 0
      ∧ Multistate_Output_Change_Of_Value
          { max := 100, items := [SweepToPresentValue sampleConfig covObject] } 1
        = (false, 0) := by
  have hk := sweep_keeps_other_members sampleConfig covObject
  have hc := sweep_keeps_cov_members sampleConfig covObject
  have hnone : ∀ i, i < sampleConfig.BACNET_MAX_PRIORITY →
      covObject.priorityFlags.testBit i = false := by
    intro i _
    show (0 : Nat).testBit i = false
    simp
  have ht := (sweep_target_register sampleConfig covObject).2.1 hnone
  have hoos : (SweepToPresentValue sampleConfig covObject).Out_Of_Service = false := by
    rw [hk.2.2.2.2]
    rfl
  have hpv : (SweepToPresentValue sampleConfig covObject).Present_Value = 3 := by
    unfold target_register at ht
    rw [hoos] at ht
    simp only [Bool.false_eq_true, if_false] at ht
    rw [ht]
    exact float_to_unsigned_natCast 3
  have hch : (SweepToPresentValue sampleConfig covObject).Changed = false := by
    rw [hc.1]
    rfl
  have hpr : (SweepToPresentValue sampleConfig covObject).Prior_Value = 0 := by
    rw [hc.2]
    rfl
  refine ⟨rfl, rfl, hoos, hpv, hch, hpr, ?_⟩
  have hinst : (SweepToPresentValue sampleConfig covObject).common.objectInstance = 1 := by
    rw [hk.1]
    rfl
  unfold Multistate_Output_Change_Of_Value Multistate_Output_Instance_To_Object
    Generic_Instance_To_Object
  simp [List.find?, hinst, hch]


/-! ## `mso.c`: writing a state text -/

/-- What a write of `PROP_STATE_TEXT[i]` comes to, for an existing object, a
value that decodes to a character string and an index i that is not 0, not
`BACNET_ARRAY_ALL` and at most the number of states:
`Multistate_Output_State_Text_Write` decides. -/
theorem mso_write_state_text_element (cfg : Config) (wlib : WriteLib) (fallthrough : Bool)
    (list : LLIST_HDR) (wp_data : BACNET_WRITE_PROPERTY_DATA) (obj : MULTISTATE_OUTPUT_DESCR)
    (len : Int) (value : BACNET_APPLICATION_DATA_VALUE)
    (hdec : wlib.bacapp_decode_application_data wp_data.application_data
      wp_data.application_data_len = (len, value))
    (hlen : 0 ≤ len)
    (htag : value.tag = BACNET_APPLICATION_TAG.BACNET_APPLICATION_TAG_CHARACTER_STRING)
    (hprop : wp_data.object_property = BACNET_PROPERTY_ID.PROP_STATE_TEXT)
    (hi0 : wp_data.array_index ≠ 0)
    (hiall : wp_data.array_index ≠ cfg.BACNET_ARRAY_ALL)
    (hile : wp_data.array_index ≤ cfg.MULTISTATE_NUMBER_OF_STATES)
    (hobj : Multistate_Output_Instance_To_Object list wp_data.object_instance = some obj) :
    Multistate_Output_Write_Property cfg wlib fallthrough list wp_data =
      { status :=
          (Multistate_Output_State_Text_Write cfg wlib obj wp_data.array_index
            value.type.getCharacter_String wp_data).1
        wp_data :=
          (Multistate_Output_State_Text_Write cfg wlib obj wp_data.array_index
            value.type.getCharacter_String wp_data).2.2
        MSO_Descriptor_List :=
          { list with
            items :=
              store_object wp_data.object_instance
                (Multistate_Output_State_Text_Write cfg wlib obj wp_data.array_index
                  value.type.getCharacter_String wp_data).2.1 list.items }
        panics := 0 } := by
  have hcond : ¬ (wp_data.array_index ≠ cfg.BACNET_ARRAY_ALL
      ∧ (cfg.INTRINSIC_REPORTING_B = true →
          wp_data.object_property ≠ BACNET_PROPERTY_ID.PROP_EVENT_TIME_STAMPS)
      ∧ wp_data.object_property ≠ BACNET_PROPERTY_ID.PROP_PRIORITY_ARRAY
      ∧ wp_data.object_property ≠ BACNET_PROPERTY_ID.PROP_STATE_TEXT
      ∧ wp_data.object_property ≠ BACNET_PROPERTY_ID.PROP_PROPERTY_LIST) := by
    rw [hprop]
    simp
  unfold Multistate_Output_Write_Property
  rw [hdec]
  simp only [not_lt.mpr hlen, if_false, hcond, hobj]
  simp only [write_property_switch, hprop, htag, if_true, hi0, hiall, if_false,
    Multistate_Output_Max_States, hile]

/-- A write of `PROP_STATE_TEXT[i]` with i below the number of states, of a
UTF-8 string that fits the element and that `characterstring_ansi_copy` copies
as `text`, returns true and stores `text` in `State_Text[i-1]`. -/
theorem mso_write_state_text_below_last (cfg : Config) (wlib : WriteLib) (fallthrough : Bool)
    (list : LLIST_HDR) (wp_data : BACNET_WRITE_PROPERTY_DATA) (obj : MULTISTATE_OUTPUT_DESCR)
    (len : Int) (value : BACNET_APPLICATION_DATA_VALUE) (text : List Nat)
    (hdec : wlib.bacapp_decode_application_data wp_data.application_data
      wp_data.application_data_len = (len, value))
    (hlen : 0 ≤ len)
    (htag : value.tag = BACNET_APPLICATION_TAG.BACNET_APPLICATION_TAG_CHARACTER_STRING)
    (hprop : wp_data.object_property = BACNET_PROPERTY_ID.PROP_STATE_TEXT)
    (hi0 : wp_data.array_index ≠ 0)
    (hiall : wp_data.array_index ≠ cfg.BACNET_ARRAY_ALL)
    (hilt : wp_data.array_index < cfg.MULTISTATE_NUMBER_OF_STATES)
    (hobj : Multistate_Output_Instance_To_Object list wp_data.object_instance = some obj)
    (hfit : characterstring_length value.type.getCharacter_String ≤ wlib.STATE_TEXT_SIZE)
    (hutf : characterstring_encoding value.type.getCharacter_String = wlib.CHARACTER_UTF8)
    (hcopy : wlib.characterstring_ansi_copy wlib.STATE_TEXT_SIZE
      value.type.getCharacter_String = some text) :
    (Multistate_Output_Write_Property cfg wlib fallthrough list wp_data).status = true
      ∧ Multistate_Output_Instance_To_Object
          (Multistate_Output_Write_Property cfg wlib fallthrough list wp_data).MSO_Descriptor_List
          wp_data.object_instance
        = some { obj with State_Text := obj.State_Text.set (wp_data.array_index - 1) text } := by
  have hinst := instance_of_found list wp_data.object_instance obj hobj
  have hw : Multistate_Output_State_Text_Write cfg wlib obj wp_data.array_index
      value.type.getCharacter_String wp_data
      = (true, { obj with State_Text := obj.State_Text.set (wp_data.array_index - 1) text },
          wp_data) := by
    unfold Multistate_Output_State_Text_Write
    simp only [hilt, if_true, hfit, hutf, hcopy]
  rw [mso_write_state_text_element cfg wlib fallthrough list wp_data obj len value hdec hlen
    htag hprop hi0 hiall (le_of_lt hilt) hobj, hw]
  refine ⟨rfl, ?_⟩
  unfold Multistate_Output_Instance_To_Object Generic_Instance_To_Object
  apply find_store_object _ obj
  · exact hinst
  · exact hobj

/-- A write of `PROP_STATE_TEXT[i]` with i equal to the number of states is
refused whatever the string: it returns false with `VALUE_OUT_OF_RANGE` and
leaves the list as it was. -/
theorem mso_write_state_text_last_refused (cfg : Config) (wlib : WriteLib) (fallthrough : Bool)
    (list : LLIST_HDR) (wp_data : BACNET_WRITE_PROPERTY_DATA) (obj : MULTISTATE_OUTPUT_DESCR)
    (len : Int) (value : BACNET_APPLICATION_DATA_VALUE)
    (hdec : wlib.bacapp_decode_application_data wp_data.application_data
      wp_data.application_data_len = (len, value))
    (hlen : 0 ≤ len)
    (htag : value.tag = BACNET_APPLICATION_TAG.BACNET_APPLICATION_TAG_CHARACTER_STRING)
    (hprop : wp_data.object_property = BACNET_PROPERTY_ID.PROP_STATE_TEXT)
    (hi0 : wp_data.array_index ≠ 0)
    (hiall : wp_data.array_index ≠ cfg.BACNET_ARRAY_ALL)
    (hlast : wp_data.array_index = cfg.MULTISTATE_NUMBER_OF_STATES)
    (hobj : Multistate_Output_Instance_To_Object list wp_data.object_instance = some obj) :
    Multistate_Output_Write_Property cfg wlib fallthrough list wp_data =
      { status := false
        wp_data :=
          { wp_data with
            error_class := BACNET_ERROR_CLASS.ERROR_CLASS_PROPERTY
            error_code := BACNET_ERROR_CODE.ERROR_CODE_VALUE_OUT_OF_RANGE }
        MSO_Descriptor_List := list
        panics := 0 } := by
  have hw : Multistate_Output_State_Text_Write cfg wlib obj wp_data.array_index
      value.type.getCharacter_String wp_data
      = (false, obj,
          set_wp_error wp_data BACNET_ERROR_CLASS.ERROR_CLASS_PROPERTY
            BACNET_ERROR_CODE.ERROR_CODE_VALUE_OUT_OF_RANGE) := by
    unfold Multistate_Output_State_Text_Write
    rw [if_neg]
    rw [hlast]
    exact lt_irrefl _
  rw [mso_write_state_text_element cfg wlib fallthrough list wp_data obj len value hdec hlen
    htag hprop hi0 hiall (le_of_eq hlast) hobj, hw]
  simp only [store_object_same wp_data.object_instance obj list.items hobj, set_wp_error]

/-- A read of `PROP_STATE_TEXT[i]`, for an existing object and an index i that
is not 0, not `BACNET_ARRAY_ALL` and at most the number of states, returns the
encoding of the text held in `State_Text[i-1]`. -/
theorem mso_read_state_text_element (cfg : Config) (lib : Lib) (list : LLIST_HDR)
    (rpdata : BACNET_READ_PROPERTY_DATA) (obj : MULTISTATE_OUTPUT_DESCR)
    (hprop : rpdata.object_property = BACNET_PROPERTY_ID.PROP_STATE_TEXT)
    (hi0 : rpdata.array_index ≠ 0)
    (hiall : rpdata.array_index ≠ cfg.BACNET_ARRAY_ALL)
    (hile : rpdata.array_index ≤ cfg.MULTISTATE_NUMBER_OF_STATES)
    (hobj : Multistate_Output_Instance_To_Object list rpdata.object_instance = some obj)
    (hbuf : rpdata.application_data_len ≠ 0) :
    Multistate_Output_Read_Property cfg lib list rpdata =
      { apdu_len :=
          ((lib.encode_application_character_string
            (lib.characterstring_init_ansi
              (some (obj.State_Text.getD (rpdata.array_index - 1) [])))).length : Int)
        rpdata :=
          { rpdata with
            application_data :=
              writeAt rpdata.application_data 0
                (lib.encode_application_character_string
                  (lib.characterstring_init_ansi
                    (some (obj.State_Text.getD (rpdata.array_index - 1) [])))) }
        panics := 0 } := by
  unfold Multistate_Output_Read_Property
  simp [hobj, hbuf, read_property_switch, hprop, hi0, hiall, Multistate_Output_Max_States, hile,
    read_property_array_check, encode_at_start, Multistate_Output_State_Text_Get]


/-- Instance of the lemmas above: "On" written to `STATE_TEXT[3]` of object 1 (of
four states) is accepted, and a following read of `STATE_TEXT[3]` returns the
five octets of "On". -/
theorem mso_state_text_write_then_read_witness :
    (Multistate_Output_Write_Property sampleConfig textWriteLib false sampleList
        (stateTextWrite 3)).status = true
      ∧ (Multistate_Output_Read_Property sampleConfig sampleLib
          (Multistate_Output_Write_Property sampleConfig textWriteLib false sampleList
            (stateTextWrite 3)).MSO_Descriptor_List (stateTextRead 3)).apdu_len = 5
      ∧ (Multistate_Output_Read_Property sampleConfig sampleLib
          (Multistate_Output_Write_Property sampleConfig textWriteLib false sampleList
            (stateTextWrite 3)).MSO_Descriptor_List
          (stateTextRead 3)).rpdata.application_data.take 5 = sampleTextOctets := by
  have hw := mso_write_state_text_below_last sampleConfig textWriteLib false sampleList
    (stateTextWrite 3) (sampleObject 1) 5
    (sampleValue BACNET_APPLICATION_TAG.BACNET_APPLICATION_TAG_CHARACTER_STRING
      (BACNET_VALUE_TYPE.Character_String sampleText))
    [79, 110] rfl (by decide) rfl rfl (by decide) (by decide) (by decide) rfl (by decide) rfl rfl
  have hr := mso_read_state_text_element sampleConfig sampleLib
    (Multistate_Output_Write_Property sampleConfig textWriteLib false sampleList
      (stateTextWrite 3)).MSO_Descriptor_List (stateTextRead 3) _ rfl (by decide) (by decide)
    (by decide) hw.2 (by decide)
  rw [hr]
  exact ⟨hw.1, rfl, rfl⟩

/-- C22, on the code: object 1 has four states and `Multistate_Output_Read_Property`
accepts `STATE_TEXT[4]`, but writing to `STATE_TEXT[4]` the UTF-8 string "On",
which fits the element of 64 octets, returns false with `VALUE_OUT_OF_RANGE`
and leaves the state texts as they were: `Multistate_Output_State_Text_Write`
compares the index with the number of states before it decrements it. -/
theorem mso_state_text_last_element_not_writable :
    sampleConfig.MULTISTATE_NUMBER_OF_STATES = 4
      ∧ (Multistate_Output_Read_Property sampleConfig sampleLib sampleList
          (stateTextRead 4)).apdu_len = 3
      ∧ characterstring_encoding sampleText = textWriteLib.CHARACTER_UTF8
      ∧ characterstring_length sampleText ≤ textWriteLib.STATE_TEXT_SIZE
      ∧ textWriteLib.characterstring_ansi_copy textWriteLib.STATE_TEXT_SIZE sampleText
          = some [79, 110]
      ∧ Multistate_Output_Write_Property sampleConfig textWriteLib false sampleList
          (stateTextWrite 4)
        = { status := false
            wp_data :=
              { stateTextWrite 4 with
                error_class := BACNET_ERROR_CLASS.ERROR_CLASS_PROPERTY
                error_code := BACNET_ERROR_CODE.ERROR_CODE_VALUE_OUT_OF_RANGE }
            MSO_Descriptor_List := sampleList
            panics := 0 } := by
  have hr := mso_read_state_text_element sampleConfig sampleLib sampleList (stateTextRead 4)
    (sampleObject 1) rfl (by decide) (by decide) (by decide) rfl (by decide)
  have hw := mso_write_state_text_last_refused sampleConfig textWriteLib false sampleList
    (stateTextWrite 4) (sampleObject 1) 5
    (sampleValue BACNET_APPLICATION_TAG.BACNET_APPLICATION_TAG_CHARACTER_STRING
      (BACNET_VALUE_TYPE.Character_String sampleText))
    rfl (by decide) rfl rfl (by decide) (by decide) rfl rfl
  refine ⟨rfl, ?_, rfl, by decide, rfl, hw⟩
  rw [hr]
  rfl

end BACnet
